import Mathlib

/-!
# DCV extension virtual-channel samples: a shallow embedding

The development embeds the two ports of the virtual-channel example,
`examples/c/extension-virtual-channel-c/src/main.c` (namespace `C`) and
`examples/cpp/extension-virtual-channel-cpp/src/main.cpp` (namespace `Cpp`),
and proves properties of the embedded functions.

Conventions of the embedding

* The operating system is a state machine over an arbitrary state type `σ`;
  `Win32 σ` lists the API entry points the sources call.  Nothing is assumed
  about them beyond what a theorem states as a hypothesis.
* A program state `St σ` is the operating-system state together with a ghost
  trace: every file, pipe and timing call (`ReadFile`, `WriteFile`,
  `FlushFileBuffers`, `CreateFileA`, `WaitNamedPipeA`, `CloseHandle`, `Sleep`),
  and every call `main` makes to one of its subroutines, appends one entry
  tagged with the source function issuing it.
* `DWORD` values are naturals reduced modulo `2 ^ 32` where the source does
  arithmetic on them.  `HANDLE` is `Option Nat`, `none` being
  `INVALID_HANDLE_VALUE`.
* Loops that the source does not bound (`WriteToHandle`,
  `SetupAndConnectNamedPipe`) and the read loop take a fuel argument; `none`
  means the fuel ran out before the loop ended.
* The calls of the diagnostic sink (`log_init`, `log_f`) are left out of
  `main` and its subroutines: the lifecycle theorems are about a sink whose
  calls return and leave the protocol state alone.  The sink of the C++ port,
  `examples/cpp/extension-virtual-channel-cpp/src/simplelogger.c`, is embedded
  on its own (`log_init`, `log_f`), over the C library entry points it calls
  (`Libc`).
* The generated protobuf code is not part of the sources; the message types
  are modelled from the specification and the pack/unpack entry points are
  parameters.
-/

namespace DcvExt

/-! ## Machine words, handles, byte order -/

abbrev Byte := Fin 256

/-- Modulus of `DWORD` and `uint32_t` arithmetic. -/
def DWORD_MOD : Nat := 2 ^ 32

abbrev HANDLE := Option Nat

def INVALID_HANDLE_VALUE : HANDLE := none

/-- Value of `ERROR_PIPE_BUSY` in `winerror.h`. -/
def ERROR_PIPE_BUSY : Nat := 231

inductive StdHandle
  | STD_INPUT_HANDLE
  | STD_OUTPUT_HANDLE
  deriving DecidableEq, Repr

inductive ByteOrder
  | little
  | big
  deriving DecidableEq, Repr

/-- Little-endian bytes of a 32-bit word. -/
def le32 (n : Nat) : List Byte :=
  [Fin.ofNat (n % 256), Fin.ofNat (n / 256 % 256), Fin.ofNat (n / 65536 % 256),
   Fin.ofNat (n / 16777216 % 256)]

/-- The object representation of a 32-bit word (`(uint8_t*)&msg_sz`). -/
def storeU32 (bo : ByteOrder) (n : Nat) : List Byte :=
  match bo with
  | .little => le32 n
  | .big => (le32 n).reverse

/-- The word whose object representation is a list of four bytes. -/
def loadU32 (bo : ByteOrder) (bs : List Byte) : Nat :=
  match bo, bs with
  | .little, [b0, b1, b2, b3] => b0.val + 256 * b1.val + 65536 * b2.val + 16777216 * b3.val
  | .big, [b3, b2, b1, b0] => b0.val + 256 * b1.val + 65536 * b2.val + 16777216 * b3.val
  | _, _ => 0

/-- Two's-complement reading of a 32-bit pattern as a C `int`. -/
def toInt32 (n : Nat) : Int :=
  if n % DWORD_MOD < 2 ^ 31 then (n % DWORD_MOD : Nat) else (n % DWORD_MOD : Nat) - (DWORD_MOD : Int)

/-- Conversion of a C `int` to `DWORD`. -/
def toDWORD (i : Int) : Nat := (i % (DWORD_MOD : Int)).toNat

/-- Store of `data` into `buffer` starting at offset `off`
(`offset_buf = buffer + off`). -/
def writeAt (buffer : List Byte) (off : Nat) (data : List Byte) : List Byte :=
  buffer.take off ++ data ++ buffer.drop (off + data.length)

/-! ## Protocol messages -/

/-- Modelled from the spec: the status code of a `Response`
(`{Success, Failure-variants…}`); the generated enum is not in the sources. -/
inductive Status
  | SUCCESS
  | other (code : Nat)
  deriving DecidableEq, Repr

/-- Modelled from the spec: the payload of a successful setup response, a
relay path and an auth token. -/
structure SetupVirtualChannelResponse where
  relay_path : String
  virtual_channel_auth_token : List Byte
  deriving DecidableEq, Repr

/-- Modelled from the spec: the `oneof` of a `Response`. -/
inductive ResponseCase
  | NOT_SET
  | SETUP_VIRTUAL_CHANNEL_RESPONSE (r : SetupVirtualChannelResponse)
  | CLOSE_VIRTUAL_CHANNEL_RESPONSE
  | other (tag : Nat)
  deriving DecidableEq, Repr

/-- Modelled from the spec: a `Response` carries a status and a payload. -/
structure Response where
  request_id : String
  status : Status
  response_case : ResponseCase
  deriving DecidableEq, Repr

/-- Modelled from the spec: the `oneof` of an `Event`. -/
inductive EventCase
  | NOT_SET
  | VIRTUAL_CHANNEL_READY_EVENT
  | other (tag : Nat)
  deriving DecidableEq, Repr

/-- Modelled from the spec: a host-pushed `Event`. -/
structure Event where
  event_case : EventCase
  deriving DecidableEq, Repr

/-- Modelled from the spec: a message from the host, `DcvMessage{Response|Event}`. -/
inductive DcvMessage
  | NOT_SET
  | MSG_RESPONSE (response : Response)
  | MSG_EVENT (event : Event)
  deriving DecidableEq, Repr

/-- Modelled from the spec: the `oneof` of a `Request`. -/
inductive RequestCase
  | SETUP_VIRTUAL_CHANNEL_REQUEST (virtual_channel_name : String) (relay_client_process_id : Nat)
  | CLOSE_VIRTUAL_CHANNEL_REQUEST (virtual_channel_name : String)
  deriving DecidableEq, Repr

/-- Modelled from the spec: a `Request` with its identifier. -/
structure Request where
  request_id : String
  request_case : RequestCase
  deriving DecidableEq, Repr

/-- Modelled from the spec: a message to the host, `ExtensionMessage{Request}`. -/
structure ExtensionMessage where
  request : Request
  deriving DecidableEq, Repr

/-! ## The operating system and the ghost trace -/

/-- The Win32 entry points used by the sources, as functions of an
operating-system state.  `ReadFile` returns `none` for `FALSE` and the bytes
stored through `lpBuffer` otherwise; `WriteFile` receives the object
`lpBuffer` points into and `nNumberOfBytesToWrite`, and returns `none` for
`FALSE` and `*lpNumberOfBytesWritten` otherwise. -/
structure Win32 (σ : Type) where
  GetStdHandle : σ → StdHandle → HANDLE
  ReadFile : σ → HANDLE → Nat → Option (List Byte) × σ
  WriteFile : σ → HANDLE → List Byte → Nat → Option Nat × σ
  FlushFileBuffers : σ → HANDLE → Bool × σ
  CreateFileA : σ → String → HANDLE × σ
  GetLastError : σ → Nat
  WaitNamedPipeA : σ → String → Nat → Bool × σ
  CloseHandle : σ → HANDLE → σ
  Sleep : σ → Nat → σ
  GetCurrentProcessId : σ → Nat
  /-- Entry point `UuidCreate` followed by `UuidToStringA`. -/
  UuidCreate : σ → String × σ
  /-- Whether an allocation of the given size returns a non-null pointer. -/
  calloc : σ → Nat → Bool
  byteOrder : ByteOrder
  /-- Indeterminate content of uninitialised automatic storage. -/
  uninit : Nat → Byte

/-- Source functions that issue calls. -/
inductive Fn
  | main
  | ReadFromHandle
  | WriteToHandle
  | ReadNextMessage
  | WriteMessage
  | RequestVirtualChannel
  | CloseVirtualChannel
  | SetupAndConnectNamedPipe
  deriving DecidableEq, Repr

/-- Calls recorded in the trace: the Win32 calls with their arguments, and the
subroutine calls of `main` (those returning a value are recorded on return,
with the value). -/
inductive Call
  | ReadFile (h : HANDLE) (nNumberOfBytesToRead : Nat)
  | WriteFile (h : HANDLE) (buffer : List Byte) (nNumberOfBytesToWrite : Nat)
  | FlushFileBuffers (h : HANDLE)
  | CreateFileA (path : String)
  | WaitNamedPipeA (path : String) (timeout : Nat)
  | CloseHandle (h : HANDLE)
  | Sleep (ms : Nat)
  | StoreReadBuffer (index : Nat)
  | RequestVirtualChannel
  | CloseVirtualChannel
  | ReadNextMessage (result : Option DcvMessage)
  | SetupAndConnectNamedPipe (relay_path : String) (result : HANDLE)
  deriving DecidableEq, Repr

structure Entry where
  fn : Fn
  call : Call
  deriving DecidableEq, Repr

/-- Program state: operating-system state, the C++ port's global
`last_request_id`, and the ghost trace. -/
structure St (σ : Type) where
  os : σ
  last_request_id : Nat
  trace : List Entry

/-- State at process start. -/
def St.start {σ : Type} (o : σ) : St σ := { os := o, last_request_id := 1, trace := [] }

def St.log {σ : Type} (s : St σ) (fn : Fn) (c : Call) : St σ :=
  { s with trace := s.trace ++ [⟨fn, c⟩] }

section Calls

variable {σ : Type} (env : Win32 σ)

def doReadFile (fn : Fn) (s : St σ) (h : HANDLE) (n : Nat) : Option (List Byte) × St σ :=
  ((env.ReadFile s.os h n).1,
   { s with os := (env.ReadFile s.os h n).2, trace := s.trace ++ [⟨fn, .ReadFile h n⟩] })

def doWriteFile (fn : Fn) (s : St σ) (h : HANDLE) (buffer : List Byte) (n : Nat) :
    Option Nat × St σ :=
  ((env.WriteFile s.os h buffer n).1,
   { s with os := (env.WriteFile s.os h buffer n).2,
            trace := s.trace ++ [⟨fn, .WriteFile h buffer n⟩] })

def doFlushFileBuffers (fn : Fn) (s : St σ) (h : HANDLE) : Bool × St σ :=
  ((env.FlushFileBuffers s.os h).1,
   { s with os := (env.FlushFileBuffers s.os h).2,
            trace := s.trace ++ [⟨fn, .FlushFileBuffers h⟩] })

def doCreateFileA (fn : Fn) (s : St σ) (path : String) : HANDLE × St σ :=
  ((env.CreateFileA s.os path).1,
   { s with os := (env.CreateFileA s.os path).2, trace := s.trace ++ [⟨fn, .CreateFileA path⟩] })

def doWaitNamedPipeA (fn : Fn) (s : St σ) (path : String) (timeout : Nat) : Bool × St σ :=
  ((env.WaitNamedPipeA s.os path timeout).1,
   { s with os := (env.WaitNamedPipeA s.os path timeout).2,
            trace := s.trace ++ [⟨fn, .WaitNamedPipeA path timeout⟩] })

def doCloseHandle (fn : Fn) (s : St σ) (h : HANDLE) : St σ :=
  { s with os := env.CloseHandle s.os h, trace := s.trace ++ [⟨fn, .CloseHandle h⟩] }

def doSleep (fn : Fn) (s : St σ) (ms : Nat) : St σ :=
  { s with os := env.Sleep s.os ms, trace := s.trace ++ [⟨fn, .Sleep ms⟩] }

/-! ## Functions common to both ports

`ReadFromHandle`, `WriteToHandle` and `SetupAndConnectNamedPipe` are the same
text in `main.c` and `main.cpp` (up to `NULL`/`nullptr` and logging), so each
is embedded once. -/

/-- Function `ReadFromHandle(handle, buffer, size)`: the `while (bytes_read < size)`
loop, from the state `bytes_read`, `buffer`. -/
def ReadFromHandle.loop (handle : HANDLE) (size : Nat) :
    Nat → Nat → List Byte → St σ → Option (Bool × List Byte × St σ)
  | 0, bytes_read, buffer, s =>
    if bytes_read < size then none else some (true, buffer, s)
  | fuel + 1, bytes_read, buffer, s =>
    if bytes_read < size then
      let remaining_bytes := size - bytes_read
      match doReadFile env .ReadFromHandle s handle remaining_bytes with
      | (none, s1) => some (false, buffer, s1)
      | (some data, s1) =>
        if data.length = 0 then some (false, buffer, s1)
        else
          ReadFromHandle.loop handle size fuel ((bytes_read + data.length) % DWORD_MOD)
            (writeAt buffer bytes_read data) s1
    else some (true, buffer, s)

/-- Function `ReadFromHandle`: result `BOOL`, final content of `buffer`, final state. -/
def ReadFromHandle (fuel : Nat) (handle : HANDLE) (buffer : List Byte) (size : Nat) (s : St σ) :
    Option (Bool × List Byte × St σ) :=
  ReadFromHandle.loop env handle size fuel 0 buffer s

/-- Reads never store more than was asked for (the contract of `ReadFile`). -/
def ReadsWithinRequest : Prop :=
  ∀ (o : σ) (h : HANDLE) (n : Nat) (d : List Byte) (o1 : σ),
    env.ReadFile o h n = (some d, o1) → d.length ≤ n

/-- Relation `Delivers env handle o n data k o1`: from operating-system state `o`,
successive reads on `handle`, each asking for what is still outstanding of `n`
bytes, deliver `n` bytes in total, namely `data`, in `k` reads ending in state
`o1`, and none of these reads reports an error or returns 0 bytes. -/
inductive Delivers (handle : HANDLE) : σ → Nat → List Byte → Nat → σ → Prop
  | done (o : σ) : Delivers handle o 0 [] 0 o
  | read {o o1 o2 : σ} {n k : Nat} {d rest : List Byte} :
      0 < n → env.ReadFile o handle n = (some d, o1) → d ≠ [] →
      Delivers handle o1 (n - d.length) rest k o2 →
      Delivers handle o n (d ++ rest) (k + 1) o2

end Calls

section Common

variable {σ : Type} (env : Win32 σ)

/-- Function `WriteToHandle(handle, buffer, size)`: the `while (bytes_written < size)`
loop, from the state `bytes_written`.  The source does not test
`curr_written` for 0. -/
def WriteToHandle.loop (handle : HANDLE) (buffer : List Byte) (size : Nat) :
    Nat → Nat → St σ → Option (Bool × St σ)
  | 0, bytes_written, s =>
    if bytes_written < size then none else some (true, s)
  | fuel + 1, bytes_written, s =>
    if bytes_written < size then
      let remaining_bytes := size - bytes_written
      match doWriteFile env .WriteToHandle s handle (buffer.drop bytes_written)
          remaining_bytes with
      | (none, s1) => some (false, s1)
      | (some curr_written, s1) =>
        WriteToHandle.loop handle buffer size fuel ((bytes_written + curr_written) % DWORD_MOD) s1
    else some (true, s)

/-- Function `WriteToHandle`: result `BOOL` and final state. -/
def WriteToHandle (fuel : Nat) (handle : HANDLE) (buffer : List Byte) (size : Nat) (s : St σ) :
    Option (Bool × St σ) :=
  WriteToHandle.loop env handle buffer size fuel 0 s

/-- Function `SetupAndConnectNamedPipe(relay_path)`: the `while (TRUE)` loop; the result
is the value of `named_pipe_handle` on leaving the loop. -/
def SetupAndConnectNamedPipe (relay_path : String) : Nat → St σ → Option (HANDLE × St σ)
  | 0, _ => none
  | fuel + 1, s =>
    match doCreateFileA env .SetupAndConnectNamedPipe s relay_path with
    | (named_pipe_handle, s1) =>
      if named_pipe_handle ≠ INVALID_HANDLE_VALUE then some (named_pipe_handle, s1)
      else
        let res := env.GetLastError s1.os
        if res ≠ ERROR_PIPE_BUSY then some (named_pipe_handle, s1)
        else
          match doWaitNamedPipeA env .SetupAndConnectNamedPipe s1 relay_path 10000 with
          | (false, s2) => some (named_pipe_handle, s2)
          | (true, s2) => SetupAndConnectNamedPipe relay_path fuel s2

/-- The bytes of a C string, with its terminating NUL. -/
def cstr (text : String) : List Byte :=
  text.toList.map (fun c => Fin.ofNat c.toNat) ++ [0]

def READ_BUFFER_SIZE : Nat := 4096

end Common

/-! ## The C port (`main.c`) -/

/-- The protobuf-c entry points generated from the schema, as parameters. -/
structure ProtobufC where
  /-- Entry point `dcv__extensions__extension_message__get_packed_size`. -/
  get_packed_size : ExtensionMessage → Nat
  /-- The bytes `dcv__extensions__extension_message__pack` stores into `buf`. -/
  pack : ExtensionMessage → List Byte
  /-- Entry point `dcv__extensions__dcv_message__unpack(NULL, len, data)`, `none` for `NULL`. -/
  unpack : Nat → List Byte → Option DcvMessage

namespace C

variable {σ : Type} (env : Win32 σ) (pb : ProtobufC)

def CHANNEL_NAME : String := "echo"

/-- Function `ReadNextMessage()`: `none` inside the result is the `NULL` return. -/
def ReadNextMessage (fuel : Nat) (s : St σ) : Option (Option DcvMessage × St σ) :=
  let input_handle := env.GetStdHandle s.os .STD_INPUT_HANDLE
  if input_handle = INVALID_HANDLE_VALUE then some (none, s)
  else
    match ReadFromHandle env fuel input_handle (storeU32 env.byteOrder 0) 4 s with
    | none => none
    | some (false, _, s1) => some (none, s1)
    | some (true, sz, s1) =>
      let msg_sz := loadU32 env.byteOrder sz
      if env.calloc s1.os msg_sz = false then some (none, s1)
      else
        match ReadFromHandle env fuel input_handle (List.replicate msg_sz 0) msg_sz s1 with
        | none => none
        | some (false, _, s2) => some (none, s2)
        | some (true, buf, s2) => some (pb.unpack msg_sz buf, s2)

/-- Function `WriteMessage(msg)`. -/
def WriteMessage (fuel : Nat) (msg : ExtensionMessage) (s : St σ) : Option (St σ) :=
  let output_handle := env.GetStdHandle s.os .STD_OUTPUT_HANDLE
  if output_handle = INVALID_HANDLE_VALUE then some s
  else
    let msg_sz := pb.get_packed_size msg % DWORD_MOD
    if msg_sz = 0 then some s
    else if env.calloc s.os msg_sz = false then some s
    else
      let buf := writeAt (List.replicate msg_sz 0) 0 (pb.pack msg)
      match WriteToHandle env fuel output_handle (storeU32 env.byteOrder msg_sz) 4 s with
      | none => none
      | some (false, s1) => some s1
      | some (true, s1) =>
        match WriteToHandle env fuel output_handle buf msg_sz s1 with
        | none => none
        | some (_, s2) => some (doFlushFileBuffers env .WriteMessage s2 output_handle).2

/-- Function `WriteRequest(request)`. -/
def WriteRequest (fuel : Nat) (request : Request) (s : St σ) : Option (St σ) :=
  WriteMessage env pb fuel { request := request } s

/-- Function `RequestVirtualChannel()`. -/
def RequestVirtualChannel (fuel : Nat) (s : St σ) : Option (St σ) :=
  let msg := RequestCase.SETUP_VIRTUAL_CHANNEL_REQUEST CHANNEL_NAME (env.GetCurrentProcessId s.os)
  let s1 : St σ := { s with os := (env.UuidCreate s.os).2 }
  WriteRequest env pb fuel { request_id := (env.UuidCreate s.os).1, request_case := msg } s1

/-- Function `CloseVirtualChannel()`. -/
def CloseVirtualChannel (fuel : Nat) (s : St σ) : Option (St σ) :=
  let msg := RequestCase.CLOSE_VIRTUAL_CHANNEL_REQUEST CHANNEL_NAME
  let s1 : St σ := { s with os := (env.UuidCreate s.os).2 }
  WriteRequest env pb fuel { request_id := (env.UuidCreate s.os).1, request_case := msg } s1

end C

/-- How a block of `main` ends: with `return code`, or by falling through to the
next block with the values that block uses. -/
inductive Step (α : Type) where
  | exit (code : Int)
  | next (a : α)

namespace C

variable {σ : Type} (env : Win32 σ) (pb : ProtobufC)

/-- Block of `main` from its start to the check of the handle returned by
`SetupAndConnectNamedPipe` (main.c lines 281-324).  Falling through, it hands
on the setup response and the pipe handle. -/
def main.setup (fuel : Nat) (s : St σ) :
    Option (Step (SetupVirtualChannelResponse × HANDLE) × St σ) :=
  match RequestVirtualChannel env pb fuel (s.log .main .RequestVirtualChannel) with
  | none => none
  | some s1 =>
    match ReadNextMessage env pb fuel s1 with
    | none => none
    | some (msg, s2) =>
      let s3 := s2.log .main (.ReadNextMessage msg)
      match msg with
      | none => some (.exit (-1), s3)
      | some (.MSG_RESPONSE response) =>
        match response.response_case with
        | .SETUP_VIRTUAL_CHANNEL_RESPONSE setup_virtual_channel_response =>
          if response.status ≠ .SUCCESS then some (.exit (-1), s3)
          else
            let relay_path := setup_virtual_channel_response.relay_path
            match SetupAndConnectNamedPipe env relay_path fuel s3 with
            | none => none
            | some (named_pipe_handle, s4) =>
              let s5 := s4.log .main (.SetupAndConnectNamedPipe relay_path named_pipe_handle)
              if named_pipe_handle = INVALID_HANDLE_VALUE then some (.exit (-1), s5)
              else some (.next (setup_virtual_channel_response, named_pipe_handle), s5)
        | _ => some (.exit (-1), s3)
      | some _ => some (.exit (-1), s3)

/-- Block of `main` from its start to the end of the auth-token handoff (main.c lines
281-343): one `WriteFile` of the token on the pipe, then `FlushFileBuffers`. -/
def main.handoff (fuel : Nat) (s : St σ) : Option (Step HANDLE × St σ) :=
  match main.setup env pb fuel s with
  | none => none
  | some (.exit code, s1) => some (.exit code, s1)
  | some (.next (setup_virtual_channel_response, named_pipe_handle), s1) =>
    let token := setup_virtual_channel_response.virtual_channel_auth_token
    match doWriteFile env .main s1 named_pipe_handle token token.length with
    | (none, s2) => some (.exit (-1), s2)
    | (some _, s2) =>
      match doFlushFileBuffers env .main s2 named_pipe_handle with
      | (false, s3) => some (.exit (-1), s3)
      | (true, s3) => some (.next named_pipe_handle, s3)

/-- Block of `main` from its start to the check of the ready event (main.c lines
281-366). -/
def main.ready (fuel : Nat) (s : St σ) : Option (Step HANDLE × St σ) :=
  match main.handoff env pb fuel s with
  | none => none
  | some (.exit code, s1) => some (.exit code, s1)
  | some (.next named_pipe_handle, s1) =>
    match ReadNextMessage env pb fuel s1 with
    | none => none
    | some (msg, s2) =>
      let s3 := s2.log .main (.ReadNextMessage msg)
      match msg with
      | none => some (.exit (-1), s3)
      | some (.MSG_EVENT event) =>
        if event.event_case ≠ .VIRTUAL_CHANNEL_READY_EVENT then some (.exit (-1), s3)
        else some (.next named_pipe_handle, s3)
      | some _ => some (.exit (-1), s3)

/-- The `for (num_message = 0; num_message < 100; ++num_message)` loop of
`main` (main.c lines 371-396); the first argument is the number of iterations
left, `100 - num_message`.  `message` is a 100-byte automatic array that
`sprintf` fills from its start; the write asks for `sizeof(message) + 1`
bytes. -/
def main.dataLoop (named_pipe_handle : HANDLE) : Nat → Nat → St σ → St σ
  | 0, _, s => s
  | left + 1, num_message, s =>
    let message :=
      writeAt ((List.range 100).map env.uninit) 0 (cstr ("Echo Test " ++ toString num_message))
    match doWriteFile env .main s named_pipe_handle message (100 + 1) with
    | (none, s1) => s1
    | (some _, s1) =>
      match doReadFile env .main s1 named_pipe_handle (READ_BUFFER_SIZE - 1) with
      | (none, s2) => s2
      | (some data, s2) =>
        let s3 := s2.log .main (.StoreReadBuffer data.length)
        let s4 := doSleep env .main s3 1000
        main.dataLoop named_pipe_handle left (num_message + 1) s4

/-- Block of `main` from its start to the return of `CloseVirtualChannel` (main.c lines
281-406): data loop, `CloseHandle`, close request. -/
def main.sendClose (fuel : Nat) (s : St σ) : Option (Step HANDLE × St σ) :=
  match main.ready env pb fuel s with
  | none => none
  | some (.exit code, s1) => some (.exit code, s1)
  | some (.next named_pipe_handle, s1) =>
    let s2 := main.dataLoop env named_pipe_handle 100 0 s1
    let s3 := doCloseHandle env .main s2 named_pipe_handle
    match CloseVirtualChannel env pb fuel (s3.log .main .CloseVirtualChannel) with
    | none => none
    | some s4 => some (.next named_pipe_handle, s4)

/-- Function `main()`: exit code and final state. -/
def main (fuel : Nat) (s : St σ) : Option (Int × St σ) :=
  match main.sendClose env pb fuel s with
  | none => none
  | some (.exit code, s1) => some (code, s1)
  | some (.next _, s1) =>
    match ReadNextMessage env pb fuel s1 with
    | none => none
    | some (msg, s2) =>
      let s3 := s2.log .main (.ReadNextMessage msg)
      match msg with
      | none => some (-1, s3)
      | some (.MSG_RESPONSE response) =>
        if response.status ≠ .SUCCESS then some (-1, s3)
        else some (0, s3)
      | some _ => some (-1, s3)

end C

/-! ## The C++ port (`main.cpp`) -/

/-- The protobuf entry points of the generated C++ classes, as parameters. -/
structure ProtobufCpp where
  /-- Entry point `ExtensionMessage::ByteSizeLong`. -/
  ByteSizeLong : ExtensionMessage → Nat
  /-- The bytes `msg.SerializeToArray(buf, size)` stores into `buf`. -/
  SerializeToArray : ExtensionMessage → Int → List Byte
  /-- Entry point `DcvMessage::ParseFromArray(data, size)`, `none` when it returns false. -/
  ParseFromArray : List Byte → Int → Option DcvMessage
  /-- Entry point `Response::setup_virtual_channel_response()`, the generated accessor. -/
  setup_virtual_channel_response : Response → SetupVirtualChannelResponse

namespace Cpp

variable {σ : Type} (env : Win32 σ) (pb : ProtobufCpp)

def CHANNEL_NAME : String := "echo"

/-- Function `ReadNextMessage()`: `none` inside the result is the `nullptr` return.
`malloc` is not checked by the source; the buffer starts indeterminate. -/
def ReadNextMessage (fuel : Nat) (s : St σ) : Option (Option DcvMessage × St σ) :=
  let input_handle := env.GetStdHandle s.os .STD_INPUT_HANDLE
  if input_handle = INVALID_HANDLE_VALUE then some (none, s)
  else
    match ReadFromHandle env fuel input_handle (storeU32 env.byteOrder 0) 4 s with
    | none => none
    | some (false, _, s1) => some (none, s1)
    | some (true, sz, s1) =>
      let msg_sz := loadU32 env.byteOrder sz
      match ReadFromHandle env fuel input_handle ((List.range msg_sz).map env.uninit)
          msg_sz s1 with
      | none => none
      | some (false, _, s2) => some (none, s2)
      | some (true, buf, s2) => some (pb.ParseFromArray buf (toInt32 msg_sz), s2)

/-- Function `WriteMessage(msg)`; `msg_sz` is an `int`. -/
def WriteMessage (fuel : Nat) (msg : ExtensionMessage) (s : St σ) : Option (St σ) :=
  let output_handle := env.GetStdHandle s.os .STD_OUTPUT_HANDLE
  if output_handle = INVALID_HANDLE_VALUE then some s
  else
    let msg_sz : Int := toInt32 (pb.ByteSizeLong msg)
    let buf := pb.SerializeToArray msg msg_sz
    match WriteToHandle env fuel output_handle (storeU32 env.byteOrder (toDWORD msg_sz)) 4 s with
    | none => none
    | some (false, s1) => some s1
    | some (true, s1) =>
      match WriteToHandle env fuel output_handle buf (toDWORD msg_sz) s1 with
      | none => none
      | some (_, s2) => some (doFlushFileBuffers env .WriteMessage s2 output_handle).2

/-- Function `WriteRequest(request)`. -/
def WriteRequest (fuel : Nat) (request : Request) (s : St σ) : Option (St σ) :=
  WriteMessage env pb fuel { request := request } s

/-- Function `RequestVirtualChannel()`. -/
def RequestVirtualChannel (fuel : Nat) (s : St σ) : Option (St σ) :=
  let msg := RequestCase.SETUP_VIRTUAL_CHANNEL_REQUEST CHANNEL_NAME (env.GetCurrentProcessId s.os)
  let s1 : St σ := { s with last_request_id := s.last_request_id + 1 }
  WriteRequest env pb fuel { request_id := toString s.last_request_id, request_case := msg } s1

/-- Function `CloseVirtualChannel()`. -/
def CloseVirtualChannel (fuel : Nat) (s : St σ) : Option (St σ) :=
  let msg := RequestCase.CLOSE_VIRTUAL_CHANNEL_REQUEST CHANNEL_NAME
  let s1 : St σ := { s with last_request_id := s.last_request_id + 1 }
  WriteRequest env pb fuel { request_id := toString s.last_request_id, request_case := msg } s1

/-- Block of `main` from its start to the check of the handle returned by
`SetupAndConnectNamedPipe` (main.cpp lines 246-282).  The source does not look
at the response case before it reads the relay path.  Falling through, it
hands on the response and the pipe handle. -/
def main.setup (fuel : Nat) (s : St σ) : Option (Step (Response × HANDLE) × St σ) :=
  match RequestVirtualChannel env pb fuel (s.log .main .RequestVirtualChannel) with
  | none => none
  | some s1 =>
    match ReadNextMessage env pb fuel s1 with
    | none => none
    | some (msg, s2) =>
      let s3 := s2.log .main (.ReadNextMessage msg)
      match msg with
      | none => some (.exit (-1), s3)
      | some (.MSG_RESPONSE response) =>
        if response.status ≠ .SUCCESS then some (.exit (-1), s3)
        else
          let relay_path := (pb.setup_virtual_channel_response response).relay_path
          match SetupAndConnectNamedPipe env relay_path fuel s3 with
          | none => none
          | some (named_pipe_handle, s4) =>
            let s5 := s4.log .main (.SetupAndConnectNamedPipe relay_path named_pipe_handle)
            if named_pipe_handle = INVALID_HANDLE_VALUE then some (.exit (-1), s5)
            else some (.next (response, named_pipe_handle), s5)
      | some _ => some (.exit (-1), s3)

/-- Block of `main` from its start to the end of the auth-token handoff (main.cpp lines
246-300): one `WriteFile` of the token on the pipe; the source has no
`FlushFileBuffers` here. -/
def main.handoff (fuel : Nat) (s : St σ) : Option (Step HANDLE × St σ) :=
  match main.setup env pb fuel s with
  | none => none
  | some (.exit code, s1) => some (.exit code, s1)
  | some (.next (response, named_pipe_handle), s1) =>
    let token := (pb.setup_virtual_channel_response response).virtual_channel_auth_token
    match doWriteFile env .main s1 named_pipe_handle token token.length with
    | (none, s2) => some (.exit (-1), s2)
    | (some _, s2) => some (.next named_pipe_handle, s2)

/-- Block of `main` from its start to the check of the ready event (main.cpp lines
246-323). -/
def main.ready (fuel : Nat) (s : St σ) : Option (Step HANDLE × St σ) :=
  match main.handoff env pb fuel s with
  | none => none
  | some (.exit code, s1) => some (.exit code, s1)
  | some (.next named_pipe_handle, s1) =>
    match ReadNextMessage env pb fuel s1 with
    | none => none
    | some (msg, s2) =>
      let s3 := s2.log .main (.ReadNextMessage msg)
      match msg with
      | none => some (.exit (-1), s3)
      | some (.MSG_EVENT event) =>
        if event.event_case ≠ .VIRTUAL_CHANNEL_READY_EVENT then some (.exit (-1), s3)
        else some (.next named_pipe_handle, s3)
      | some _ => some (.exit (-1), s3)

/-- The `for (int msg_number = 0; msg_number < 100; ++msg_number)` loop of
`main` (main.cpp lines 328-353); the first argument is the number of
iterations left. -/
def main.dataLoop (named_pipe_handle : HANDLE) : Nat → Nat → St σ → St σ
  | 0, _, s => s
  | left + 1, msg_number, s =>
    let message : String := "C++ Test " ++ toString msg_number
    match doWriteFile env .main s named_pipe_handle (cstr message) (message.length + 1) with
    | (none, s1) => s1
    | (some _, s1) =>
      match doReadFile env .main s1 named_pipe_handle (READ_BUFFER_SIZE - 1) with
      | (none, s2) => s2
      | (some data, s2) =>
        let s3 := s2.log .main (.StoreReadBuffer data.length)
        let s4 := doSleep env .main s3 1000
        main.dataLoop named_pipe_handle left (msg_number + 1) s4

/-- Block of `main` from its start to the return of `CloseVirtualChannel` (main.cpp
lines 246-359): data loop, `CloseHandle`, close request. -/
def main.sendClose (fuel : Nat) (s : St σ) : Option (Step HANDLE × St σ) :=
  match main.ready env pb fuel s with
  | none => none
  | some (.exit code, s1) => some (.exit code, s1)
  | some (.next named_pipe_handle, s1) =>
    let s2 := main.dataLoop env named_pipe_handle 100 0 s1
    let s3 := doCloseHandle env .main s2 named_pipe_handle
    match CloseVirtualChannel env pb fuel (s3.log .main .CloseVirtualChannel) with
    | none => none
    | some s4 => some (.next named_pipe_handle, s4)

/-- Function `main()`: exit code and final state. -/
def main (fuel : Nat) (s : St σ) : Option (Int × St σ) :=
  match main.sendClose env pb fuel s with
  | none => none
  | some (.exit code, s1) => some (code, s1)
  | some (.next _, s1) =>
    match ReadNextMessage env pb fuel s1 with
    | none => none
    | some (msg, s2) =>
      let s3 := s2.log .main (.ReadNextMessage msg)
      match msg with
      | none => some (-1, s3)
      | some (.MSG_RESPONSE response) =>
        if response.status ≠ .SUCCESS then some (-1, s3)
        else some (0, s3)
      | some _ => some (-1, s3)

end Cpp

/-! ## A scripted environment for concrete runs -/

/-- State of a scripted operating system: standard input holds `input` and
delivers at most `readChunk + 1` bytes a read, standard output accepts at most
`writeChunk + 1` bytes a write, and the other calls take their outcomes from
the scripts (an exhausted script fails). -/
structure Sim where
  input : List Byte
  readChunk : Nat
  output : List Byte
  writeChunk : Nat
  opens : List (HANDLE × Nat)
  waits : List Bool
  pipeWrites : List (Option Nat)
  pipeFlushes : List Bool
  pipeReads : List (Option (List Byte))
  lastError : Nat

namespace Sim

def stdin : HANDLE := some 0

def stdout : HANDLE := some 1

def ReadFile (o : Sim) (h : HANDLE) (n : Nat) : Option (List Byte) × Sim :=
  if h = stdin then
    (some (o.input.take (min n (o.readChunk + 1))),
     { o with input := o.input.drop (min n (o.readChunk + 1)) })
  else
    match o.pipeReads with
    | [] => (none, o)
    | r :: rest => (r.map (List.take n), { o with pipeReads := rest })

def WriteFile (o : Sim) (h : HANDLE) (buffer : List Byte) (n : Nat) : Option Nat × Sim :=
  if h = stdout then
    (some (min n (o.writeChunk + 1)),
     { o with output := o.output ++ buffer.take (min n (o.writeChunk + 1)) })
  else
    match o.pipeWrites with
    | [] => (none, o)
    | r :: rest => (r, { o with pipeWrites := rest })

def FlushFileBuffers (o : Sim) (h : HANDLE) : Bool × Sim :=
  if h = stdout then (true, o)
  else
    match o.pipeFlushes with
    | [] => (false, o)
    | r :: rest => (r, { o with pipeFlushes := rest })

def CreateFileA (o : Sim) (_path : String) : HANDLE × Sim :=
  match o.opens with
  | [] => (none, { o with lastError := 2 })
  | (h, e) :: rest => (h, { o with opens := rest, lastError := e })

def WaitNamedPipeA (o : Sim) (_path : String) (_timeout : Nat) : Bool × Sim :=
  match o.waits with
  | [] => (false, o)
  | r :: rest => (r, { o with waits := rest })

/-- The scripted operating system. -/
def env : Win32 Sim where
  GetStdHandle := fun _ d =>
    match d with
    | .STD_INPUT_HANDLE => stdin
    | .STD_OUTPUT_HANDLE => stdout
  ReadFile := ReadFile
  WriteFile := WriteFile
  FlushFileBuffers := FlushFileBuffers
  CreateFileA := CreateFileA
  GetLastError := fun o => o.lastError
  WaitNamedPipeA := WaitNamedPipeA
  CloseHandle := fun o _ => o
  Sleep := fun o _ => o
  GetCurrentProcessId := fun _ => 4242
  UuidCreate := fun o => ("00000000-0000-0000-0000-000000000000", o)
  calloc := fun _ _ => true
  byteOrder := .little
  uninit := fun _ => 0

/-- A scripted system with `input` on standard input and nothing else. -/
def idle (input : List Byte) (readChunk writeChunk : Nat) : Sim where
  input := input
  readChunk := readChunk
  output := []
  writeChunk := writeChunk
  opens := []
  waits := []
  pipeWrites := []
  pipeFlushes := []
  pipeReads := []
  lastError := 0

end Sim

/-! ## Transports as the frame claims see them -/

section Transports

variable {σ : Type} (env : Win32 σ)

/-- A transport that accepts writes in chunks of at least one byte: a write on
`h` of `n ≥ 1` bytes succeeds, takes between 1 and `n` of them from the front
of the buffer and appends them to the bytes emitted so far; a flush emits
nothing. -/
structure AcceptsWrites (h : HANDLE) (emitted : σ → List Byte) : Prop where
  write : ∀ (o : σ) (buffer : List Byte) (n : Nat), 0 < n → n ≤ buffer.length →
    ∃ k o1, env.WriteFile o h buffer n = (some k, o1) ∧ 0 < k ∧ k ≤ n ∧
      emitted o1 = emitted o ++ buffer.take k
  flush : ∀ o : σ, emitted (env.FlushFileBuffers o h).2 = emitted o

/-- A transport that delivers the bytes pending on `h` in chunks of at least
one byte: while bytes are pending, a read asking for `n ≥ 1` bytes succeeds and
delivers a non-empty front part of them. -/
structure DeliversInChunks (h : HANDLE) (pending : σ → List Byte) : Prop where
  read : ∀ (o : σ) (n : Nat), 0 < n → pending o ≠ [] →
    ∃ d o1, env.ReadFile o h n = (some d, o1) ∧ d ≠ [] ∧ pending o = d ++ pending o1

end Transports

namespace Sim

/-- A setup payload: relay path and auth token. -/
def setupPayload : SetupVirtualChannelResponse :=
  { relay_path := "\\\\.\\pipe\\relay", virtual_channel_auth_token := [7, 8, 9] }

/-- A successful setup response carrying a relay path and an auth token. -/
def setupResp : Response :=
  { request_id := "1", status := .SUCCESS,
    response_case := .SETUP_VIRTUAL_CHANNEL_RESPONSE setupPayload }

def setupResponse : DcvMessage := .MSG_RESPONSE setupResp

/-- A setup response with a failure status. -/
def failedSetupResponse : DcvMessage :=
  .MSG_RESPONSE { request_id := "1", status := .other 2,
                  response_case := .SETUP_VIRTUAL_CHANNEL_RESPONSE setupPayload }

def readyEvent : DcvMessage := .MSG_EVENT ⟨.VIRTUAL_CHANNEL_READY_EVENT⟩

def otherEvent : DcvMessage := .MSG_EVENT ⟨.other 9⟩

/-- A successful response whose payload is a close response. -/
def closeResp : Response :=
  { request_id := "2", status := .SUCCESS, response_case := .CLOSE_VIRTUAL_CHANNEL_RESPONSE }

def closeResponse : DcvMessage := .MSG_RESPONSE closeResp

def failedCloseResponse : DcvMessage :=
  .MSG_RESPONSE { request_id := "2", status := .other 2,
                  response_case := .CLOSE_VIRTUAL_CHANNEL_RESPONSE }

/-- A toy protobuf-c codec: requests pack to two bytes, and one-byte payloads
unpack to the messages the lifecycle distinguishes. -/
def pbC : ProtobufC where
  get_packed_size := fun _ => 2
  pack := fun m =>
    match m.request.request_case with
    | .SETUP_VIRTUAL_CHANNEL_REQUEST _ _ => [10, 1]
    | .CLOSE_VIRTUAL_CHANNEL_REQUEST _ => [10, 2]
  unpack := fun _ data =>
    match data with
    | [1] => some setupResponse
    | [2] => some readyEvent
    | [3] => some closeResponse
    | [4] => some failedSetupResponse
    | [5] => some otherEvent
    | [6] => some failedCloseResponse
    | _ => none

/-- The accessor `Response::setup_virtual_channel_response()` as protobuf
generates it: the payload when that case is set, the default instance (empty
path, empty token) otherwise. -/
def defaultAccessor (r : Response) : SetupVirtualChannelResponse :=
  match r.response_case with
  | .SETUP_VIRTUAL_CHANNEL_RESPONSE x => x
  | _ => { relay_path := "", virtual_channel_auth_token := [] }

/-- A protobuf-c codec whose messages pack to no bytes at all. -/
def pbCEmpty : ProtobufC where
  get_packed_size := fun _ => 0
  pack := fun _ => []
  unpack := fun _ _ => none

/-- The same toy codec behind the C++ entry points. -/
def pbCpp : ProtobufCpp where
  ByteSizeLong := fun m => pbC.get_packed_size m
  SerializeToArray := fun m _ => pbC.pack m
  ParseFromArray := fun data size => pbC.unpack size.toNat data
  setup_virtual_channel_response := defaultAccessor

/-- A C++ codec whose messages serialize to no bytes at all. -/
def pbCppEmpty : ProtobufCpp where
  ByteSizeLong := fun _ => 0
  SerializeToArray := fun _ _ => []
  ParseFromArray := fun _ _ => none
  setup_virtual_channel_response := defaultAccessor

/-- The setup request as `RequestVirtualChannel` builds it on the scripted
system. -/
def setupRequest : ExtensionMessage :=
  { request := { request_id := "00000000-0000-0000-0000-000000000000",
                 request_case := .SETUP_VIRTUAL_CHANNEL_REQUEST "echo" 4242 } }

end Sim

/-! ## Reading the ghost trace -/

/-- The calls issued by source function `fn`, in order. -/
def callsOf (fn : Fn) (t : List Entry) : List Call :=
  (t.filter (fun e => decide (e.fn = fn))).map Entry.call

/-- Relation `AddsOnly P t t1`: trace `t1` is `t` followed by entries that all satisfy `P`. -/
def AddsOnly (P : Entry → Prop) (t t1 : List Entry) : Prop :=
  ∃ added, t1 = t ++ added ∧ ∀ e ∈ added, P e

/-- Entries of the framing layer: the low-level reads and writes of standard
input and output, and the flush of `WriteMessage`. -/
def FrameEntry (e : Entry) : Prop :=
  e.fn = .ReadFromHandle ∨ e.fn = .WriteToHandle ∨ e.fn = .WriteMessage

/-! ## The pipe connector as the retry claims see it -/

section Connector

variable {σ : Type} (env : Win32 σ)

/-- Relation `BusyRounds env path k o o1`: from operating-system state `o`, `k`
successive rounds, each an open of `path` that fails as busy followed by a
10000 ms wait that reports availability, lead to state `o1`. -/
inductive BusyRounds (path : String) : Nat → σ → σ → Prop
  | zero (o : σ) : BusyRounds path 0 o o
  | succ {k : Nat} {o o1 o2 o3 : σ} :
      env.CreateFileA o path = (INVALID_HANDLE_VALUE, o1) →
      env.GetLastError o1 = ERROR_PIPE_BUSY →
      env.WaitNamedPipeA o1 path 10000 = (true, o2) →
      BusyRounds path k o2 o3 →
      BusyRounds path (k + 1) o o3

/-- The calls of `k` busy rounds: open, wait, open, wait, ... -/
def busyCalls (path : String) : Nat → List Call
  | 0 => []
  | k + 1 => Call.CreateFileA path :: Call.WaitNamedPipeA path 10000 :: busyCalls path k

end Connector

namespace Sim

/-- A scripted system whose pipe is busy twice, each wait reporting
availability, and opens at the third attempt. -/
def busyTwice : Sim where
  input := []
  readChunk := 0
  output := []
  writeChunk := 0
  opens := [(none, 231), (none, 231), (some 5, 0)]
  waits := [true, true]
  pipeWrites := []
  pipeFlushes := []
  pipeReads := []
  lastError := 0

/-- A scripted system whose pipe is busy and whose wait times out. -/
def busyForever : Sim where
  input := []
  readChunk := 0
  output := []
  writeChunk := 0
  opens := [(none, 231), (none, 231), (none, 231)]
  waits := [false, false, false]
  pipeWrites := []
  pipeFlushes := []
  pipeReads := []
  lastError := 0

end Sim

/-- Number of `CreateFileA` calls in a list of calls. -/
def countOpens (cs : List Call) : Nat :=
  cs.countP (fun c => match c with
    | .CreateFileA _ => true
    | _ => false)

/-- Number of `WaitNamedPipeA` calls in a list of calls. -/
def countWaits (cs : List Call) : Nat :=
  cs.countP (fun c => match c with
    | .WaitNamedPipeA _ _ => true
    | _ => false)

/-! ## Messages as the lifecycle claims see them -/

/-- The message is a `Response` whose status is `Success`. -/
def isSuccessResponse : Option DcvMessage → Bool
  | some (.MSG_RESPONSE r) => decide (r.status = .SUCCESS)
  | _ => false

/-- The message is a `Response` whose payload is a setup response. -/
def isSetupResponse : Option DcvMessage → Bool
  | some (.MSG_RESPONSE r) =>
    match r.response_case with
    | .SETUP_VIRTUAL_CHANNEL_RESPONSE _ => true
    | _ => false
  | _ => false

/-- The message is an `Event` of case `VirtualChannelReadyEvent`. -/
def isReadyEvent : Option DcvMessage → Bool
  | some (.MSG_EVENT e) => decide (e.event_case = .VIRTUAL_CHANNEL_READY_EVENT)
  | _ => false

/-- Calls of the data phase on pipe handle `h`: payload writes and reads on
`h`, the store that terminates the read buffer, and the pacing sleep. -/
def isDataPhaseCall (h : HANDLE) : Call → Bool
  | .WriteFile h1 _ _ => decide (h1 = h)
  | .ReadFile h1 _ => decide (h1 = h)
  | .StoreReadBuffer _ => true
  | .Sleep _ => true
  | _ => false

/-- The calls of the C port's `main` up to the end of the auth-token handoff,
on a run that gets there: setup request, setup response `resp` with payload
`setup`, connect returning `h`, one write of all the token's bytes on `h`, one
flush of `h`. -/
def C.handoffCalls (resp : Response) (setup : SetupVirtualChannelResponse) (h : HANDLE) :
    List Call :=
  [.RequestVirtualChannel, .ReadNextMessage (some (.MSG_RESPONSE resp)),
   .SetupAndConnectNamedPipe setup.relay_path h,
   .WriteFile h setup.virtual_channel_auth_token setup.virtual_channel_auth_token.length,
   .FlushFileBuffers h]

/-- The calls of the C++ port's `main` up to the end of the auth-token handoff,
on a run that gets there: setup request, setup response `resp`, connect
returning `h`, one write of all the token's bytes on `h` (and no flush);
`setup` is what the accessor `setup_virtual_channel_response()` returns for
`resp`. -/
def Cpp.handoffCalls (resp : Response) (setup : SetupVirtualChannelResponse) (h : HANDLE) :
    List Call :=
  [.RequestVirtualChannel, .ReadNextMessage (some (.MSG_RESPONSE resp)),
   .SetupAndConnectNamedPipe setup.relay_path h,
   .WriteFile h setup.virtual_channel_auth_token setup.virtual_channel_auth_token.length]

namespace Sim

/-- A scripted system: `input` on standard input, one byte a read and a write,
and scripts for the opens, the pipe writes, the pipe flushes and the pipe
reads. -/
def script (input : List Byte) (opens : List (HANDLE × Nat)) (pipeWrites : List (Option Nat))
    (pipeFlushes : List Bool) (pipeReads : List (Option (List Byte))) : Sim where
  input := input
  readChunk := 0
  output := []
  writeChunk := 0
  opens := opens
  waits := []
  pipeWrites := pipeWrites
  pipeFlushes := pipeFlushes
  pipeReads := pipeReads
  lastError := 0

/-- The host answers the setup request with a failure status. -/
def rejectedSetup : Sim := script [1, 0, 0, 0, 4] [] [] [] []

/-- The host answers the setup request with a successful response whose
payload is a close response; opening the empty path fails with
`ERROR_PATH_NOT_FOUND`. -/
def wrongPayload : Sim := script [1, 0, 0, 0, 3] [(none, 3)] [] [] []

/-- The host accepts the setup, the pipe opens and takes the token, and the
host then sends an event that is not the ready event. -/
def notReady : Sim :=
  script [1, 0, 0, 0, 1, 1, 0, 0, 0, 5] [(some 5, 0)] [some 3] [true] []

/-- A full lifecycle: setup accepted, pipe opened, token taken, ready event,
one echo exchange (the second payload write fails and ends the loop), close
accepted. -/
def happy : Sim :=
  script [1, 0, 0, 0, 1, 1, 0, 0, 0, 2, 1, 0, 0, 0, 3] [(some 5, 0)] [some 3, some 11]
    [true] [some [69, 99, 104, 111]]

/-- A full lifecycle up to a close response with a failure status. -/
def closeRejected : Sim :=
  script [1, 0, 0, 0, 1, 1, 0, 0, 0, 2, 1, 0, 0, 0, 6] [(some 5, 0)] [some 3] [true] []

end Sim

/-- The longest call sequence of the C port's `main` that stays before the
data phase: setup request, first receive, connect, token write, flush, second
receive. -/
def C.gateCalls (m1 : Option DcvMessage) (path : String) (h : HANDLE) (token : List Byte)
    (m2 : Option DcvMessage) : List Call :=
  [.RequestVirtualChannel, .ReadNextMessage m1, .SetupAndConnectNamedPipe path h,
   .WriteFile h token token.length, .FlushFileBuffers h, .ReadNextMessage m2]

/-- The longest call sequence of the C++ port's `main` that stays before the
data phase: setup request, first receive, connect, token write, second
receive. -/
def Cpp.gateCalls (m1 : Option DcvMessage) (path : String) (h : HANDLE) (token : List Byte)
    (m2 : Option DcvMessage) : List Call :=
  [.RequestVirtualChannel, .ReadNextMessage m1, .SetupAndConnectNamedPipe path h,
   .WriteFile h token token.length, .ReadNextMessage m2]

/-! ## Failed sends as the send claim sees them -/

/-- The reasons for which a send can fail: the output stream handle cannot be
obtained, the message cannot be encoded, no buffer can be allocated for the
encoded message, an underlying write of the length prefix reports an error, an
underlying write of the payload reports an error. -/
inductive SendFailure
  | outputHandle
  | encoding
  | allocation
  | lengthPrefixWrite
  | payloadWrite
  deriving DecidableEq, Repr

namespace C

variable {σ : Type} (env : Win32 σ) (pb : ProtobufC)

/-- The message `RequestVirtualChannel()` hands to `WriteRequest`, built in
state `s`. -/
def RequestVirtualChannel.message (s : St σ) : ExtensionMessage :=
  { request := { request_id := (env.UuidCreate s.os).1,
                 request_case := .SETUP_VIRTUAL_CHANNEL_REQUEST CHANNEL_NAME
                   (env.GetCurrentProcessId s.os) } }

/-- The message `CloseVirtualChannel()` hands to `WriteRequest`, built in
state `s`. -/
def CloseVirtualChannel.message (s : St σ) : ExtensionMessage :=
  { request := { request_id := (env.UuidCreate s.os).1,
                 request_case := .CLOSE_VIRTUAL_CHANNEL_REQUEST CHANNEL_NAME } }

/-- The state in which `RequestVirtualChannel()` and `CloseVirtualChannel()`,
entered in state `s`, call `WriteRequest`: `UuidCreate` has run. -/
def WriteRequest.entry (s : St σ) : St σ :=
  { s with os := (env.UuidCreate s.os).2 }

/-- Relation `C.SendFails env pb fuel msg s cause`: the send of `msg` by
`WriteMessage`, entered in state `s`, fails for `cause`; each case is the
condition under which `main.c` takes the corresponding early return (or, for
the payload, under which the last `WriteToHandle` returns `FALSE`). -/
inductive SendFails (fuel : Nat) (msg : ExtensionMessage) (s : St σ) : SendFailure → Prop
  | outputHandle :
      env.GetStdHandle s.os .STD_OUTPUT_HANDLE = INVALID_HANDLE_VALUE →
      SendFails fuel msg s .outputHandle
  | encoding :
      env.GetStdHandle s.os .STD_OUTPUT_HANDLE ≠ INVALID_HANDLE_VALUE →
      pb.get_packed_size msg % DWORD_MOD = 0 →
      SendFails fuel msg s .encoding
  | allocation :
      env.GetStdHandle s.os .STD_OUTPUT_HANDLE ≠ INVALID_HANDLE_VALUE →
      pb.get_packed_size msg % DWORD_MOD ≠ 0 →
      env.calloc s.os (pb.get_packed_size msg % DWORD_MOD) = false →
      SendFails fuel msg s .allocation
  | lengthPrefixWrite (s1 : St σ) :
      env.GetStdHandle s.os .STD_OUTPUT_HANDLE ≠ INVALID_HANDLE_VALUE →
      pb.get_packed_size msg % DWORD_MOD ≠ 0 →
      env.calloc s.os (pb.get_packed_size msg % DWORD_MOD) = true →
      WriteToHandle env fuel (env.GetStdHandle s.os .STD_OUTPUT_HANDLE)
        (storeU32 env.byteOrder (pb.get_packed_size msg % DWORD_MOD)) 4 s = some (false, s1) →
      SendFails fuel msg s .lengthPrefixWrite
  | payloadWrite (s1 s2 : St σ) :
      env.GetStdHandle s.os .STD_OUTPUT_HANDLE ≠ INVALID_HANDLE_VALUE →
      pb.get_packed_size msg % DWORD_MOD ≠ 0 →
      env.calloc s.os (pb.get_packed_size msg % DWORD_MOD) = true →
      WriteToHandle env fuel (env.GetStdHandle s.os .STD_OUTPUT_HANDLE)
        (storeU32 env.byteOrder (pb.get_packed_size msg % DWORD_MOD)) 4 s = some (true, s1) →
      WriteToHandle env fuel (env.GetStdHandle s.os .STD_OUTPUT_HANDLE)
        (writeAt (List.replicate (pb.get_packed_size msg % DWORD_MOD) 0) 0 (pb.pack msg))
        (pb.get_packed_size msg % DWORD_MOD) s1 = some (false, s2) →
      SendFails fuel msg s .payloadWrite

end C

namespace Cpp

variable {σ : Type} (env : Win32 σ) (pb : ProtobufCpp)

/-- The message `RequestVirtualChannel()` hands to `WriteRequest`, built in
state `s`. -/
def RequestVirtualChannel.message (s : St σ) : ExtensionMessage :=
  { request := { request_id := toString s.last_request_id,
                 request_case := .SETUP_VIRTUAL_CHANNEL_REQUEST CHANNEL_NAME
                   (env.GetCurrentProcessId s.os) } }

/-- The message `CloseVirtualChannel()` hands to `WriteRequest`, built in
state `s`. -/
def CloseVirtualChannel.message (s : St σ) : ExtensionMessage :=
  { request := { request_id := toString s.last_request_id,
                 request_case := .CLOSE_VIRTUAL_CHANNEL_REQUEST CHANNEL_NAME } }

/-- The state in which `RequestVirtualChannel()` and `CloseVirtualChannel()`,
entered in state `s`, call `WriteRequest`: `last_request_id++` has run. -/
def WriteRequest.entry (s : St σ) : St σ :=
  { s with last_request_id := s.last_request_id + 1 }

/-- Relation `Cpp.SendFails env pb fuel msg s cause`: the send of `msg` by
`WriteMessage`, entered in state `s`, fails for `cause`.  `main.cpp` tests
neither the result of `SerializeToArray` nor that of `malloc`, so there is no
case for an encoding or an allocation failure. -/
inductive SendFails (fuel : Nat) (msg : ExtensionMessage) (s : St σ) : SendFailure → Prop
  | outputHandle :
      env.GetStdHandle s.os .STD_OUTPUT_HANDLE = INVALID_HANDLE_VALUE →
      SendFails fuel msg s .outputHandle
  | lengthPrefixWrite (s1 : St σ) :
      env.GetStdHandle s.os .STD_OUTPUT_HANDLE ≠ INVALID_HANDLE_VALUE →
      WriteToHandle env fuel (env.GetStdHandle s.os .STD_OUTPUT_HANDLE)
        (storeU32 env.byteOrder (toDWORD (toInt32 (pb.ByteSizeLong msg)))) 4 s
        = some (false, s1) →
      SendFails fuel msg s .lengthPrefixWrite
  | payloadWrite (s1 s2 : St σ) :
      env.GetStdHandle s.os .STD_OUTPUT_HANDLE ≠ INVALID_HANDLE_VALUE →
      WriteToHandle env fuel (env.GetStdHandle s.os .STD_OUTPUT_HANDLE)
        (storeU32 env.byteOrder (toDWORD (toInt32 (pb.ByteSizeLong msg)))) 4 s
        = some (true, s1) →
      WriteToHandle env fuel (env.GetStdHandle s.os .STD_OUTPUT_HANDLE)
        (pb.SerializeToArray msg (toInt32 (pb.ByteSizeLong msg)))
        (toDWORD (toInt32 (pb.ByteSizeLong msg))) s1 = some (false, s2) →
      SendFails fuel msg s .payloadWrite

end Cpp

namespace Sim

/-- The scripted operating system when the standard output handle cannot be
obtained. -/
def envNoStdout : Win32 Sim :=
  { env with
    GetStdHandle := fun _ d =>
      match d with
      | .STD_INPUT_HANDLE => stdin
      | .STD_OUTPUT_HANDLE => INVALID_HANDLE_VALUE }

/-- The scripted operating system when standard output takes the first
`limit` bytes and every later write on it reports an error. -/
def envWriteError (limit : Nat) : Win32 Sim :=
  { env with
    WriteFile := fun o h buffer n =>
      if h = stdout ∧ limit ≤ o.output.length then (none, o) else WriteFile o h buffer n }

/-- The toy protobuf-c codec when no message can be packed (packed size 0). -/
def pbCNoPack : ProtobufC :=
  { pbC with get_packed_size := fun _ => 0 }

end Sim

/-! ## The data phase as the size claim sees it -/

/-- For each `WriteFile` call of a list of calls, in order: the size of the
object `lpBuffer` points to and the number of bytes the call asks for. -/
def writeSizes (cs : List Call) : List (Nat × Nat) :=
  cs.filterMap (fun c => match c with
    | .WriteFile _ buffer nNumberOfBytesToWrite => some (buffer.length, nNumberOfBytesToWrite)
    | _ => none)

/-- The entries the C port's data loop adds for pipe handle `h`, with their
sizes: a write on `h` that asks for 101 bytes of a 100-byte object, a read on
`h` that asks for 4095 bytes, the store that terminates the read buffer, and
the 1000 ms pacing sleep, all issued by `main`. -/
def C.isDataLoopEntry (h : HANDLE) (e : Entry) : Bool :=
  decide (e.fn = .main) &&
    match e.call with
    | .WriteFile h1 buffer n => decide (h1 = h) && decide (buffer.length = 100) && decide (n = 101)
    | .ReadFile h1 n => decide (h1 = h) && decide (n = 4095)
    | .StoreReadBuffer _ => true
    | .Sleep ms => decide (ms = 1000)
    | _ => false

/-! ## The C++ port's logger (`simplelogger.c`) -/

/-- The modes in which the logger opens its file. -/
inductive FileMode
  | w
  | a
  deriving DecidableEq, Repr

/-- A stream pointer `FILE*`, `none` being the null pointer. -/
abbrev FILE := Option Nat

/-- The C library entry points the logger calls, as functions of a file-system
state.  A path is `none` for a null pointer.  The output calls and `fclose`
return `none` where the call has no defined behaviour. -/
structure Libc (φ : Type) where
  fopen : φ → Option String → FileMode → FILE × φ
  /-- Entry points `fprintf` and `vfprintf`, given the text they produce. -/
  fprintf : φ → FILE → String → Option φ
  fclose : φ → FILE → Option φ
  /-- The text `vfprintf` produces from a format and its arguments. -/
  format : String → List String → String

/-- State of the logger: the file-scope variable `log_file` (`none` for `NULL`)
and the file system. -/
structure LogSt (φ : Type) where
  log_file : Option String
  fs : φ

/-- State at process start: `static const char* log_file = NULL;`. -/
def LogSt.start {φ : Type} (fs : φ) : LogSt φ := { log_file := none, fs := fs }

section Logger

variable {φ : Type} (libc : Libc φ)

/-- Function `log_init(logFile)`.  Its first statement, `logFile = logFile;`,
assigns the parameter to itself; the file-scope `log_file` is not assigned.
The result is `none` where the run has no defined behaviour. -/
def log_init (logFile : String) (s : LogSt φ) : Option (LogSt φ) :=
  let logFile : Option String := some logFile
  let logFile := logFile
  match libc.fopen s.fs logFile .w with
  | (file, fs1) =>
    match libc.fprintf fs1 file "Created\n" with
    | none => none
    | some fs2 =>
      match libc.fclose fs2 file with
      | none => none
      | some fs3 => some { s with fs := fs3 }

/-- Function `log_f(format, ...)`: opens the file named by the file-scope
`log_file` for appending, writes the formatted text and a newline, closes the
file.  No result of the library calls is tested.  The result is `none` where
the run has no defined behaviour. -/
def log_f (format : String) (args : List String) (s : LogSt φ) : Option (LogSt φ) :=
  match libc.fopen s.fs s.log_file .a with
  | (file, fs1) =>
    match libc.fprintf fs1 file (libc.format format args) with
    | none => none
    | some fs2 =>
      match libc.fprintf fs2 file "\n" with
      | none => none
      | some fs3 =>
        match libc.fclose fs3 file with
        | none => none
        | some fs4 => some { s with fs := fs4 }

end Logger

/-- The macro `LOG_FILE` of `main.cpp`. -/
def Cpp.LOG_FILE : String := "C:\\Temp\\DcvExtensionVirtualChannelsCPP"

/-- The name `main` of `main.cpp` builds for the log file, with
`sprintf_s(log_file, "%s_%i.log", LOG_FILE, GetCurrentProcessId())`, and hands
to `log_init`. -/
def Cpp.logFileName (pid : Nat) : String :=
  Cpp.LOG_FILE ++ "_" ++ toString pid ++ ".log"

/-- A scripted file system: the files by path with their contents, and the
streams opened so far, stream `n` being the `n`-th one (`none` once closed). -/
structure SimFs where
  files : List (String × String)
  streams : List (Option String)
  deriving DecidableEq, Repr

namespace SimFs

/-- The content of the file at `path`, if there is one. -/
def content (fs : SimFs) (path : String) : Option String :=
  (fs.files.find? (fun f => f.1 == path)).map Prod.snd

/-- The files with the file at `path` set to `text`. -/
def store (fs : SimFs) (path text : String) : List (String × String) :=
  match fs.content path with
  | none => fs.files ++ [(path, text)]
  | some _ => fs.files.map (fun f => if f.1 == path then (path, text) else f)

/-- Opening a null path fails; mode `w` creates the file or empties it, mode
`a` creates it when it is missing. -/
def fopen (fs : SimFs) (path : Option String) (mode : FileMode) : FILE × SimFs :=
  match path with
  | none => (none, fs)
  | some p =>
    let files :=
      match mode with
      | .w => fs.store p ""
      | .a => fs.store p ((fs.content p).getD "")
    (some fs.streams.length, { files := files, streams := fs.streams ++ [some p] })

/-- The path behind an open stream. -/
def pathOf (fs : SimFs) (file : FILE) : Option String :=
  match file with
  | none => none
  | some n => (fs.streams.get? n).join

/-- Output on an open stream appends to its file; on a null or closed stream
it has no defined behaviour. -/
def fprintf (fs : SimFs) (file : FILE) (text : String) : Option SimFs :=
  match fs.pathOf file with
  | none => none
  | some p => some { fs with files := fs.store p ((fs.content p).getD "" ++ text) }

/-- Closing an open stream; closing a null or closed stream has no defined
behaviour. -/
def fclose (fs : SimFs) (file : FILE) : Option SimFs :=
  match file, fs.pathOf file with
  | some n, some _ => some { fs with streams := fs.streams.set n none }
  | _, _ => none

/-- The scripted C library; formats without conversion specifications come
out as they are. -/
def libc : Libc SimFs where
  fopen := fopen
  fprintf := fprintf
  fclose := fclose
  format := fun format _ => format

/-- An empty file system. -/
def empty : SimFs := { files := [], streams := [] }

/-- The log file name `main.cpp` builds for process id 4242,
`C:\Temp\DcvExtensionVirtualChannelsCPP_4242.log`. -/
def logPath : String := Cpp.logFileName 4242

end SimFs

/-- The calls of a data loop come as iterations: one write, then one read,
then the store that terminates the read buffer and the pacing sleep; the loop
may end early after a write (the write failed) or after a write and a read
(the read failed). -/
def isIterations : List Call → Bool
  | [] => true
  | [.WriteFile _ _ _] => true
  | [.WriteFile _ _ _, .ReadFile _ _] => true
  | .WriteFile _ _ _ :: .ReadFile _ _ :: .StoreReadBuffer _ :: .Sleep _ :: rest =>
    isIterations rest
  | _ => false

/-! ## The whole trace as the lifecycle claim sees it -/

namespace C

variable {σ : Type} (env : Win32 σ) (pb : ProtobufC)

end C

namespace Cpp

variable {σ : Type} (env : Win32 σ) (pb : ProtobufCpp)

end Cpp

section ReadFromHandleProofs

variable {σ : Type} (env : Win32 σ)

theorem writeAt_length (buffer : List Byte) (off : Nat) (data : List Byte)
    (h : off + data.length ≤ buffer.length) : (writeAt buffer off data).length = buffer.length := by
  simp [writeAt]
  omega

theorem writeAt_take (buffer : List Byte) (off : Nat) (data : List Byte)
    (h : off ≤ buffer.length) :
    (writeAt buffer off data).take (off + data.length) = buffer.take off ++ data := by
  have h1 : (buffer.take off ++ data).length = off + data.length := by
    simp [Nat.min_eq_left h]
  unfold writeAt
  rw [List.take_append_of_le_length (by omega), ← h1, List.take_length]

theorem writeAt_drop (buffer : List Byte) (off : Nat) (data : List Byte) (size : Nat)
    (h : off ≤ buffer.length) (h2 : off + data.length ≤ size) :
    (writeAt buffer off data).drop size = buffer.drop size := by
  have h1 : (buffer.take off ++ data).length = off + data.length := by
    simp [Nat.min_eq_left h]
  unfold writeAt
  rw [List.drop_append_eq_append_drop, h1]
  have : List.drop size (buffer.take off ++ data) = [] := by
    apply List.drop_eq_nil_of_le
    omega
  rw [this, List.drop_drop]
  simp
  congr 1
  omega

theorem Delivers_zero {handle : HANDLE} {o o1 : σ} {data : List Byte} {k : Nat}
    (h : Delivers env handle o 0 data k o1) : data = [] ∧ k = 0 ∧ o1 = o := by
  generalize hn : (0 : Nat) = n at h
  cases h with
  | done => exact ⟨rfl, rfl, rfl⟩
  | read hpos _ _ _ => omega

theorem Delivers_pos {handle : HANDLE} {o o2 : σ} {n : Nat} {data : List Byte} {k : Nat}
    (hn : 0 < n) (h : Delivers env handle o n data k o2) :
    ∃ d o1 rest k1, env.ReadFile o handle n = (some d, o1) ∧ d ≠ [] ∧
      Delivers env handle o1 (n - d.length) rest k1 o2 ∧ data = d ++ rest ∧ k = k1 + 1 := by
  cases h with
  | done => omega
  | read _ hr hd hrest => exact ⟨_, _, _, _, hr, hd, hrest, rfl, rfl⟩

end ReadFromHandleProofs

section ReadFromHandleLoop

variable {σ : Type} (env : Win32 σ)

/-- Invariant of the read loop: with `bytes_read ≤ size` bytes stored so far
and enough fuel, the loop returns, and it returns `TRUE` exactly when the
transport delivers the outstanding bytes; it then has stored them behind the
bytes already read, consumed nothing more, and made one read per chunk. -/
theorem ReadFromHandle_loop_spec (hwb : ReadsWithinRequest env) (handle : HANDLE) (size : Nat)
    (hsize : size < DWORD_MOD) :
    ∀ (fuel bytes_read : Nat) (buffer : List Byte) (s : St σ),
      bytes_read ≤ size → size - bytes_read ≤ fuel → size ≤ buffer.length →
      ∃ ok buf1 s1,
        ReadFromHandle.loop env handle size fuel bytes_read buffer s = some (ok, buf1, s1) ∧
        (ok = true → ∃ data k o1, Delivers env handle s.os (size - bytes_read) data k o1) ∧
        (∀ data k o1, Delivers env handle s.os (size - bytes_read) data k o1 →
          ok = true ∧ buf1 = buffer.take bytes_read ++ data ++ buffer.drop size ∧
          data.length = size - bytes_read ∧ k ≤ size - bytes_read ∧ s1.os = o1 ∧
          s1.last_request_id = s.last_request_id ∧
          ∃ added, s1.trace = s.trace ++ added ∧ added.length = k ∧
            ∀ e ∈ added, ∃ n, e = ⟨Fn.ReadFromHandle, Call.ReadFile handle n⟩) := by
  intro fuel
  induction fuel with
  | zero =>
    intro bytes_read buffer s hle hfuel hbuf
    have hbr : bytes_read = size := by omega
    subst hbr
    refine ⟨true, buffer, s, by simp [ReadFromHandle.loop], ?_, ?_⟩
    · intro _
      exact ⟨[], 0, s.os, by simpa using Delivers.done s.os⟩
    · intro data k o1 hd
      rw [Nat.sub_self] at hd
      obtain ⟨h1, h2, h3⟩ := Delivers_zero env hd
      subst h1 h2 h3
      simp
  | succ fuel ih =>
    intro bytes_read buffer s hle hfuel hbuf
    by_cases hlt : bytes_read < size
    · have hpos : 0 < size - bytes_read := by omega
      rcases hrd : env.ReadFile s.os handle (size - bytes_read) with ⟨r, o1⟩
      cases r with
      | none =>
        refine ⟨false, buffer, _, by simp [ReadFromHandle.loop, hlt, doReadFile, hrd]; rfl, ?_, ?_⟩
        · intro h; cases h
        · intro data k o2 hd
          obtain ⟨d, o3, rest, k1, hr, _⟩ := Delivers_pos env hpos hd
          rw [hrd] at hr
          cases hr
      | some d =>
        by_cases hd0 : d.length = 0
        · refine ⟨false, buffer, _,
            by simp [ReadFromHandle.loop, hlt, doReadFile, hrd, hd0]; rfl, ?_, ?_⟩
          · intro h; cases h
          · intro data k o2 hd
            obtain ⟨d1, o3, rest, k1, hr, hne, _⟩ := Delivers_pos env hpos hd
            rw [hrd] at hr
            cases hr
            exact absurd (List.length_eq_zero.mp hd0) hne
        · have hdle : d.length ≤ size - bytes_read := hwb _ _ _ _ _ hrd
          have hmod : (bytes_read + d.length) % DWORD_MOD = bytes_read + d.length :=
            Nat.mod_eq_of_lt (by omega)
          have hlen : (writeAt buffer bytes_read d).length = buffer.length :=
            writeAt_length buffer bytes_read d (by omega)
          obtain ⟨ok, buf1, s1, hrun, htrue, hdel⟩ :=
            ih (bytes_read + d.length) (writeAt buffer bytes_read d)
              { s with os := o1,
                       trace := s.trace ++ [⟨Fn.ReadFromHandle, Call.ReadFile handle (size - bytes_read)⟩] }
              (by omega) (by omega) (by omega)
          refine ⟨ok, buf1, s1, ?_, ?_, ?_⟩
          · simp only [ReadFromHandle.loop, hlt, doReadFile, hrd, hd0, hmod, if_true, if_false]
            exact hrun
          · intro hok
            obtain ⟨data, k, o2, hd⟩ := htrue hok
            refine ⟨d ++ data, k + 1, o2, Delivers.read hpos hrd ?_ ?_⟩
            · intro hnil; exact hd0 (by simp [hnil])
            · have : size - bytes_read - d.length = size - (bytes_read + d.length) := by omega
              rw [this]; exact hd
          · intro data k o2 hd
            obtain ⟨d1, o3, rest, k1, hr, hne, hrest, hdata, hk⟩ := Delivers_pos env hpos hd
            rw [hrd] at hr
            cases hr
            have : size - bytes_read - d.length = size - (bytes_read + d.length) := by omega
            rw [this] at hrest
            obtain ⟨h1, h2, h3, h4, h5, h6, added, h7, h8, h9⟩ := hdel rest k1 o2 hrest
            refine ⟨h1, ?_, ?_, ?_, h5, h6, ?_⟩
            · rw [h2, writeAt_take buffer bytes_read d (by omega),
                writeAt_drop buffer bytes_read d size (by omega) (by omega), hdata]
              simp
            · rw [hdata, List.length_append, h3]; omega
            · omega
            · refine ⟨⟨Fn.ReadFromHandle, Call.ReadFile handle (size - bytes_read)⟩ :: added,
                ?_, ?_, ?_⟩
              · rw [h7]; simp
              · simp [h8, hk]
              · intro e he
                rcases List.mem_cons.mp he with rfl | he
                · exact ⟨_, rfl⟩
                · exact h9 e he
    · have hbr : bytes_read = size := by omega
      subst hbr
      refine ⟨true, buffer, s, by simp [ReadFromHandle.loop], ?_, ?_⟩
      · intro _
        exact ⟨[], 0, s.os, by simpa using Delivers.done s.os⟩
      · intro data k o1 hd
        rw [Nat.sub_self] at hd
        obtain ⟨h1, h2, h3⟩ := Delivers_zero env hd
        subst h1 h2 h3
        simp

end ReadFromHandleLoop

section ReadFromHandleContract

variable {σ : Type} (env : Win32 σ)

/-- C1. `ReadFromHandle(handle, buffer, size)`, the same function in both
ports: against a transport whose reads never deliver more than was asked for,
for every `size` (a `DWORD`) and a buffer with room for `size` bytes, the call
returns (fuel `size` is enough); it returns `TRUE` if and only if the transport
delivers `size` bytes in total before any read reports an error or returns
0 bytes; when the transport does, the first `size` bytes of the buffer are
exactly the delivered bytes in order, the rest of the buffer is untouched, the
final transport state is the one after exactly those reads, and the reads made
are at most `size` (all on `handle`); with `size = 0` no read is made. -/
theorem ReadFromHandle_contract (hwb : ReadsWithinRequest env) (fuel : Nat) (handle : HANDLE)
    (buffer : List Byte) (size : Nat) (s : St σ)
    (hsize : size < DWORD_MOD) (hfuel : size ≤ fuel) (hbuf : size ≤ buffer.length) :
    ∃ ok buf1 s1,
      ReadFromHandle env fuel handle buffer size s = some (ok, buf1, s1) ∧
      (ok = true ↔ ∃ data k o1, Delivers env handle s.os size data k o1) ∧
      (∀ data k o1, Delivers env handle s.os size data k o1 →
        buf1.take size = data ∧ buf1.drop size = buffer.drop size ∧ data.length = size ∧
        s1.os = o1 ∧ k ≤ size ∧
        ∃ added, s1.trace = s.trace ++ added ∧ added.length = k ∧
          ∀ e ∈ added, ∃ n, e = ⟨Fn.ReadFromHandle, Call.ReadFile handle n⟩) ∧
      (size = 0 → ok = true ∧ s1 = s) := by
  obtain ⟨ok, buf1, s1, hrun, htrue, hdel⟩ :=
    ReadFromHandle_loop_spec env hwb handle size hsize fuel 0 buffer s (Nat.zero_le _)
      (by omega) hbuf
  refine ⟨ok, buf1, s1, hrun, ⟨fun h => by simpa using htrue h, ?_⟩, ?_, ?_⟩
  · rintro ⟨data, k, o1, hd⟩
    exact (hdel data k o1 (by simpa using hd)).1
  · intro data k o1 hd
    obtain ⟨_, h2, h3, h4, h5, _, h7⟩ := hdel data k o1 (by simpa using hd)
    simp only [List.take_zero, List.nil_append, Nat.sub_zero] at h2 h3 h4
    refine ⟨?_, ?_, h3, h5, h4, h7⟩
    · rw [h2, ← h3, List.take_left]
    · rw [h2, ← h3, List.drop_left]
  · intro h0
    subst h0
    cases fuel <;> simp [ReadFromHandle, ReadFromHandle.loop] at hrun <;>
      exact ⟨hrun.1, hrun.2.2.symm⟩

end ReadFromHandleContract

theorem Sim.readsWithinRequest : ReadsWithinRequest Sim.env := by
  intro o h n d o1 hr
  simp only [Sim.env, Sim.ReadFile] at hr
  split at hr
  · cases hr
    simp only [List.length_take]
    omega
  · split at hr
    · cases hr
    · rename_i r rest _
      cases r with
      | none => cases hr
      | some x =>
        cases hr
        simp only [List.length_take]
        omega

/-- Witness of C1: three bytes read from a transport holding five bytes and
delivering at most two a read. -/
theorem ReadFromHandle_contract_witness :
    ReadsWithinRequest Sim.env ∧ (3 : Nat) < DWORD_MOD ∧
    ∃ ok buf1 s1,
      ReadFromHandle Sim.env 3 Sim.stdin [0, 0, 0, 0] 3 (St.start (Sim.idle [1, 2, 3, 4, 5] 1 0))
        = some (ok, buf1, s1) ∧
      (ok = true ↔
        ∃ data k o1, Delivers Sim.env Sim.stdin (Sim.idle [1, 2, 3, 4, 5] 1 0) 3 data k o1) :=
  ⟨Sim.readsWithinRequest, by decide,
    (ReadFromHandle_contract Sim.env Sim.readsWithinRequest 3 Sim.stdin [0, 0, 0, 0] 3
      (St.start (Sim.idle [1, 2, 3, 4, 5] 1 0)) (by decide) (by decide) (by decide)).imp
      fun _ h => h.imp fun _ h => h.imp fun _ h => ⟨h.1, h.2.1⟩⟩

section FrameProofs

variable {σ : Type} (env : Win32 σ)

theorem loadU32_storeU32 (bo : ByteOrder) (n : Nat) (h : n < DWORD_MOD) :
    loadU32 bo (storeU32 bo n) = n := by
  unfold DWORD_MOD at h
  cases bo <;> simp [storeU32, le32, loadU32, Fin.ofNat] <;> omega

theorem storeU32_length (bo : ByteOrder) (n : Nat) : (storeU32 bo n).length = 4 := by
  cases bo <;> simp [storeU32, le32]

theorem toInt32_of_lt (n : Nat) (h : n < 2 ^ 31) : toInt32 n = (n : Int) := by
  have h1 : n % DWORD_MOD = n := Nat.mod_eq_of_lt (by unfold DWORD_MOD; omega)
  unfold toInt32
  rw [h1, if_pos h]

theorem toDWORD_toInt32 (n : Nat) (h : n < DWORD_MOD) : toDWORD (toInt32 n) = n := by
  have h1 : n % DWORD_MOD = n := Nat.mod_eq_of_lt h
  unfold toDWORD toInt32
  rw [h1]
  unfold DWORD_MOD at *
  split <;> omega

theorem writeAt_full (data : List Byte) :
    writeAt (List.replicate data.length 0) 0 data = data := by
  simp [writeAt]

/-- The write loop against a transport that accepts at least one byte a write:
it returns `TRUE` and has emitted what was left of the first `size` bytes. -/
theorem WriteToHandle_loop_spec {h : HANDLE} {emitted : σ → List Byte}
    (hacc : AcceptsWrites env h emitted) (buffer : List Byte) (size : Nat)
    (hsize : size < DWORD_MOD) (hbuf : size ≤ buffer.length) :
    ∀ (fuel bytes_written : Nat) (s : St σ),
      bytes_written ≤ size → size - bytes_written ≤ fuel →
      ∃ s1, WriteToHandle.loop env h buffer size fuel bytes_written s = some (true, s1) ∧
        emitted s1.os = emitted s.os ++ (buffer.take size).drop bytes_written := by
  intro fuel
  induction fuel with
  | zero =>
    intro bw s hle hfuel
    have : bw = size := by omega
    subst this
    exact ⟨s, by simp [WriteToHandle.loop], by simp⟩
  | succ fuel ih =>
    intro bw s hle hfuel
    by_cases hlt : bw < size
    · obtain ⟨k, o1, hw, hk0, hkn, hem⟩ :=
        hacc.write s.os (buffer.drop bw) (size - bw) (by omega)
          (by rw [List.length_drop]; omega)
      have hmod : (bw + k) % DWORD_MOD = bw + k := Nat.mod_eq_of_lt (by omega)
      obtain ⟨s1, hrun, hem1⟩ :=
        ih (bw + k)
          { s with os := o1,
                   trace := s.trace ++
                     [⟨Fn.WriteToHandle, Call.WriteFile h (buffer.drop bw) (size - bw)⟩] }
          (by omega) (by omega)
      refine ⟨s1, ?_, ?_⟩
      · simp only [WriteToHandle.loop, hlt, doWriteFile, hw, hmod, if_true]
        exact hrun
      · rw [hem1]
        simp only
        rw [hem, List.append_assoc]
        congr 1
        have e1 : List.drop bw (List.take size buffer) = List.take (size - bw) (List.drop bw buffer) := by
          rw [List.drop_take]
        have e2 : List.drop (bw + k) (List.take size buffer)
            = List.drop k (List.take (size - bw) (List.drop bw buffer)) := by
          rw [← e1, List.drop_drop]
        have e3 : List.take k (List.drop bw buffer)
            = List.take k (List.take (size - bw) (List.drop bw buffer)) := by
          rw [List.take_take, Nat.min_eq_left hkn]
        rw [e1, e2, e3, List.take_append_drop]
    · have : bw = size := by omega
      subst this
      exact ⟨s, by simp [WriteToHandle.loop], by simp⟩

theorem WriteToHandle_spec {h : HANDLE} {emitted : σ → List Byte}
    (hacc : AcceptsWrites env h emitted) (buffer : List Byte) (size fuel : Nat) (s : St σ)
    (hsize : size < DWORD_MOD) (hbuf : size = buffer.length) (hfuel : size ≤ fuel) :
    ∃ s1, WriteToHandle env fuel h buffer size s = some (true, s1) ∧
      emitted s1.os = emitted s.os ++ buffer := by
  obtain ⟨s1, h1, h2⟩ :=
    WriteToHandle_loop_spec env hacc buffer size hsize (by omega) fuel 0 s (by omega) (by omega)
  refine ⟨s1, h1, ?_⟩
  rw [h2, hbuf]
  simp

/-- A transport delivering in chunks delivers any front part of what is
pending, and leaves the rest pending. -/
theorem Delivers_of_chunks (hwb : ReadsWithinRequest env) {h : HANDLE} {pending : σ → List Byte}
    (hch : DeliversInChunks env h pending) :
    ∀ (n : Nat) (o : σ) (data rest : List Byte), data.length = n → pending o = data ++ rest →
      ∃ k o1, Delivers env h o n data k o1 ∧ pending o1 = rest := by
  intro n
  induction n using Nat.strong_induction_on with
  | _ n ih =>
    intro o data rest hlen hpend
    by_cases hn : n = 0
    · subst hn
      have : data = [] := List.length_eq_zero.mp hlen
      subst this
      exact ⟨0, o, Delivers.done o, by simpa using hpend⟩
    · have hne : pending o ≠ [] := by
        rw [hpend]
        intro hnil
        have hdnil : data = [] := (List.append_eq_nil.mp hnil).1
        rw [hdnil] at hlen
        exact hn hlen.symm
      obtain ⟨d, o1, hr, hd, hp⟩ := hch.read o n (by omega) hne
      have hdn : d.length ≤ n := hwb _ _ _ _ _ hr
      have hd0 : 0 < d.length := List.length_pos.mpr hd
      have hdata : data = d ++ data.drop d.length := by
        have h1 : (data ++ rest).take d.length = d := by
          rw [← hpend, hp, List.take_left]
        rw [List.take_append_of_le_length (by omega)] at h1
        conv_lhs => rw [← List.take_append_drop d.length data, h1]
      have hrest : pending o1 = data.drop d.length ++ rest := by
        have h1 : (data ++ rest).drop d.length = pending o1 := by
          rw [← hpend, hp, List.drop_left]
        rw [List.drop_append_of_le_length (by omega)] at h1
        exact h1.symm
      obtain ⟨k, o2, hdel, hp2⟩ :=
        ih (n - d.length) (by omega) o1 (data.drop d.length) rest
          (by rw [List.length_drop]; omega) hrest
      refine ⟨k + 1, o2, ?_, hp2⟩
      rw [hdata]
      exact Delivers.read (by omega) hr hd hdel

/-- Reading `size` bytes into a `size`-byte buffer from a transport that has
them pending returns `TRUE` with exactly these bytes. -/
theorem ReadFromHandle_of_chunks (hwb : ReadsWithinRequest env) {h : HANDLE}
    {pending : σ → List Byte} (hch : DeliversInChunks env h pending)
    (fuel : Nat) (buffer data rest : List Byte) (s : St σ)
    (hsize : data.length < DWORD_MOD) (hfuel : data.length ≤ fuel)
    (hbuf : buffer.length = data.length) (hpend : pending s.os = data ++ rest) :
    ∃ s1, ReadFromHandle env fuel h buffer data.length s = some (true, data, s1) ∧
      pending s1.os = rest := by
  obtain ⟨k, o1, hdel, hp⟩ := Delivers_of_chunks env hwb hch data.length s.os data rest rfl hpend
  obtain ⟨ok, buf1, s1, hrun, _, hd⟩ :=
    ReadFromHandle_loop_spec env hwb h data.length hsize fuel 0 buffer s (Nat.zero_le _)
      (by omega) (by omega)
  obtain ⟨h1, h2, _, _, h5, _⟩ := hd data k o1 (by simpa using hdel)
  subst h1
  have hb : buf1 = data := by
    rw [h2, List.drop_eq_nil_of_le (by omega)]
    simp
  subst hb
  exact ⟨s1, hrun, by rw [h5]; exact hp⟩

end FrameProofs

section FramePorts

variable {σ : Type} (env : Win32 σ)

theorem C_WriteMessage_emits (pb : ProtobufC) {h : HANDLE} {emitted : σ → List Byte}
    (hacc : AcceptsWrites env h emitted) (msg : ExtensionMessage) (p : List Byte) (fuel : Nat)
    (s : St σ) (hh : env.GetStdHandle s.os .STD_OUTPUT_HANDLE = h) (hv : h ≠ INVALID_HANDLE_VALUE)
    (hp : pb.pack msg = p) (hsz : pb.get_packed_size msg = p.length) (hpos : 0 < p.length)
    (hlt : p.length < DWORD_MOD) (halloc : env.calloc s.os p.length = true)
    (hfuel : 4 ≤ fuel ∧ p.length ≤ fuel) :
    ∃ s1, C.WriteMessage env pb fuel msg s = some s1 ∧
      emitted s1.os = emitted s.os ++ (storeU32 env.byteOrder p.length ++ p) := by
  have hmod : p.length % DWORD_MOD = p.length := Nat.mod_eq_of_lt hlt
  obtain ⟨s1, h1, e1⟩ :=
    WriteToHandle_spec env hacc (storeU32 env.byteOrder p.length) 4 fuel s
      (by unfold DWORD_MOD; omega) (storeU32_length _ _).symm hfuel.1
  obtain ⟨s2, h2, e2⟩ := WriteToHandle_spec env hacc p p.length fuel s1 hlt rfl hfuel.2
  refine ⟨(doFlushFileBuffers env .WriteMessage s2 h).2, ?_, ?_⟩
  · unfold C.WriteMessage
    simp only [hh, hv, hsz, hmod, hp, writeAt_full, halloc, h1, h2, if_false]
    rw [if_neg (by omega)]
    simp
  · simp only [doFlushFileBuffers]
    rw [hacc.flush, e2, e1, List.append_assoc]

theorem C_ReadNextMessage_frame (pb : ProtobufC) (hwb : ReadsWithinRequest env) {h : HANDLE}
    {pending : σ → List Byte} (hch : DeliversInChunks env h pending) (p : List Byte) (fuel : Nat)
    (r : St σ) (hh : env.GetStdHandle r.os .STD_INPUT_HANDLE = h) (hv : h ≠ INVALID_HANDLE_VALUE)
    (hlt : p.length < DWORD_MOD) (halloc : ∀ o, env.calloc o p.length = true)
    (hfuel : 4 ≤ fuel ∧ p.length ≤ fuel)
    (hpend : pending r.os = storeU32 env.byteOrder p.length ++ p) :
    ∃ r1, C.ReadNextMessage env pb fuel r = some (pb.unpack p.length p, r1) ∧
      pending r1.os = [] := by
  have hl4 : (storeU32 env.byteOrder p.length).length = 4 := storeU32_length _ _
  obtain ⟨r1, h1, e1⟩ :=
    ReadFromHandle_of_chunks env hwb hch fuel (storeU32 env.byteOrder 0)
      (storeU32 env.byteOrder p.length) p r (by rw [hl4]; unfold DWORD_MOD; omega)
      (by rw [hl4]; exact hfuel.1) (by rw [hl4, storeU32_length]) hpend
  obtain ⟨r2, h2, e2⟩ :=
    ReadFromHandle_of_chunks env hwb hch fuel (List.replicate p.length 0) p [] r1 hlt hfuel.2
      (by simp) (by simpa using e1)
  rw [hl4] at h1
  refine ⟨r2, ?_, e2⟩
  unfold C.ReadNextMessage
  simp only [hh, hv, h1, loadU32_storeU32 _ _ hlt, halloc, h2, if_false]
  simp

theorem Cpp_WriteMessage_emits (pb : ProtobufCpp) {h : HANDLE} {emitted : σ → List Byte}
    (hacc : AcceptsWrites env h emitted) (msg : ExtensionMessage) (p : List Byte) (fuel : Nat)
    (s : St σ) (hh : env.GetStdHandle s.os .STD_OUTPUT_HANDLE = h) (hv : h ≠ INVALID_HANDLE_VALUE)
    (hsz : pb.ByteSizeLong msg = p.length) (hp : pb.SerializeToArray msg (p.length : Int) = p)
    (hlt : p.length < 2 ^ 31) (hfuel : 4 ≤ fuel ∧ p.length ≤ fuel) :
    ∃ s1, Cpp.WriteMessage env pb fuel msg s = some s1 ∧
      emitted s1.os = emitted s.os ++ (storeU32 env.byteOrder p.length ++ p) := by
  have hlt2 : p.length < DWORD_MOD := by unfold DWORD_MOD; omega
  have hi : toInt32 p.length = (p.length : Int) := toInt32_of_lt _ hlt
  have hd : toDWORD (p.length : Int) = p.length := by rw [← hi]; exact toDWORD_toInt32 _ hlt2
  obtain ⟨s1, h1, e1⟩ :=
    WriteToHandle_spec env hacc (storeU32 env.byteOrder p.length) 4 fuel s
      (by unfold DWORD_MOD; omega) (storeU32_length _ _).symm hfuel.1
  obtain ⟨s2, h2, e2⟩ := WriteToHandle_spec env hacc p p.length fuel s1 hlt2 rfl hfuel.2
  refine ⟨(doFlushFileBuffers env .WriteMessage s2 h).2, ?_, ?_⟩
  · unfold Cpp.WriteMessage
    simp only [hh, hv, hsz, hi, hd, hp, h1, h2, if_false]
  · simp only [doFlushFileBuffers]
    rw [hacc.flush, e2, e1, List.append_assoc]

theorem Cpp_ReadNextMessage_frame (pb : ProtobufCpp) (hwb : ReadsWithinRequest env) {h : HANDLE}
    {pending : σ → List Byte} (hch : DeliversInChunks env h pending) (p : List Byte) (fuel : Nat)
    (r : St σ) (hh : env.GetStdHandle r.os .STD_INPUT_HANDLE = h) (hv : h ≠ INVALID_HANDLE_VALUE)
    (hlt : p.length < DWORD_MOD) (hfuel : 4 ≤ fuel ∧ p.length ≤ fuel)
    (hpend : pending r.os = storeU32 env.byteOrder p.length ++ p) :
    ∃ r1, Cpp.ReadNextMessage env pb fuel r
        = some (pb.ParseFromArray p (toInt32 p.length), r1) ∧
      pending r1.os = [] := by
  have hl4 : (storeU32 env.byteOrder p.length).length = 4 := storeU32_length _ _
  obtain ⟨r1, h1, e1⟩ :=
    ReadFromHandle_of_chunks env hwb hch fuel (storeU32 env.byteOrder 0)
      (storeU32 env.byteOrder p.length) p r (by rw [hl4]; unfold DWORD_MOD; omega)
      (by rw [hl4]; exact hfuel.1) (by rw [hl4, storeU32_length]) hpend
  obtain ⟨r2, h2, e2⟩ :=
    ReadFromHandle_of_chunks env hwb hch fuel ((List.range p.length).map env.uninit) p [] r1 hlt
      hfuel.2 (by simp) (by simpa using e1)
  rw [hl4] at h1
  refine ⟨r2, ?_, e2⟩
  unfold Cpp.ReadNextMessage
  simp only [hh, hv, h1, loadU32_storeU32 _ _ hlt, h2, if_false]

end FramePorts

theorem Sim.acceptsWrites : AcceptsWrites Sim.env Sim.stdout (fun o => o.output) := by
  constructor
  · intro o buffer n hn _
    refine ⟨min n (o.writeChunk + 1),
      { o with output := o.output ++ buffer.take (min n (o.writeChunk + 1)) }, ?_, ?_, ?_, ?_⟩
    · simp only [Sim.env, Sim.WriteFile, if_true]
    · omega
    · omega
    · rfl
  · intro o
    simp [Sim.env, Sim.FlushFileBuffers]

theorem Sim.deliversInChunks : DeliversInChunks Sim.env Sim.stdin (fun o => o.input) := by
  constructor
  intro o n hn hne
  refine ⟨o.input.take (min n (o.readChunk + 1)),
    { o with input := o.input.drop (min n (o.readChunk + 1)) }, ?_, ?_, ?_⟩
  · simp only [Sim.env, Sim.ReadFile, if_true]
  · intro h
    have h1 := congrArg List.length h
    simp only [List.length_take, List.length_nil] at h1
    have h2 : 0 < o.input.length := List.length_pos.mpr hne
    omega
  · simp

section FrameRoundTrip

variable {σ : Type} (env : Win32 σ)

/-- C2, as amended.  Frame round trip in both ports, against a standard output
that accepts writes in chunks of at least one byte and a standard input that
delivers what is pending in chunks of at least one byte (and never more than
asked for), the allocation of the `n`-byte buffer succeeding.  For an encoded
payload `p` of length `n`:
* C port, `1 ≤ n < 2 ^ 32`: `WriteMessage` returns and has emitted exactly the
  4-byte native-order encoding of `n` followed by `p`; with a packed size of 0
  it returns having emitted nothing;
* C++ port, `n < 2 ^ 31` (its length variable is an `int`), `n = 0` included:
  `WriteMessage` returns and has emitted exactly the same bytes;
* both ports, `n < 2 ^ 32`, `n = 0` included: `ReadNextMessage` on a standard
  input holding exactly those bytes returns, hands exactly `p` (with length
  `n`) to the unpack routine, and leaves nothing pending. -/
theorem frame_round_trip (pbC : ProtobufC) (pbCpp : ProtobufCpp) (hOut hIn : HANDLE)
    (emitted pending : σ → List Byte) (msg : ExtensionMessage) (p : List Byte) (fuel : Nat)
    (s r : St σ)
    (hacc : AcceptsWrites env hOut emitted) (hwb : ReadsWithinRequest env)
    (hch : DeliversInChunks env hIn pending)
    (hs : env.GetStdHandle s.os .STD_OUTPUT_HANDLE = hOut) (hOutV : hOut ≠ INVALID_HANDLE_VALUE)
    (hr : env.GetStdHandle r.os .STD_INPUT_HANDLE = hIn) (hInV : hIn ≠ INVALID_HANDLE_VALUE)
    (hlt : p.length < DWORD_MOD) (hfuel : 4 ≤ fuel ∧ p.length ≤ fuel)
    (halloc : ∀ o, env.calloc o p.length = true)
    (hpend : pending r.os = storeU32 env.byteOrder p.length ++ p) :
    (pbC.pack msg = p → pbC.get_packed_size msg = p.length → 0 < p.length →
      ∃ s1, C.WriteMessage env pbC fuel msg s = some s1 ∧
        emitted s1.os = emitted s.os ++ (storeU32 env.byteOrder p.length ++ p)) ∧
    (pbC.get_packed_size msg = 0 → C.WriteMessage env pbC fuel msg s = some s) ∧
    (pbCpp.SerializeToArray msg (p.length : Int) = p → pbCpp.ByteSizeLong msg = p.length →
      p.length < 2 ^ 31 →
      ∃ s1, Cpp.WriteMessage env pbCpp fuel msg s = some s1 ∧
        emitted s1.os = emitted s.os ++ (storeU32 env.byteOrder p.length ++ p)) ∧
    (∃ r1, C.ReadNextMessage env pbC fuel r = some (pbC.unpack p.length p, r1) ∧
      pending r1.os = []) ∧
    (∃ r1, Cpp.ReadNextMessage env pbCpp fuel r
        = some (pbCpp.ParseFromArray p (toInt32 p.length), r1) ∧
      pending r1.os = []) := by
  refine ⟨?_, ?_, ?_, ?_, ?_⟩
  · intro hp hsz hpos
    exact C_WriteMessage_emits env pbC hacc msg p fuel s hs hOutV hp hsz hpos hlt (halloc _) hfuel
  · intro h0
    unfold C.WriteMessage
    simp [hs, hOutV, h0]
  · intro hp hsz h31
    exact Cpp_WriteMessage_emits env pbCpp hacc msg p fuel s hs hOutV hsz hp h31 hfuel
  · exact C_ReadNextMessage_frame env pbC hwb hch p fuel r hr hInV hlt halloc hfuel hpend
  · exact Cpp_ReadNextMessage_frame env pbCpp hwb hch p fuel r hr hInV hlt hfuel hpend

end FrameRoundTrip

/-- Witness of C2: the two-byte setup request of the toy codec, written one
byte a write and read back one byte a read; and an empty payload framed by the
C++ port and read back. -/
theorem frame_round_trip_witness :
    AcceptsWrites Sim.env Sim.stdout (fun o => o.output) ∧
    ReadsWithinRequest Sim.env ∧
    DeliversInChunks Sim.env Sim.stdin (fun o => o.input) ∧
    (∃ s1, C.WriteMessage Sim.env Sim.pbC 4 Sim.setupRequest (St.start (Sim.idle [] 0 0))
        = some s1 ∧ s1.os.output = [] ++ (storeU32 .little 2 ++ [10, 1])) ∧
    (∃ s1, Cpp.WriteMessage Sim.env Sim.pbCpp 4 Sim.setupRequest (St.start (Sim.idle [] 0 0))
        = some s1 ∧ s1.os.output = [] ++ (storeU32 .little 2 ++ [10, 1])) ∧
    (∃ r1, C.ReadNextMessage Sim.env Sim.pbC 4 (St.start (Sim.idle [2, 0, 0, 0, 10, 1] 0 0))
        = some (Sim.pbC.unpack 2 [10, 1], r1) ∧ r1.os.input = []) ∧
    (∃ s1, Cpp.WriteMessage Sim.env Sim.pbCppEmpty 4 Sim.setupRequest
        (St.start (Sim.idle [] 0 0)) = some s1 ∧
      s1.os.output = [] ++ (storeU32 .little 0 ++ [])) ∧
    (∃ r1, Cpp.ReadNextMessage Sim.env Sim.pbCppEmpty 4 (St.start (Sim.idle [0, 0, 0, 0] 0 0))
        = some (Sim.pbCppEmpty.ParseFromArray [] (toInt32 0), r1) ∧ r1.os.input = []) :=
  have h := frame_round_trip Sim.env Sim.pbC Sim.pbCpp Sim.stdout Sim.stdin
    (fun o => o.output) (fun o => o.input) Sim.setupRequest [10, 1] 4
    (St.start (Sim.idle [] 0 0)) (St.start (Sim.idle [2, 0, 0, 0, 10, 1] 0 0))
    Sim.acceptsWrites Sim.readsWithinRequest Sim.deliversInChunks rfl (by decide) rfl (by decide)
    (by decide) (by decide) (fun _ => rfl) rfl
  have h0 := frame_round_trip Sim.env Sim.pbCEmpty Sim.pbCppEmpty Sim.stdout Sim.stdin
    (fun o => o.output) (fun o => o.input) Sim.setupRequest [] 4
    (St.start (Sim.idle [] 0 0)) (St.start (Sim.idle [0, 0, 0, 0] 0 0))
    Sim.acceptsWrites Sim.readsWithinRequest Sim.deliversInChunks rfl (by decide) rfl (by decide)
    (by decide) (by decide) (fun _ => rfl) rfl
  ⟨Sim.acceptsWrites, Sim.readsWithinRequest, Sim.deliversInChunks,
    h.1 rfl rfl (by decide), h.2.2.1 rfl rfl (by decide), h.2.2.2.1,
    h0.2.2.1 rfl rfl (by decide), h0.2.2.2.2⟩

/-- Counterexample to C2 as stated: in the C port a payload of length 0 is not
framed; `WriteMessage` leaves the output stream empty instead of emitting the
4-byte encoding of 0. -/
theorem frame_round_trip_counterexample :
    Sim.pbCEmpty.pack Sim.setupRequest = [] ∧
    (C.WriteMessage Sim.env Sim.pbCEmpty 4 Sim.setupRequest (St.start (Sim.idle [] 0 0))).map
        (fun s1 => s1.os.output) = some [] ∧
    (C.WriteMessage Sim.env Sim.pbCEmpty 4 Sim.setupRequest (St.start (Sim.idle [] 0 0))).map
        (fun s1 => s1.os.output)
      ≠ some (storeU32 Sim.env.byteOrder 0 ++ Sim.pbCEmpty.pack Sim.setupRequest) := by
  decide

section TraceLemmas

variable {σ : Type} (env : Win32 σ)

theorem callsOf_append (fn : Fn) (a b : List Entry) :
    callsOf fn (a ++ b) = callsOf fn a ++ callsOf fn b := by
  simp [callsOf]

theorem callsOf_single_same (fn : Fn) (c : Call) : callsOf fn [⟨fn, c⟩] = [c] := by
  simp [callsOf]

theorem AddsOnly.refl (P : Entry → Prop) (t : List Entry) : AddsOnly P t t :=
  ⟨[], by simp, by simp⟩

theorem AddsOnly.trans {P : Entry → Prop} {t t1 t2 : List Entry} (h1 : AddsOnly P t t1)
    (h2 : AddsOnly P t1 t2) : AddsOnly P t t2 := by
  obtain ⟨a, rfl, ha⟩ := h1
  obtain ⟨b, rfl, hb⟩ := h2
  refine ⟨a ++ b, by simp, ?_⟩
  intro e he
  rcases List.mem_append.mp he with h | h
  · exact ha e h
  · exact hb e h

theorem AddsOnly.single {P : Entry → Prop} (t : List Entry) (e : Entry) (h : P e) :
    AddsOnly P t (t ++ [e]) :=
  ⟨[e], rfl, by simpa using h⟩

theorem AddsOnly.callsOf_eq {P : Entry → Prop} {t t1 : List Entry} (h : AddsOnly P t t1)
    (fn : Fn) (hne : ∀ e, P e → e.fn ≠ fn) : callsOf fn t1 = callsOf fn t := by
  obtain ⟨a, rfl, ha⟩ := h
  rw [callsOf_append]
  have : callsOf fn a = [] := by
    unfold callsOf
    rw [List.filter_eq_nil_iff.mpr]
    · rfl
    · intro e he
      simpa using hne e (ha e he)
  rw [this, List.append_nil]

theorem FrameEntry.ne_main (e : Entry) (h : FrameEntry e) : e.fn ≠ .main := by
  rcases h with h | h | h <;> rw [h] <;> decide

theorem FrameEntry.ne_connect (e : Entry) (h : FrameEntry e) :
    e.fn ≠ .SetupAndConnectNamedPipe := by
  rcases h with h | h | h <;> rw [h] <;> decide

theorem ReadFromHandle_adds (handle : HANDLE) (size : Nat) :
    ∀ (fuel bytes_read : Nat) (buffer : List Byte) (s : St σ) (r : Bool × List Byte × St σ),
      ReadFromHandle.loop env handle size fuel bytes_read buffer s = some r →
      AddsOnly FrameEntry s.trace r.2.2.trace := by
  intro fuel
  induction fuel with
  | zero =>
    intro br buf s r h
    simp only [ReadFromHandle.loop] at h
    split at h
    · cases h
    · cases h; exact AddsOnly.refl _ _
  | succ fuel ih =>
    intro br buf s r h
    simp only [ReadFromHandle.loop] at h
    split at h
    · have hstep : AddsOnly FrameEntry s.trace
          (doReadFile env .ReadFromHandle s handle (size - br)).2.trace :=
        AddsOnly.single _ _ (Or.inl rfl)
      split at h
      · rename_i s1 heq
        cases h
        rw [heq] at hstep
        exact hstep
      · rename_i d s1 heq
        rw [heq] at hstep
        split at h
        · cases h; exact hstep
        · exact hstep.trans (ih _ _ _ _ h)
    · cases h; exact AddsOnly.refl _ _

theorem WriteToHandle_adds (handle : HANDLE) (buffer : List Byte) (size : Nat) :
    ∀ (fuel bytes_written : Nat) (s : St σ) (r : Bool × St σ),
      WriteToHandle.loop env handle buffer size fuel bytes_written s = some r →
      AddsOnly FrameEntry s.trace r.2.trace := by
  intro fuel
  induction fuel with
  | zero =>
    intro bw s r h
    simp only [WriteToHandle.loop] at h
    split at h
    · cases h
    · cases h; exact AddsOnly.refl _ _
  | succ fuel ih =>
    intro bw s r h
    simp only [WriteToHandle.loop] at h
    split at h
    · have hstep : AddsOnly FrameEntry s.trace
          (doWriteFile env .WriteToHandle s handle (buffer.drop bw) (size - bw)).2.trace :=
        AddsOnly.single _ _ (Or.inr (Or.inl rfl))
      split at h
      · rename_i s1 heq
        cases h
        rw [heq] at hstep
        exact hstep
      · rename_i k s1 heq
        rw [heq] at hstep
        exact hstep.trans (ih _ _ _ h)
    · cases h; exact AddsOnly.refl _ _

end TraceLemmas

section SubroutineTraces

variable {σ : Type} (env : Win32 σ)

theorem C_ReadNextMessage_adds (pb : ProtobufC) (fuel : Nat) (s s1 : St σ)
    (m : Option DcvMessage) (h : C.ReadNextMessage env pb fuel s = some (m, s1)) :
    AddsOnly FrameEntry s.trace s1.trace := by
  unfold C.ReadNextMessage at h
  simp only at h
  split at h
  · cases h; exact AddsOnly.refl _ _
  · split at h
    · cases h
    · rename_i b s2 heq
      cases h
      exact ReadFromHandle_adds env _ _ _ _ _ _ _ heq
    · rename_i sz s2 heq
      have h1 := ReadFromHandle_adds env _ _ _ _ _ _ _ heq
      split at h
      · cases h; exact h1
      · split at h
        · cases h
        · rename_i b s3 heq2
          cases h
          exact h1.trans (ReadFromHandle_adds env _ _ _ _ _ _ _ heq2)
        · rename_i buf s3 heq2
          cases h
          exact h1.trans (ReadFromHandle_adds env _ _ _ _ _ _ _ heq2)

theorem Cpp_ReadNextMessage_adds (pb : ProtobufCpp) (fuel : Nat) (s s1 : St σ)
    (m : Option DcvMessage) (h : Cpp.ReadNextMessage env pb fuel s = some (m, s1)) :
    AddsOnly FrameEntry s.trace s1.trace := by
  unfold Cpp.ReadNextMessage at h
  simp only at h
  split at h
  · cases h; exact AddsOnly.refl _ _
  · split at h
    · cases h
    · rename_i b s2 heq
      cases h
      exact ReadFromHandle_adds env _ _ _ _ _ _ _ heq
    · rename_i sz s2 heq
      have h1 := ReadFromHandle_adds env _ _ _ _ _ _ _ heq
      split at h
      · cases h
      · rename_i b s3 heq2
        cases h
        exact h1.trans (ReadFromHandle_adds env _ _ _ _ _ _ _ heq2)
      · rename_i buf s3 heq2
        cases h
        exact h1.trans (ReadFromHandle_adds env _ _ _ _ _ _ _ heq2)

theorem C_WriteMessage_adds (pb : ProtobufC) (fuel : Nat) (msg : ExtensionMessage) (s s1 : St σ)
    (h : C.WriteMessage env pb fuel msg s = some s1) : AddsOnly FrameEntry s.trace s1.trace := by
  unfold C.WriteMessage at h
  simp only at h
  split at h
  · cases h; exact AddsOnly.refl _ _
  · split at h
    · cases h; exact AddsOnly.refl _ _
    · split at h
      · cases h; exact AddsOnly.refl _ _
      · split at h
        · cases h
        · rename_i s2 heq
          cases h
          exact WriteToHandle_adds env _ _ _ _ _ _ _ heq
        · rename_i s2 heq
          have h1 := WriteToHandle_adds env _ _ _ _ _ _ _ heq
          split at h
          · cases h
          · rename_i b s3 heq2
            cases h
            exact (h1.trans (WriteToHandle_adds env _ _ _ _ _ _ _ heq2)).trans
              (AddsOnly.single _ _ (Or.inr (Or.inr rfl)))

theorem Cpp_WriteMessage_adds (pb : ProtobufCpp) (fuel : Nat) (msg : ExtensionMessage)
    (s s1 : St σ) (h : Cpp.WriteMessage env pb fuel msg s = some s1) :
    AddsOnly FrameEntry s.trace s1.trace := by
  unfold Cpp.WriteMessage at h
  simp only at h
  split at h
  · cases h; exact AddsOnly.refl _ _
  · split at h
    · cases h
    · rename_i s2 heq
      cases h
      exact WriteToHandle_adds env _ _ _ _ _ _ _ heq
    · rename_i s2 heq
      have h1 := WriteToHandle_adds env _ _ _ _ _ _ _ heq
      split at h
      · cases h
      · rename_i b s3 heq2
        cases h
        exact (h1.trans (WriteToHandle_adds env _ _ _ _ _ _ _ heq2)).trans
          (AddsOnly.single _ _ (Or.inr (Or.inr rfl)))

theorem C_RequestVirtualChannel_adds (pb : ProtobufC) (fuel : Nat) (s s1 : St σ)
    (h : C.RequestVirtualChannel env pb fuel s = some s1) :
    AddsOnly FrameEntry s.trace s1.trace := by
  unfold C.RequestVirtualChannel C.WriteRequest at h
  have h1 := C_WriteMessage_adds env pb fuel _ _ s1 h
  exact h1

theorem C_CloseVirtualChannel_adds (pb : ProtobufC) (fuel : Nat) (s s1 : St σ)
    (h : C.CloseVirtualChannel env pb fuel s = some s1) :
    AddsOnly FrameEntry s.trace s1.trace := by
  unfold C.CloseVirtualChannel C.WriteRequest at h
  have h1 := C_WriteMessage_adds env pb fuel _ _ s1 h
  exact h1

theorem Cpp_RequestVirtualChannel_adds (pb : ProtobufCpp) (fuel : Nat) (s s1 : St σ)
    (h : Cpp.RequestVirtualChannel env pb fuel s = some s1) :
    AddsOnly FrameEntry s.trace s1.trace := by
  unfold Cpp.RequestVirtualChannel Cpp.WriteRequest at h
  have h1 := Cpp_WriteMessage_adds env pb fuel _ _ s1 h
  exact h1

theorem Cpp_CloseVirtualChannel_adds (pb : ProtobufCpp) (fuel : Nat) (s s1 : St σ)
    (h : Cpp.CloseVirtualChannel env pb fuel s = some s1) :
    AddsOnly FrameEntry s.trace s1.trace := by
  unfold Cpp.CloseVirtualChannel Cpp.WriteRequest at h
  have h1 := Cpp_WriteMessage_adds env pb fuel _ _ s1 h
  exact h1

end SubroutineTraces

section ConnectorProofs

variable {σ : Type} (env : Win32 σ)

theorem SetupAndConnectNamedPipe_adds (path : String) :
    ∀ (fuel : Nat) (s : St σ) (r : HANDLE × St σ),
      SetupAndConnectNamedPipe env path fuel s = some r →
      AddsOnly (fun e => e.fn = .SetupAndConnectNamedPipe) s.trace r.2.trace := by
  intro fuel
  induction fuel with
  | zero => intro s r h; simp [SetupAndConnectNamedPipe] at h
  | succ fuel ih =>
    intro s r h
    have hopen : AddsOnly (fun e => e.fn = .SetupAndConnectNamedPipe) s.trace
        (doCreateFileA env .SetupAndConnectNamedPipe s path).2.trace :=
      AddsOnly.single _ _ rfl
    have hwait : AddsOnly (fun e => e.fn = .SetupAndConnectNamedPipe)
        (doCreateFileA env .SetupAndConnectNamedPipe s path).2.trace
        (doWaitNamedPipeA env .SetupAndConnectNamedPipe
          (doCreateFileA env .SetupAndConnectNamedPipe s path).2 path 10000).2.trace :=
      AddsOnly.single _ _ rfl
    simp only [SetupAndConnectNamedPipe] at h
    split at h
    · cases h; exact hopen
    · split at h
      · cases h; exact hopen
      · split at h
        · rename_i s2 heq
          cases h
          rw [heq] at hwait
          exact hopen.trans hwait
        · rename_i s2 heq
          rw [heq] at hwait
          exact (hopen.trans hwait).trans (ih _ _ h)

/-- State reached by the connector after `k` busy rounds. -/
theorem SetupAndConnectNamedPipe_rounds (path : String) :
    ∀ (k : Nat) (s : St σ) (o1 : σ), BusyRounds env path k s.os o1 →
      ∀ fuel, SetupAndConnectNamedPipe env path (k + fuel) s =
        SetupAndConnectNamedPipe env path fuel
          { s with os := o1,
                   trace := s.trace ++ (busyCalls path k).map
                     (fun c => ⟨Fn.SetupAndConnectNamedPipe, c⟩) } := by
  intro k
  induction k with
  | zero =>
    intro s o1 hk fuel
    generalize hz : (0 : Nat) = z at hk
    cases hk with
    | zero => simp [busyCalls]
    | succ => omega
  | succ k ih =>
    intro s o1 hk fuel
    generalize hz : k + 1 = z at hk
    cases hk with
    | zero => omega
    | @succ k1 _ oa ob _ hopen herr hwait hrest =>
      have hk1 : k1 = k := by omega
      subst hk1
      have := ih { s with os := ob,
                          trace := s.trace ++ [⟨Fn.SetupAndConnectNamedPipe, Call.CreateFileA path⟩]
                            ++ [⟨Fn.SetupAndConnectNamedPipe, Call.WaitNamedPipeA path 10000⟩] }
        o1 hrest fuel
      rw [show k1 + 1 + fuel = (k1 + fuel) + 1 by omega]
      simp only [SetupAndConnectNamedPipe, doCreateFileA, hopen, INVALID_HANDLE_VALUE, herr,
        doWaitNamedPipeA, hwait]
      simp only [ne_eq, not_true_eq_false, if_false]
      rw [this]
      simp [busyCalls]

end ConnectorProofs

section ConnectorRounds

variable {σ : Type} (env : Win32 σ)

theorem callsOf_tagged (fn : Fn) (l : List Call) :
    callsOf fn (l.map (fun c => (⟨fn, c⟩ : Entry))) = l := by
  induction l with
  | nil => rfl
  | cons c l ih =>
    simp only [callsOf, List.map_cons, List.filter_cons, decide_True, if_true] at ih ⊢
    rw [ih]

theorem busyCalls_add (path : String) (k j : Nat) :
    busyCalls path (k + j) = busyCalls path k ++ busyCalls path j := by
  induction k with
  | zero => simp [busyCalls]
  | succ k ih =>
    rw [show k + 1 + j = (k + j) + 1 by omega]
    simp [busyCalls, ih]

/-- While the environment keeps answering busy and then available, the loop
does not end: `k` busy rounds use up any fuel up to `k`. -/
theorem SetupAndConnectNamedPipe_busy (path : String) :
    ∀ (k : Nat) (s : St σ) (o1 : σ), BusyRounds env path k s.os o1 →
      ∀ fuel, fuel ≤ k → SetupAndConnectNamedPipe env path fuel s = none := by
  intro k
  induction k with
  | zero =>
    intro s o1 _ fuel hf
    have : fuel = 0 := by omega
    subst this
    rfl
  | succ k ih =>
    intro s o1 hk fuel hf
    cases fuel with
    | zero => rfl
    | succ fuel =>
      generalize hz : k + 1 = z at hk
      cases hk with
      | zero => omega
      | @succ k1 _ oa ob _ hopen herr hwait hrest =>
        have hk1 : k1 = k := by omega
        subst hk1
        simp only [SetupAndConnectNamedPipe, doCreateFileA, hopen, INVALID_HANDLE_VALUE, herr,
          doWaitNamedPipeA, hwait]
        simp only [ne_eq, not_true_eq_false, if_false]
        exact ih _ o1 hrest fuel (by omega)

/-- Every return of the connector is explained by some number `j` of busy
rounds followed by one last open, or one last open and a failed wait. -/
theorem SetupAndConnectNamedPipe_inv (path : String) :
    ∀ (fuel : Nat) (s : St σ) (r : HANDLE) (s1 : St σ),
      SetupAndConnectNamedPipe env path fuel s = some (r, s1) →
      ∃ j o1, j < fuel ∧ BusyRounds env path j s.os o1 ∧
        ((s1.trace = s.trace ++ (busyCalls path j ++ [Call.CreateFileA path]).map
            (fun c => ⟨Fn.SetupAndConnectNamedPipe, c⟩) ∧
          env.CreateFileA o1 path = (r, s1.os) ∧
          (r = INVALID_HANDLE_VALUE → env.GetLastError s1.os ≠ ERROR_PIPE_BUSY)) ∨
         (s1.trace = s.trace ++ (busyCalls path j ++
            [Call.CreateFileA path, Call.WaitNamedPipeA path 10000]).map
            (fun c => ⟨Fn.SetupAndConnectNamedPipe, c⟩) ∧
          r = INVALID_HANDLE_VALUE ∧
          ∃ o2, env.CreateFileA o1 path = (INVALID_HANDLE_VALUE, o2) ∧
            env.GetLastError o2 = ERROR_PIPE_BUSY ∧
            env.WaitNamedPipeA o2 path 10000 = (false, s1.os))) := by
  intro fuel
  induction fuel with
  | zero => intro s r s1 h; simp [SetupAndConnectNamedPipe] at h
  | succ fuel ih =>
    intro s r s1 h
    simp only [SetupAndConnectNamedPipe, doCreateFileA] at h
    split at h
    · rename_i hvalid
      cases h
      refine ⟨0, s.os, by omega, BusyRounds.zero _, Or.inl ⟨by simp [busyCalls], rfl, ?_⟩⟩
      intro hinv
      exact absurd hinv hvalid
    · rename_i hinvalid
      have hnone : (env.CreateFileA s.os path).1 = INVALID_HANDLE_VALUE := by
        simpa using hinvalid
      split at h
      · rename_i herr
        cases h
        exact ⟨0, s.os, by omega, BusyRounds.zero _, Or.inl ⟨by simp [busyCalls], rfl,
          fun _ => herr⟩⟩
      · rename_i herr
        have herr1 : env.GetLastError (env.CreateFileA s.os path).2 = ERROR_PIPE_BUSY := by
          simpa using herr
        simp only [doWaitNamedPipeA] at h
        split at h
        · rename_i s2 heq
          cases h
          simp only [Prod.mk.injEq] at heq
          refine ⟨0, s.os, by omega, BusyRounds.zero _, Or.inr ⟨?_, hnone, _, ?_, herr1, ?_⟩⟩
          · rw [← heq.2]; simp [busyCalls]
          · rw [← hnone]
          · rw [← heq.2, ← heq.1]
        · rename_i s2 heq
          simp only [Prod.mk.injEq] at heq
          obtain ⟨j, o1, hj, hr, hcase⟩ := ih _ _ _ h
          have hround : BusyRounds env path (j + 1) s.os o1 := by
            refine @BusyRounds.succ σ env path j s.os (env.CreateFileA s.os path).2
              (env.WaitNamedPipeA (env.CreateFileA s.os path).2 path 10000).2 o1 ?_ herr1 ?_ ?_
            · rw [← hnone]
            · rw [← heq.1]
            · rw [← heq.2] at hr; exact hr
          refine ⟨j + 1, o1, by omega, hround, ?_⟩
          rcases hcase with ⟨ht, hc⟩ | ⟨ht, hc⟩
          · left
            refine ⟨?_, hc⟩
            rw [ht, ← heq.2]
            simp [busyCalls]
          · right
            refine ⟨?_, hc⟩
            rw [ht, ← heq.2]
            simp [busyCalls]

end ConnectorRounds

section ConnectorClaims

variable {σ : Type} (env : Win32 σ)

/-- C6, as amended.  `SetupAndConnectNamedPipe`, the same function in both
ports, has no bound on its attempts: it opens again after every open that fails
as busy followed by a wait that reports availability.  If the environment
answers `k` such rounds, then `k` iterations do not end the loop, and every
call that returns has made `j + 1` opens for some `j ≥ k`, alternating with
`j` waits (returning after the last open) or `j + 1` waits (returning after a
failed wait). -/
theorem SetupAndConnectNamedPipe_retries (path : String) (k : Nat) (s : St σ) (o1 : σ)
    (hk : BusyRounds env path k s.os o1) :
    SetupAndConnectNamedPipe env path k s = none ∧
    ∀ fuel r s1, SetupAndConnectNamedPipe env path fuel s = some (r, s1) →
      ∃ j, k ≤ j ∧ j < fuel ∧
        (callsOf .SetupAndConnectNamedPipe s1.trace =
            callsOf .SetupAndConnectNamedPipe s.trace ++
              (busyCalls path j ++ [Call.CreateFileA path]) ∨
         callsOf .SetupAndConnectNamedPipe s1.trace =
            callsOf .SetupAndConnectNamedPipe s.trace ++
              (busyCalls path j ++ [Call.CreateFileA path, Call.WaitNamedPipeA path 10000])) := by
  refine ⟨SetupAndConnectNamedPipe_busy env path k s o1 hk k (Nat.le_refl _), ?_⟩
  intro fuel r s1 hrun
  by_cases hle : fuel ≤ k
  · rw [SetupAndConnectNamedPipe_busy env path k s o1 hk fuel hle] at hrun
    cases hrun
  · obtain ⟨f, rfl⟩ : ∃ f, fuel = k + f := ⟨fuel - k, by omega⟩
    rw [SetupAndConnectNamedPipe_rounds env path k s o1 hk f] at hrun
    obtain ⟨j, o2, hj, _, hcase⟩ := SetupAndConnectNamedPipe_inv env path f _ r s1 hrun
    refine ⟨k + j, by omega, by omega, ?_⟩
    rcases hcase with ⟨ht, _⟩ | ⟨ht, _⟩
    · left
      rw [ht]
      simp only [callsOf_append, callsOf_tagged, busyCalls_add, List.append_assoc]
    · right
      rw [ht]
      simp only [callsOf_append, callsOf_tagged, busyCalls_add, List.append_assoc]

/-- C7.  `SetupAndConnectNamedPipe`, the same function in both ports, after
`k` busy rounds (opens failing as busy, each followed by a wait reporting
availability) and with fuel for one more iteration: if the next open succeeds
the call returns its handle; if it fails with an error other than
`ERROR_PIPE_BUSY` the call returns the invalid handle with no wait and no open
after it; if it fails as busy and the 10000 ms wait fails the call returns the
invalid handle with no open after the wait.  Against a target that is always
busy and never becomes available the call makes exactly one open and one wait
and returns the invalid handle.  Conversely the invalid handle is returned only
in the two failure cases. -/
theorem SetupAndConnectNamedPipe_failure_modes (path : String) (k fuel : Nat) (s : St σ)
    (o1 : σ) (hk : BusyRounds env path k s.os o1) (hfuel : k < fuel) :
    (∀ h o2, env.CreateFileA o1 path = (some h, o2) →
      ∃ s2, SetupAndConnectNamedPipe env path fuel s = some (some h, s2) ∧ s2.os = o2 ∧
        callsOf .SetupAndConnectNamedPipe s2.trace =
          callsOf .SetupAndConnectNamedPipe s.trace ++
            (busyCalls path k ++ [Call.CreateFileA path])) ∧
    (∀ o2, env.CreateFileA o1 path = (INVALID_HANDLE_VALUE, o2) →
      env.GetLastError o2 ≠ ERROR_PIPE_BUSY →
      ∃ s2, SetupAndConnectNamedPipe env path fuel s = some (INVALID_HANDLE_VALUE, s2) ∧
        s2.os = o2 ∧
        callsOf .SetupAndConnectNamedPipe s2.trace =
          callsOf .SetupAndConnectNamedPipe s.trace ++
            (busyCalls path k ++ [Call.CreateFileA path])) ∧
    (∀ o2 o3, env.CreateFileA o1 path = (INVALID_HANDLE_VALUE, o2) →
      env.GetLastError o2 = ERROR_PIPE_BUSY →
      env.WaitNamedPipeA o2 path 10000 = (false, o3) →
      ∃ s2, SetupAndConnectNamedPipe env path fuel s = some (INVALID_HANDLE_VALUE, s2) ∧
        s2.os = o3 ∧
        callsOf .SetupAndConnectNamedPipe s2.trace =
          callsOf .SetupAndConnectNamedPipe s.trace ++
            (busyCalls path k ++ [Call.CreateFileA path, Call.WaitNamedPipeA path 10000])) ∧
    ((∀ o, (env.CreateFileA o path).1 = INVALID_HANDLE_VALUE ∧
          env.GetLastError (env.CreateFileA o path).2 = ERROR_PIPE_BUSY) →
      (∀ o, (env.WaitNamedPipeA o path 10000).1 = false) →
      ∃ s2, SetupAndConnectNamedPipe env path fuel s = some (INVALID_HANDLE_VALUE, s2) ∧
        callsOf .SetupAndConnectNamedPipe s2.trace =
          callsOf .SetupAndConnectNamedPipe s.trace ++
            [Call.CreateFileA path, Call.WaitNamedPipeA path 10000]) ∧
    (∀ s2, SetupAndConnectNamedPipe env path fuel s = some (INVALID_HANDLE_VALUE, s2) →
      ∃ j oa ob, BusyRounds env path j s.os oa ∧
        env.CreateFileA oa path = (INVALID_HANDLE_VALUE, ob) ∧
        ((env.GetLastError ob ≠ ERROR_PIPE_BUSY ∧ s2.os = ob) ∨
         (env.GetLastError ob = ERROR_PIPE_BUSY ∧
          env.WaitNamedPipeA ob path 10000 = (false, s2.os)))) := by
  obtain ⟨f, rfl⟩ : ∃ f, fuel = k + (f + 1) := ⟨fuel - k - 1, by omega⟩
  have hshift := SetupAndConnectNamedPipe_rounds env path k s o1 hk (f + 1)
  refine ⟨?_, ?_, ?_, ?_, ?_⟩
  · intro h o2 hopen
    refine ⟨{ s with os := o2,
                     trace := s.trace ++ (busyCalls path k).map
                         (fun c => ⟨Fn.SetupAndConnectNamedPipe, c⟩) ++
                       [⟨Fn.SetupAndConnectNamedPipe, Call.CreateFileA path⟩] }, ?_, rfl, ?_⟩
    · rw [hshift]
      simp only [SetupAndConnectNamedPipe, doCreateFileA, hopen, INVALID_HANDLE_VALUE]
      simp only [ne_eq, reduceCtorEq, not_false_eq_true, if_true]
    · simp only [callsOf_append, callsOf_tagged, callsOf_single_same, List.append_assoc]
  · intro o2 hopen herr
    refine ⟨{ s with os := o2,
                     trace := s.trace ++ (busyCalls path k).map
                         (fun c => ⟨Fn.SetupAndConnectNamedPipe, c⟩) ++
                       [⟨Fn.SetupAndConnectNamedPipe, Call.CreateFileA path⟩] }, ?_, rfl, ?_⟩
    · rw [hshift]
      simp only [SetupAndConnectNamedPipe, doCreateFileA, hopen, INVALID_HANDLE_VALUE]
      simp only [ne_eq, not_true_eq_false, if_false, herr, not_false_eq_true, if_true]
    · simp only [callsOf_append, callsOf_tagged, callsOf_single_same, List.append_assoc]
  · intro o2 o3 hopen herr hwait
    refine ⟨{ s with os := o3,
                     trace := s.trace ++ (busyCalls path k).map
                         (fun c => ⟨Fn.SetupAndConnectNamedPipe, c⟩) ++
                       [⟨Fn.SetupAndConnectNamedPipe, Call.CreateFileA path⟩] ++
                       [⟨Fn.SetupAndConnectNamedPipe, Call.WaitNamedPipeA path 10000⟩] },
      ?_, rfl, ?_⟩
    · rw [hshift]
      simp only [SetupAndConnectNamedPipe, doCreateFileA, hopen, INVALID_HANDLE_VALUE, herr,
        doWaitNamedPipeA, hwait]
      simp only [ne_eq, not_true_eq_false, if_false]
    · simp only [callsOf_append, callsOf_tagged, callsOf_single_same, List.append_assoc]
      rfl
  · intro hbusy hnever
    have hfu : k + (f + 1) = (k + f) + 1 := by omega
    have hw : env.WaitNamedPipeA (env.CreateFileA s.os path).2 path 10000 =
        (false, (env.WaitNamedPipeA (env.CreateFileA s.os path).2 path 10000).2) := by
      rw [← hnever (env.CreateFileA s.os path).2]
    have ho : env.CreateFileA s.os path =
        (INVALID_HANDLE_VALUE, (env.CreateFileA s.os path).2) := by
      rw [← (hbusy s.os).1]
    refine ⟨{ s with os := (env.WaitNamedPipeA (env.CreateFileA s.os path).2 path 10000).2,
                     trace := s.trace ++
                       [⟨Fn.SetupAndConnectNamedPipe, Call.CreateFileA path⟩] ++
                       [⟨Fn.SetupAndConnectNamedPipe, Call.WaitNamedPipeA path 10000⟩] },
      ?_, ?_⟩
    · rw [hfu]
      simp only [SetupAndConnectNamedPipe, doCreateFileA, doWaitNamedPipeA]
      rw [ho]
      simp only [INVALID_HANDLE_VALUE, ne_eq, not_true_eq_false, if_false]
      have hb := (hbusy s.os).2
      rw [ho] at hb
      simp only [hb, not_true_eq_false, if_false]
      have hw2 := hw
      rw [ho] at hw2
      simp only at hw2
      rw [hw2]
    · simp only [callsOf_append, callsOf_single_same, List.append_assoc]
      rfl
  · intro s2 hrun
    obtain ⟨j, oa, _, hr, hcase⟩ := SetupAndConnectNamedPipe_inv env path _ s _ s2 hrun
    rcases hcase with ⟨_, hopen, herr⟩ | ⟨_, _, ob, hopen, herr, hwait⟩
    · exact ⟨j, oa, s2.os, hr, hopen, Or.inl ⟨herr rfl, rfl⟩⟩
    · exact ⟨j, oa, ob, hr, hopen, Or.inr ⟨herr, hwait⟩⟩

end ConnectorClaims

theorem Sim.busyTwice_rounds :
    BusyRounds Sim.env "relay" 2 Sim.busyTwice
      { Sim.busyTwice with opens := [(some 5, 0)], waits := [], lastError := 231 } :=
  BusyRounds.succ rfl rfl rfl (BusyRounds.succ rfl rfl rfl (BusyRounds.zero _))

/-- Witness of C6: a pipe that is busy twice, the wait reporting availability
each time. -/
theorem SetupAndConnectNamedPipe_retries_witness :
    BusyRounds Sim.env "relay" 2 Sim.busyTwice
      { Sim.busyTwice with opens := [(some 5, 0)], waits := [], lastError := 231 } ∧
    SetupAndConnectNamedPipe Sim.env "relay" 2 (St.start Sim.busyTwice) = none :=
  ⟨Sim.busyTwice_rounds,
    (SetupAndConnectNamedPipe_retries Sim.env "relay" 2 (St.start Sim.busyTwice) _
      Sim.busyTwice_rounds).1⟩

/-- Counterexample to C6 as stated: against a pipe that is busy twice, the wait
reporting availability each time, one call makes three opens and two waits. -/
theorem SetupAndConnectNamedPipe_retries_counterexample :
    (SetupAndConnectNamedPipe Sim.env "relay" 3 (St.start Sim.busyTwice)).map
        (fun r => (r.1, callsOf .SetupAndConnectNamedPipe r.2.trace)) =
      some (some 5, [Call.CreateFileA "relay", Call.WaitNamedPipeA "relay" 10000,
        Call.CreateFileA "relay", Call.WaitNamedPipeA "relay" 10000, Call.CreateFileA "relay"]) ∧
    ¬ ((SetupAndConnectNamedPipe Sim.env "relay" 3 (St.start Sim.busyTwice)).map
        (fun r => decide (countOpens (callsOf .SetupAndConnectNamedPipe r.2.trace) ≤ 2 ∧
          countWaits (callsOf .SetupAndConnectNamedPipe r.2.trace) ≤ 1)) = some true) := by
  decide

/-- Witness of C7: after two busy rounds the third open succeeds and its
handle is returned; against a pipe that is busy and whose wait times out, one
open and one wait are made and the invalid handle is returned. -/
theorem SetupAndConnectNamedPipe_failure_modes_witness :
    BusyRounds Sim.env "relay" 2 Sim.busyTwice
      { Sim.busyTwice with opens := [(some 5, 0)], waits := [], lastError := 231 } ∧
    2 < 3 ∧
    (∃ s2, SetupAndConnectNamedPipe Sim.env "relay" 3 (St.start Sim.busyTwice)
        = some (some 5, s2) ∧
      s2.os = { Sim.busyTwice with opens := [], waits := [], lastError := 0 } ∧
      callsOf .SetupAndConnectNamedPipe s2.trace =
        callsOf .SetupAndConnectNamedPipe (St.start Sim.busyTwice).trace ++
          (busyCalls "relay" 2 ++ [Call.CreateFileA "relay"])) ∧
    (∃ s2, SetupAndConnectNamedPipe Sim.env "relay" 3 (St.start Sim.busyForever)
        = some (INVALID_HANDLE_VALUE, s2) ∧
      s2.os = { Sim.busyForever with opens := [(none, 231), (none, 231)],
                                     waits := [false, false], lastError := 231 } ∧
      callsOf .SetupAndConnectNamedPipe s2.trace =
        callsOf .SetupAndConnectNamedPipe (St.start Sim.busyForever).trace ++
          (busyCalls "relay" 0 ++
            [Call.CreateFileA "relay", Call.WaitNamedPipeA "relay" 10000])) :=
  ⟨Sim.busyTwice_rounds, by decide,
    (SetupAndConnectNamedPipe_failure_modes Sim.env "relay" 2 3 (St.start Sim.busyTwice) _
      Sim.busyTwice_rounds (by decide)).1 5 _ rfl,
    (SetupAndConnectNamedPipe_failure_modes Sim.env "relay" 0 3 (St.start Sim.busyForever) _
      (BusyRounds.zero _) (by decide)).2.2.1 _ _ rfl rfl rfl⟩

section MainCalls

variable {σ : Type} (env : Win32 σ)

theorem callsOf_log_same (fn : Fn) (s : St σ) (c : Call) :
    callsOf fn (s.log fn c).trace = callsOf fn s.trace ++ [c] := by
  simp [St.log, callsOf]

theorem callsOf_log_other (fn g : Fn) (s : St σ) (c : Call) (h : g ≠ fn) :
    callsOf fn (s.log g c).trace = callsOf fn s.trace := by
  simp [St.log, callsOf, h]

theorem frame_calls_main {t t1 : List Entry} (h : AddsOnly FrameEntry t t1) :
    callsOf .main t1 = callsOf .main t :=
  h.callsOf_eq .main FrameEntry.ne_main

theorem frame_calls_connect {t t1 : List Entry} (h : AddsOnly FrameEntry t t1) :
    callsOf .SetupAndConnectNamedPipe t1 = callsOf .SetupAndConnectNamedPipe t :=
  h.callsOf_eq .SetupAndConnectNamedPipe FrameEntry.ne_connect

theorem connect_calls_main (path : String) (fuel : Nat) (s s1 : St σ) (r : HANDLE)
    (h : SetupAndConnectNamedPipe env path fuel s = some (r, s1)) :
    callsOf .main s1.trace = callsOf .main s.trace :=
  (SetupAndConnectNamedPipe_adds env path fuel s (r, s1) h).callsOf_eq .main
    (fun e he => by rw [he]; decide)

/-- The data loop of the C port adds only data-phase calls of `main` on its
pipe handle. -/
theorem C_dataLoop_adds (h : HANDLE) :
    ∀ (left num_message : Nat) (s : St σ),
      AddsOnly (fun e => e.fn = .main ∧ isDataPhaseCall h e.call = true) s.trace
        (C.main.dataLoop env h left num_message s).trace := by
  intro left
  induction left with
  | zero => intro n s; exact AddsOnly.refl _ _
  | succ left ih =>
    intro n s
    simp only [C.main.dataLoop]
    have hw : AddsOnly (fun e => e.fn = .main ∧ isDataPhaseCall h e.call = true) s.trace
        (doWriteFile env .main s h
          (writeAt ((List.range 100).map env.uninit) 0 (cstr ("Echo Test " ++ toString n)))
          (100 + 1)).2.trace :=
      AddsOnly.single _ _ ⟨rfl, by simp [isDataPhaseCall]⟩
    split
    · rename_i s1 heq
      rw [heq] at hw
      exact hw
    · rename_i k s1 heq
      rw [heq] at hw
      have hr : AddsOnly (fun e => e.fn = .main ∧ isDataPhaseCall h e.call = true) s1.trace
          (doReadFile env .main s1 h (READ_BUFFER_SIZE - 1)).2.trace :=
        AddsOnly.single _ _ ⟨rfl, by simp [isDataPhaseCall]⟩
      split
      · rename_i s2 heq2
        rw [heq2] at hr
        exact hw.trans hr
      · rename_i d s2 heq2
        rw [heq2] at hr
        have h3 : AddsOnly (fun e => e.fn = .main ∧ isDataPhaseCall h e.call = true) s2.trace
            (s2.log .main (.StoreReadBuffer d.length)).trace :=
          AddsOnly.single _ _ ⟨rfl, by simp [isDataPhaseCall]⟩
        have h4 : AddsOnly (fun e => e.fn = .main ∧ isDataPhaseCall h e.call = true)
            (s2.log .main (.StoreReadBuffer d.length)).trace
            (doSleep env .main (s2.log .main (.StoreReadBuffer d.length)) 1000).trace :=
          AddsOnly.single _ _ ⟨rfl, by simp [isDataPhaseCall]⟩
        exact (((hw.trans hr).trans h3).trans h4).trans (ih _ _)

/-- The data loop of the C++ port adds only data-phase calls of `main` on its
pipe handle. -/
theorem Cpp_dataLoop_adds (h : HANDLE) :
    ∀ (left msg_number : Nat) (s : St σ),
      AddsOnly (fun e => e.fn = .main ∧ isDataPhaseCall h e.call = true) s.trace
        (Cpp.main.dataLoop env h left msg_number s).trace := by
  intro left
  induction left with
  | zero => intro n s; exact AddsOnly.refl _ _
  | succ left ih =>
    intro n s
    simp only [Cpp.main.dataLoop]
    have hw : AddsOnly (fun e => e.fn = .main ∧ isDataPhaseCall h e.call = true) s.trace
        (doWriteFile env .main s h (cstr ("C++ Test " ++ toString n))
          (("C++ Test " ++ toString n).length + 1)).2.trace :=
      AddsOnly.single _ _ ⟨rfl, by simp [isDataPhaseCall]⟩
    split
    · rename_i s1 heq
      rw [heq] at hw
      exact hw
    · rename_i k s1 heq
      rw [heq] at hw
      have hr : AddsOnly (fun e => e.fn = .main ∧ isDataPhaseCall h e.call = true) s1.trace
          (doReadFile env .main s1 h (READ_BUFFER_SIZE - 1)).2.trace :=
        AddsOnly.single _ _ ⟨rfl, by simp [isDataPhaseCall]⟩
      split
      · rename_i s2 heq2
        rw [heq2] at hr
        exact hw.trans hr
      · rename_i d s2 heq2
        rw [heq2] at hr
        have h3 : AddsOnly (fun e => e.fn = .main ∧ isDataPhaseCall h e.call = true) s2.trace
            (s2.log .main (.StoreReadBuffer d.length)).trace :=
          AddsOnly.single _ _ ⟨rfl, by simp [isDataPhaseCall]⟩
        have h4 : AddsOnly (fun e => e.fn = .main ∧ isDataPhaseCall h e.call = true)
            (s2.log .main (.StoreReadBuffer d.length)).trace
            (doSleep env .main (s2.log .main (.StoreReadBuffer d.length)) 1000).trace :=
          AddsOnly.single _ _ ⟨rfl, by simp [isDataPhaseCall]⟩
        exact (((hw.trans hr).trans h3).trans h4).trans (ih _ _)

/-- Entries of `main` that all satisfy a predicate on calls show up as such
in `main`'s calls. -/
theorem AddsOnly.main_calls {P : Call → Bool} {t t1 : List Entry}
    (h : AddsOnly (fun e => e.fn = .main ∧ P e.call = true) t t1) :
    ∃ data, callsOf .main t1 = callsOf .main t ++ data ∧ ∀ c ∈ data, P c = true := by
  obtain ⟨a, rfl, ha⟩ := h
  refine ⟨callsOf .main a, callsOf_append _ _ _, ?_⟩
  intro c hc
  simp only [callsOf, List.mem_map, List.mem_filter] at hc
  obtain ⟨e, ⟨he, _⟩, rfl⟩ := hc
  exact (ha e he).2

end MainCalls

section CBlocks

variable {σ : Type} (env : Win32 σ) (pb : ProtobufC)

theorem C_setup_exit_code (fuel : Nat) (s sf : St σ) (c : Int)
    (h : C.main.setup env pb fuel s = some (.exit c, sf)) : c = -1 := by
  unfold C.main.setup at h
  repeat' (first | (split at h) | (simp only [Option.some.injEq, Prod.mk.injEq, Step.exit.injEq,
    Step.next.injEq, reduceCtorEq, false_and, and_false] at h))
  all_goals exact h.1.symm

theorem C_setup_next_inv (fuel : Nat) (s sf : St σ) (setup : SetupVirtualChannelResponse)
    (hnd : HANDLE) (h : C.main.setup env pb fuel s = some (.next (setup, hnd), sf)) :
    ∃ s1 resp s2 s3,
      C.RequestVirtualChannel env pb fuel (s.log .main .RequestVirtualChannel) = some s1 ∧
      C.ReadNextMessage env pb fuel s1 = some (some (.MSG_RESPONSE resp), s2) ∧
      resp.status = .SUCCESS ∧ resp.response_case = .SETUP_VIRTUAL_CHANNEL_RESPONSE setup ∧
      SetupAndConnectNamedPipe env setup.relay_path fuel
        (s2.log .main (.ReadNextMessage (some (.MSG_RESPONSE resp)))) = some (hnd, s3) ∧
      hnd ≠ INVALID_HANDLE_VALUE ∧
      sf = s3.log .main (.SetupAndConnectNamedPipe setup.relay_path hnd) := by
  unfold C.main.setup at h
  repeat' (first | (split at h) | (simp only [Option.some.injEq, Prod.mk.injEq, Step.exit.injEq,
    Step.next.injEq, reduceCtorEq, false_and, and_false] at h))
  obtain ⟨⟨rfl, rfl⟩, rfl⟩ := h
  rename_i hstatus _ _ _ _ _
  exact ⟨_, _, _, _, by assumption, by assumption, by simpa using hstatus, by assumption,
    by assumption, by assumption, rfl⟩

theorem C_handoff_exit_code (fuel : Nat) (s sf : St σ) (c : Int)
    (h : C.main.handoff env pb fuel s = some (.exit c, sf)) : c = -1 := by
  unfold C.main.handoff at h
  split at h
  · cases h
  · rename_i c1 s1 heq
    have := C_setup_exit_code env pb fuel s s1 c1 heq
    simp only [Option.some.injEq, Prod.mk.injEq, Step.exit.injEq] at h
    omega
  · repeat' (first | (split at h) | (simp only [Option.some.injEq, Prod.mk.injEq,
      Step.exit.injEq, Step.next.injEq, reduceCtorEq, false_and, and_false] at h))
    all_goals exact h.1.symm

theorem C_handoff_next_inv (fuel : Nat) (s sf : St σ) (hnd : HANDLE)
    (h : C.main.handoff env pb fuel s = some (.next hnd, sf)) :
    ∃ setup s1 k s2,
      C.main.setup env pb fuel s = some (.next (setup, hnd), s1) ∧
      doWriteFile env .main s1 hnd setup.virtual_channel_auth_token
        setup.virtual_channel_auth_token.length = (some k, s2) ∧
      doFlushFileBuffers env .main s2 hnd = (true, sf) := by
  unfold C.main.handoff at h
  repeat' (first | (split at h) | (simp only [Option.some.injEq, Prod.mk.injEq, Step.exit.injEq,
    Step.next.injEq, reduceCtorEq, false_and, and_false] at h))
  obtain ⟨rfl, rfl⟩ := h
  exact ⟨_, _, _, _, by assumption, by assumption, by assumption⟩

theorem C_ready_exit_code (fuel : Nat) (s sf : St σ) (c : Int)
    (h : C.main.ready env pb fuel s = some (.exit c, sf)) : c = -1 := by
  unfold C.main.ready at h
  split at h
  · cases h
  · rename_i c1 s1 heq
    have := C_handoff_exit_code env pb fuel s s1 c1 heq
    simp only [Option.some.injEq, Prod.mk.injEq, Step.exit.injEq] at h
    omega
  · repeat' (first | (split at h) | (simp only [Option.some.injEq, Prod.mk.injEq,
      Step.exit.injEq, Step.next.injEq, reduceCtorEq, false_and, and_false] at h))
    all_goals exact h.1.symm

theorem C_ready_next_inv (fuel : Nat) (s sf : St σ) (hnd : HANDLE)
    (h : C.main.ready env pb fuel s = some (.next hnd, sf)) :
    ∃ s1 e s2,
      C.main.handoff env pb fuel s = some (.next hnd, s1) ∧
      C.ReadNextMessage env pb fuel s1 = some (some (.MSG_EVENT e), s2) ∧
      e.event_case = .VIRTUAL_CHANNEL_READY_EVENT ∧
      sf = s2.log .main (.ReadNextMessage (some (.MSG_EVENT e))) := by
  unfold C.main.ready at h
  repeat' (first | (split at h) | (simp only [Option.some.injEq, Prod.mk.injEq, Step.exit.injEq,
    Step.next.injEq, reduceCtorEq, false_and, and_false] at h))
  obtain ⟨rfl, rfl⟩ := h
  rename_i hcase
  exact ⟨_, _, _, by assumption, by assumption, by simpa using hcase, rfl⟩

theorem C_sendClose_exit_code (fuel : Nat) (s sf : St σ) (c : Int)
    (h : C.main.sendClose env pb fuel s = some (.exit c, sf)) : c = -1 := by
  unfold C.main.sendClose at h
  split at h
  · cases h
  · rename_i c1 s1 heq
    have := C_ready_exit_code env pb fuel s s1 c1 heq
    simp only [Option.some.injEq, Prod.mk.injEq, Step.exit.injEq] at h
    omega
  · repeat' (first | (split at h) | (simp only [Option.some.injEq, Prod.mk.injEq,
      Step.exit.injEq, Step.next.injEq, reduceCtorEq, false_and, and_false] at h))

theorem C_sendClose_next_inv (fuel : Nat) (s sf : St σ) (hnd : HANDLE)
    (h : C.main.sendClose env pb fuel s = some (.next hnd, sf)) :
    ∃ s1,
      C.main.ready env pb fuel s = some (.next hnd, s1) ∧
      C.CloseVirtualChannel env pb fuel
        ((doCloseHandle env .main (C.main.dataLoop env hnd 100 0 s1) hnd).log .main
          .CloseVirtualChannel) = some sf := by
  unfold C.main.sendClose at h
  repeat' (first | (split at h) | (simp only [Option.some.injEq, Prod.mk.injEq, Step.exit.injEq,
    Step.next.injEq, reduceCtorEq, false_and, and_false] at h))
  obtain ⟨rfl, rfl⟩ := h
  exact ⟨_, by assumption, by assumption⟩

theorem C_main_zero_inv (fuel : Nat) (s sf : St σ) (h : C.main env pb fuel s = some (0, sf)) :
    ∃ hnd s1 resp s2,
      C.main.sendClose env pb fuel s = some (.next hnd, s1) ∧
      C.ReadNextMessage env pb fuel s1 = some (some (.MSG_RESPONSE resp), s2) ∧
      resp.status = .SUCCESS ∧
      sf = s2.log .main (.ReadNextMessage (some (.MSG_RESPONSE resp))) := by
  unfold C.main at h
  split at h
  · cases h
  · rename_i c1 s1 heq
    have := C_sendClose_exit_code env pb fuel s s1 c1 heq
    simp only [Option.some.injEq, Prod.mk.injEq] at h
    omega
  · repeat' (first | (split at h) | (simp only [Option.some.injEq, Prod.mk.injEq,
      Step.exit.injEq, Step.next.injEq, reduceCtorEq, false_and, and_false] at h))
    rename_i hstatus
    exact ⟨_, _, _, _, by assumption, by assumption, by simpa using hstatus, h.2.symm⟩

end CBlocks

section CCalls

variable {σ : Type} (env : Win32 σ) (pb : ProtobufC)

theorem doWriteFile_trace (fn : Fn) (s s1 : St σ) (hnd : HANDLE) (buffer : List Byte) (n : Nat)
    (r : Option Nat) (h : doWriteFile env fn s hnd buffer n = (r, s1)) :
    s1.trace = s.trace ++ [⟨fn, .WriteFile hnd buffer n⟩] := by
  have := congrArg (fun x => x.2.trace) h
  simpa [doWriteFile] using this.symm

theorem doFlushFileBuffers_trace (fn : Fn) (s s1 : St σ) (hnd : HANDLE) (r : Bool)
    (h : doFlushFileBuffers env fn s hnd = (r, s1)) :
    s1.trace = s.trace ++ [⟨fn, .FlushFileBuffers hnd⟩] := by
  have := congrArg (fun x => x.2.trace) h
  simpa [doFlushFileBuffers] using this.symm

theorem C_setup_calls (fuel : Nat) (s sf : St σ) (setup : SetupVirtualChannelResponse)
    (hnd : HANDLE) (h : C.main.setup env pb fuel s = some (.next (setup, hnd), sf)) :
    ∃ resp, resp.status = .SUCCESS ∧
      resp.response_case = .SETUP_VIRTUAL_CHANNEL_RESPONSE setup ∧
      hnd ≠ INVALID_HANDLE_VALUE ∧
      callsOf .main sf.trace = callsOf .main s.trace ++
        [.RequestVirtualChannel, .ReadNextMessage (some (.MSG_RESPONSE resp)),
         .SetupAndConnectNamedPipe setup.relay_path hnd] := by
  obtain ⟨s1, resp, s2, s3, h1, h2, h3, h4, h5, h6, rfl⟩ := C_setup_next_inv env pb fuel s sf setup hnd h
  refine ⟨resp, h3, h4, h6, ?_⟩
  rw [callsOf_log_same, connect_calls_main env _ _ _ _ _ h5, callsOf_log_same,
    frame_calls_main (C_ReadNextMessage_adds env pb fuel _ _ _ h2),
    frame_calls_main (C_RequestVirtualChannel_adds env pb fuel _ _ h1), callsOf_log_same]
  simp

theorem C_handoff_calls (fuel : Nat) (s sf : St σ) (hnd : HANDLE)
    (h : C.main.handoff env pb fuel s = some (.next hnd, sf)) :
    ∃ resp setup, resp.status = .SUCCESS ∧
      resp.response_case = .SETUP_VIRTUAL_CHANNEL_RESPONSE setup ∧
      hnd ≠ INVALID_HANDLE_VALUE ∧
      callsOf .main sf.trace = callsOf .main s.trace ++ C.handoffCalls resp setup hnd := by
  obtain ⟨setup, s1, k, s2, h1, h2, h3⟩ := C_handoff_next_inv env pb fuel s sf hnd h
  obtain ⟨resp, h4, h5, h6, h7⟩ := C_setup_calls env pb fuel s s1 setup hnd h1
  refine ⟨resp, setup, h4, h5, h6, ?_⟩
  have e3 := doFlushFileBuffers_trace env _ _ _ _ _ h3
  have e2 := doWriteFile_trace env _ _ _ _ _ _ _ h2
  rw [e3, e2, callsOf_append, callsOf_append, h7, callsOf_single_same, callsOf_single_same]
  simp [C.handoffCalls]

theorem C_ready_calls (fuel : Nat) (s sf : St σ) (hnd : HANDLE)
    (h : C.main.ready env pb fuel s = some (.next hnd, sf)) :
    ∃ resp setup e, resp.status = .SUCCESS ∧
      resp.response_case = .SETUP_VIRTUAL_CHANNEL_RESPONSE setup ∧
      hnd ≠ INVALID_HANDLE_VALUE ∧ e.event_case = .VIRTUAL_CHANNEL_READY_EVENT ∧
      callsOf .main sf.trace = callsOf .main s.trace ++ C.handoffCalls resp setup hnd ++
        [.ReadNextMessage (some (.MSG_EVENT e))] := by
  obtain ⟨s1, e, s2, h1, h2, h3, rfl⟩ := C_ready_next_inv env pb fuel s sf hnd h
  obtain ⟨resp, setup, h4, h5, h6, h7⟩ := C_handoff_calls env pb fuel s s1 hnd h1
  refine ⟨resp, setup, e, h4, h5, h6, h3, ?_⟩
  rw [callsOf_log_same, frame_calls_main (C_ReadNextMessage_adds env pb fuel _ _ _ h2), h7]

theorem C_sendClose_calls (fuel : Nat) (s sf : St σ) (hnd : HANDLE)
    (h : C.main.sendClose env pb fuel s = some (.next hnd, sf)) :
    ∃ resp setup e data, resp.status = .SUCCESS ∧
      resp.response_case = .SETUP_VIRTUAL_CHANNEL_RESPONSE setup ∧
      hnd ≠ INVALID_HANDLE_VALUE ∧ e.event_case = .VIRTUAL_CHANNEL_READY_EVENT ∧
      (∀ c ∈ data, isDataPhaseCall hnd c = true) ∧
      callsOf .main sf.trace = callsOf .main s.trace ++ C.handoffCalls resp setup hnd ++
        [.ReadNextMessage (some (.MSG_EVENT e))] ++ data ++
        [.CloseHandle hnd, .CloseVirtualChannel] := by
  obtain ⟨s1, h1, h2⟩ := C_sendClose_next_inv env pb fuel s sf hnd h
  obtain ⟨resp, setup, e, h4, h5, h6, h7, h8⟩ := C_ready_calls env pb fuel s s1 hnd h1
  obtain ⟨data, hd1, hd2⟩ := (C_dataLoop_adds env hnd 100 0 s1).main_calls
  refine ⟨resp, setup, e, data, h4, h5, h6, h7, hd2, ?_⟩
  have e1 : (doCloseHandle env .main (C.main.dataLoop env hnd 100 0 s1) hnd).trace =
      (C.main.dataLoop env hnd 100 0 s1).trace ++ [⟨.main, .CloseHandle hnd⟩] := rfl
  rw [frame_calls_main (C_CloseVirtualChannel_adds env pb fuel _ _ h2), callsOf_log_same, e1,
    callsOf_append, callsOf_single_same, hd1, h8]
  simp

/-- Every run of the C port's `main` that returns 0 made exactly the calls of
a full lifecycle. -/
theorem C_main_zero_calls (fuel : Nat) (s sf : St σ) (h : C.main env pb fuel s = some (0, sf)) :
    ∃ resp setup hnd e data resp3, resp.status = .SUCCESS ∧
      resp.response_case = .SETUP_VIRTUAL_CHANNEL_RESPONSE setup ∧
      hnd ≠ INVALID_HANDLE_VALUE ∧ e.event_case = .VIRTUAL_CHANNEL_READY_EVENT ∧
      (∀ c ∈ data, isDataPhaseCall hnd c = true) ∧ resp3.status = .SUCCESS ∧
      callsOf .main sf.trace = callsOf .main s.trace ++ C.handoffCalls resp setup hnd ++
        [.ReadNextMessage (some (.MSG_EVENT e))] ++ data ++
        [.CloseHandle hnd, .CloseVirtualChannel,
         .ReadNextMessage (some (.MSG_RESPONSE resp3))] := by
  obtain ⟨hnd, s1, resp3, s2, h1, h2, h3, rfl⟩ := C_main_zero_inv env pb fuel s sf h
  obtain ⟨resp, setup, e, data, h4, h5, h6, h7, h8, h9⟩ := C_sendClose_calls env pb fuel s s1 hnd h1
  refine ⟨resp, setup, hnd, e, data, resp3, h4, h5, h6, h7, h8, h3, ?_⟩
  rw [callsOf_log_same, frame_calls_main (C_ReadNextMessage_adds env pb fuel _ _ _ h2), h9]
  simp

end CCalls

section CppBlocks

variable {σ : Type} (env : Win32 σ) (pb : ProtobufCpp)

theorem Cpp_setup_exit_code (fuel : Nat) (s sf : St σ) (c : Int)
    (h : Cpp.main.setup env pb fuel s = some (.exit c, sf)) : c = -1 := by
  unfold Cpp.main.setup at h
  repeat' (first | (split at h) | (simp only [Option.some.injEq, Prod.mk.injEq, Step.exit.injEq,
    Step.next.injEq, reduceCtorEq, false_and, and_false] at h))
  all_goals exact h.1.symm

theorem Cpp_setup_next_inv (fuel : Nat) (s sf : St σ) (resp : Response)
    (hnd : HANDLE) (h : Cpp.main.setup env pb fuel s = some (.next (resp, hnd), sf)) :
    ∃ s1 s2 s3,
      Cpp.RequestVirtualChannel env pb fuel (s.log .main .RequestVirtualChannel) = some s1 ∧
      Cpp.ReadNextMessage env pb fuel s1 = some (some (.MSG_RESPONSE resp), s2) ∧
      resp.status = .SUCCESS ∧
      SetupAndConnectNamedPipe env (pb.setup_virtual_channel_response resp).relay_path fuel
        (s2.log .main (.ReadNextMessage (some (.MSG_RESPONSE resp)))) = some (hnd, s3) ∧
      hnd ≠ INVALID_HANDLE_VALUE ∧
      sf = s3.log .main
        (.SetupAndConnectNamedPipe (pb.setup_virtual_channel_response resp).relay_path hnd) := by
  unfold Cpp.main.setup at h
  repeat' (first | (split at h) | (simp only [Option.some.injEq, Prod.mk.injEq, Step.exit.injEq,
    Step.next.injEq, reduceCtorEq, false_and, and_false] at h))
  obtain ⟨⟨rfl, rfl⟩, rfl⟩ := h
  rename_i hstatus _ _ _ _ _
  exact ⟨_, _, _, by assumption, by assumption, by simpa using hstatus,
    by assumption, by assumption, rfl⟩

theorem Cpp_handoff_exit_code (fuel : Nat) (s sf : St σ) (c : Int)
    (h : Cpp.main.handoff env pb fuel s = some (.exit c, sf)) : c = -1 := by
  unfold Cpp.main.handoff at h
  split at h
  · cases h
  · rename_i c1 s1 heq
    have := Cpp_setup_exit_code env pb fuel s s1 c1 heq
    simp only [Option.some.injEq, Prod.mk.injEq, Step.exit.injEq] at h
    omega
  · repeat' (first | (split at h) | (simp only [Option.some.injEq, Prod.mk.injEq,
      Step.exit.injEq, Step.next.injEq, reduceCtorEq, false_and, and_false] at h))
    all_goals exact h.1.symm

theorem Cpp_handoff_next_inv (fuel : Nat) (s sf : St σ) (hnd : HANDLE)
    (h : Cpp.main.handoff env pb fuel s = some (.next hnd, sf)) :
    ∃ resp s1 k,
      Cpp.main.setup env pb fuel s = some (.next (resp, hnd), s1) ∧
      doWriteFile env .main s1 hnd (pb.setup_virtual_channel_response resp).virtual_channel_auth_token
        (pb.setup_virtual_channel_response resp).virtual_channel_auth_token.length = (some k, sf) := by
  unfold Cpp.main.handoff at h
  repeat' (first | (split at h) | (simp only [Option.some.injEq, Prod.mk.injEq, Step.exit.injEq,
    Step.next.injEq, reduceCtorEq, false_and, and_false] at h))
  obtain ⟨rfl, rfl⟩ := h
  exact ⟨_, _, _, by assumption, by assumption⟩

theorem Cpp_ready_exit_code (fuel : Nat) (s sf : St σ) (c : Int)
    (h : Cpp.main.ready env pb fuel s = some (.exit c, sf)) : c = -1 := by
  unfold Cpp.main.ready at h
  split at h
  · cases h
  · rename_i c1 s1 heq
    have := Cpp_handoff_exit_code env pb fuel s s1 c1 heq
    simp only [Option.some.injEq, Prod.mk.injEq, Step.exit.injEq] at h
    omega
  · repeat' (first | (split at h) | (simp only [Option.some.injEq, Prod.mk.injEq,
      Step.exit.injEq, Step.next.injEq, reduceCtorEq, false_and, and_false] at h))
    all_goals exact h.1.symm

theorem Cpp_ready_next_inv (fuel : Nat) (s sf : St σ) (hnd : HANDLE)
    (h : Cpp.main.ready env pb fuel s = some (.next hnd, sf)) :
    ∃ s1 e s2,
      Cpp.main.handoff env pb fuel s = some (.next hnd, s1) ∧
      Cpp.ReadNextMessage env pb fuel s1 = some (some (.MSG_EVENT e), s2) ∧
      e.event_case = .VIRTUAL_CHANNEL_READY_EVENT ∧
      sf = s2.log .main (.ReadNextMessage (some (.MSG_EVENT e))) := by
  unfold Cpp.main.ready at h
  repeat' (first | (split at h) | (simp only [Option.some.injEq, Prod.mk.injEq, Step.exit.injEq,
    Step.next.injEq, reduceCtorEq, false_and, and_false] at h))
  obtain ⟨rfl, rfl⟩ := h
  rename_i hcase
  exact ⟨_, _, _, by assumption, by assumption, by simpa using hcase, rfl⟩

theorem Cpp_sendClose_exit_code (fuel : Nat) (s sf : St σ) (c : Int)
    (h : Cpp.main.sendClose env pb fuel s = some (.exit c, sf)) : c = -1 := by
  unfold Cpp.main.sendClose at h
  split at h
  · cases h
  · rename_i c1 s1 heq
    have := Cpp_ready_exit_code env pb fuel s s1 c1 heq
    simp only [Option.some.injEq, Prod.mk.injEq, Step.exit.injEq] at h
    omega
  · repeat' (first | (split at h) | (simp only [Option.some.injEq, Prod.mk.injEq,
      Step.exit.injEq, Step.next.injEq, reduceCtorEq, false_and, and_false] at h))

theorem Cpp_sendClose_next_inv (fuel : Nat) (s sf : St σ) (hnd : HANDLE)
    (h : Cpp.main.sendClose env pb fuel s = some (.next hnd, sf)) :
    ∃ s1,
      Cpp.main.ready env pb fuel s = some (.next hnd, s1) ∧
      Cpp.CloseVirtualChannel env pb fuel
        ((doCloseHandle env .main (Cpp.main.dataLoop env hnd 100 0 s1) hnd).log .main
          .CloseVirtualChannel) = some sf := by
  unfold Cpp.main.sendClose at h
  repeat' (first | (split at h) | (simp only [Option.some.injEq, Prod.mk.injEq, Step.exit.injEq,
    Step.next.injEq, reduceCtorEq, false_and, and_false] at h))
  obtain ⟨rfl, rfl⟩ := h
  exact ⟨_, by assumption, by assumption⟩

theorem Cpp_main_zero_inv (fuel : Nat) (s sf : St σ)
    (h : Cpp.main env pb fuel s = some (0, sf)) :
    ∃ hnd s1 resp s2,
      Cpp.main.sendClose env pb fuel s = some (.next hnd, s1) ∧
      Cpp.ReadNextMessage env pb fuel s1 = some (some (.MSG_RESPONSE resp), s2) ∧
      resp.status = .SUCCESS ∧
      sf = s2.log .main (.ReadNextMessage (some (.MSG_RESPONSE resp))) := by
  unfold Cpp.main at h
  split at h
  · cases h
  · rename_i c1 s1 heq
    have := Cpp_sendClose_exit_code env pb fuel s s1 c1 heq
    simp only [Option.some.injEq, Prod.mk.injEq] at h
    omega
  · repeat' (first | (split at h) | (simp only [Option.some.injEq, Prod.mk.injEq,
      Step.exit.injEq, Step.next.injEq, reduceCtorEq, false_and, and_false] at h))
    rename_i hstatus
    exact ⟨_, _, _, _, by assumption, by assumption, by simpa using hstatus, h.2.symm⟩

theorem Cpp_setup_calls (fuel : Nat) (s sf : St σ) (resp : Response)
    (hnd : HANDLE) (h : Cpp.main.setup env pb fuel s = some (.next (resp, hnd), sf)) :
    resp.status = .SUCCESS ∧ hnd ≠ INVALID_HANDLE_VALUE ∧
      callsOf .main sf.trace = callsOf .main s.trace ++
        [.RequestVirtualChannel, .ReadNextMessage (some (.MSG_RESPONSE resp)),
         .SetupAndConnectNamedPipe (pb.setup_virtual_channel_response resp).relay_path hnd] := by
  obtain ⟨s1, s2, s3, h1, h2, h3, h5, h6, rfl⟩ := Cpp_setup_next_inv env pb fuel s sf resp hnd h
  refine ⟨h3, h6, ?_⟩
  rw [callsOf_log_same, connect_calls_main env _ _ _ _ _ h5, callsOf_log_same,
    frame_calls_main (Cpp_ReadNextMessage_adds env pb fuel _ _ _ h2),
    frame_calls_main (Cpp_RequestVirtualChannel_adds env pb fuel _ _ h1), callsOf_log_same]
  simp

theorem Cpp_handoff_calls (fuel : Nat) (s sf : St σ) (hnd : HANDLE)
    (h : Cpp.main.handoff env pb fuel s = some (.next hnd, sf)) :
    ∃ resp, resp.status = .SUCCESS ∧ hnd ≠ INVALID_HANDLE_VALUE ∧
      callsOf .main sf.trace = callsOf .main s.trace ++
        Cpp.handoffCalls resp (pb.setup_virtual_channel_response resp) hnd := by
  obtain ⟨resp, s1, k, h1, h2⟩ := Cpp_handoff_next_inv env pb fuel s sf hnd h
  obtain ⟨h4, h6, h7⟩ := Cpp_setup_calls env pb fuel s s1 resp hnd h1
  refine ⟨resp, h4, h6, ?_⟩
  have e2 := doWriteFile_trace env _ _ _ _ _ _ _ h2
  rw [e2, callsOf_append, h7, callsOf_single_same]
  simp [Cpp.handoffCalls]

theorem Cpp_ready_calls (fuel : Nat) (s sf : St σ) (hnd : HANDLE)
    (h : Cpp.main.ready env pb fuel s = some (.next hnd, sf)) :
    ∃ resp e, resp.status = .SUCCESS ∧
      hnd ≠ INVALID_HANDLE_VALUE ∧ e.event_case = .VIRTUAL_CHANNEL_READY_EVENT ∧
      callsOf .main sf.trace = callsOf .main s.trace ++
        Cpp.handoffCalls resp (pb.setup_virtual_channel_response resp) hnd ++
        [.ReadNextMessage (some (.MSG_EVENT e))] := by
  obtain ⟨s1, e, s2, h1, h2, h3, rfl⟩ := Cpp_ready_next_inv env pb fuel s sf hnd h
  obtain ⟨resp, h4, h6, h7⟩ := Cpp_handoff_calls env pb fuel s s1 hnd h1
  refine ⟨resp, e, h4, h6, h3, ?_⟩
  rw [callsOf_log_same, frame_calls_main (Cpp_ReadNextMessage_adds env pb fuel _ _ _ h2), h7]

theorem Cpp_sendClose_calls (fuel : Nat) (s sf : St σ) (hnd : HANDLE)
    (h : Cpp.main.sendClose env pb fuel s = some (.next hnd, sf)) :
    ∃ resp e data, resp.status = .SUCCESS ∧
      hnd ≠ INVALID_HANDLE_VALUE ∧ e.event_case = .VIRTUAL_CHANNEL_READY_EVENT ∧
      (∀ c ∈ data, isDataPhaseCall hnd c = true) ∧
      callsOf .main sf.trace = callsOf .main s.trace ++
        Cpp.handoffCalls resp (pb.setup_virtual_channel_response resp) hnd ++
        [.ReadNextMessage (some (.MSG_EVENT e))] ++ data ++
        [.CloseHandle hnd, .CloseVirtualChannel] := by
  obtain ⟨s1, h1, h2⟩ := Cpp_sendClose_next_inv env pb fuel s sf hnd h
  obtain ⟨resp, e, h4, h6, h7, h8⟩ := Cpp_ready_calls env pb fuel s s1 hnd h1
  obtain ⟨data, hd1, hd2⟩ := (Cpp_dataLoop_adds env hnd 100 0 s1).main_calls
  refine ⟨resp, e, data, h4, h6, h7, hd2, ?_⟩
  have e1 : (doCloseHandle env .main (Cpp.main.dataLoop env hnd 100 0 s1) hnd).trace =
      (Cpp.main.dataLoop env hnd 100 0 s1).trace ++ [⟨.main, .CloseHandle hnd⟩] := rfl
  rw [frame_calls_main (Cpp_CloseVirtualChannel_adds env pb fuel _ _ h2), callsOf_log_same, e1,
    callsOf_append, callsOf_single_same, hd1, h8]
  simp

/-- Every run of the C++ port's `main` that returns 0 made exactly the calls of
a full lifecycle. -/
theorem Cpp_main_zero_calls (fuel : Nat) (s sf : St σ)
    (h : Cpp.main env pb fuel s = some (0, sf)) :
    ∃ resp hnd e data resp3, resp.status = .SUCCESS ∧
      hnd ≠ INVALID_HANDLE_VALUE ∧ e.event_case = .VIRTUAL_CHANNEL_READY_EVENT ∧
      (∀ c ∈ data, isDataPhaseCall hnd c = true) ∧ resp3.status = .SUCCESS ∧
      callsOf .main sf.trace = callsOf .main s.trace ++
        Cpp.handoffCalls resp (pb.setup_virtual_channel_response resp) hnd ++
        [.ReadNextMessage (some (.MSG_EVENT e))] ++ data ++
        [.CloseHandle hnd, .CloseVirtualChannel,
         .ReadNextMessage (some (.MSG_RESPONSE resp3))] := by
  obtain ⟨hnd, s1, resp3, s2, h1, h2, h3, rfl⟩ := Cpp_main_zero_inv env pb fuel s sf h
  obtain ⟨resp, e, data, h4, h6, h7, h8, h9⟩ := Cpp_sendClose_calls env pb fuel s s1 hnd h1
  refine ⟨resp, hnd, e, data, resp3, h4, h6, h7, h8, h3, ?_⟩
  rw [callsOf_log_same, frame_calls_main (Cpp_ReadNextMessage_adds env pb fuel _ _ _ h2), h9]
  simp

end CppBlocks

section Forward

variable {σ : Type} (env : Win32 σ)

theorem C_main_of_ready_exit (pb : ProtobufC) (fuel : Nat) (s sf : St σ) (c : Int)
    (h : C.main.ready env pb fuel s = some (.exit c, sf)) :
    C.main env pb fuel s = some (c, sf) := by
  simp only [C.main, C.main.sendClose, h]

theorem C_main_of_handoff_exit (pb : ProtobufC) (fuel : Nat) (s sf : St σ) (c : Int)
    (h : C.main.handoff env pb fuel s = some (.exit c, sf)) :
    C.main env pb fuel s = some (c, sf) :=
  C_main_of_ready_exit env pb fuel s sf c (by simp only [C.main.ready, h])

theorem C_main_of_setup_exit (pb : ProtobufC) (fuel : Nat) (s sf : St σ) (c : Int)
    (h : C.main.setup env pb fuel s = some (.exit c, sf)) :
    C.main env pb fuel s = some (c, sf) :=
  C_main_of_handoff_exit env pb fuel s sf c (by simp only [C.main.handoff, h])

theorem Cpp_main_of_ready_exit (pb : ProtobufCpp) (fuel : Nat) (s sf : St σ) (c : Int)
    (h : Cpp.main.ready env pb fuel s = some (.exit c, sf)) :
    Cpp.main env pb fuel s = some (c, sf) := by
  simp only [Cpp.main, Cpp.main.sendClose, h]

theorem Cpp_main_of_handoff_exit (pb : ProtobufCpp) (fuel : Nat) (s sf : St σ) (c : Int)
    (h : Cpp.main.handoff env pb fuel s = some (.exit c, sf)) :
    Cpp.main env pb fuel s = some (c, sf) :=
  Cpp_main_of_ready_exit env pb fuel s sf c (by simp only [Cpp.main.ready, h])

theorem Cpp_main_of_setup_exit (pb : ProtobufCpp) (fuel : Nat) (s sf : St σ) (c : Int)
    (h : Cpp.main.setup env pb fuel s = some (.exit c, sf)) :
    Cpp.main env pb fuel s = some (c, sf) :=
  Cpp_main_of_handoff_exit env pb fuel s sf c (by simp only [Cpp.main.handoff, h])

theorem C_setup_rejects (pb : ProtobufC) (fuel : Nat) (s s1 s2 : St σ) (msg : DcvMessage)
    (hmsg : isSuccessResponse (some msg) = false)
    (h1 : C.RequestVirtualChannel env pb fuel (s.log .main .RequestVirtualChannel) = some s1)
    (h2 : C.ReadNextMessage env pb fuel s1 = some (some msg, s2)) :
    C.main.setup env pb fuel s
      = some (.exit (-1), s2.log .main (.ReadNextMessage (some msg))) := by
  simp only [C.main.setup, h1, h2]
  cases msg with
  | NOT_SET => rfl
  | MSG_EVENT e => rfl
  | MSG_RESPONSE r =>
    have hst : r.status ≠ .SUCCESS := by simpa [isSuccessResponse] using hmsg
    simp only
    split
    · simp [hst]
    · rfl

theorem Cpp_setup_rejects (pb : ProtobufCpp) (fuel : Nat) (s s1 s2 : St σ) (msg : DcvMessage)
    (hmsg : isSuccessResponse (some msg) = false)
    (h1 : Cpp.RequestVirtualChannel env pb fuel (s.log .main .RequestVirtualChannel) = some s1)
    (h2 : Cpp.ReadNextMessage env pb fuel s1 = some (some msg, s2)) :
    Cpp.main.setup env pb fuel s
      = some (.exit (-1), s2.log .main (.ReadNextMessage (some msg))) := by
  simp only [Cpp.main.setup, h1, h2]
  cases msg with
  | NOT_SET => rfl
  | MSG_EVENT e => rfl
  | MSG_RESPONSE r =>
    have hst : r.status ≠ .SUCCESS := by simpa [isSuccessResponse] using hmsg
    simp [hst]

theorem C_ready_rejects (pb : ProtobufC) (fuel : Nat) (s s1 s2 : St σ) (hnd : HANDLE)
    (msg : Option DcvMessage) (hmsg : isReadyEvent msg = false)
    (h1 : C.main.handoff env pb fuel s = some (.next hnd, s1))
    (h2 : C.ReadNextMessage env pb fuel s1 = some (msg, s2)) :
    C.main.ready env pb fuel s = some (.exit (-1), s2.log .main (.ReadNextMessage msg)) := by
  simp only [C.main.ready, h1, h2]
  match msg, hmsg with
  | none, _ => rfl
  | some .NOT_SET, _ => rfl
  | some (.MSG_RESPONSE r), _ => rfl
  | some (.MSG_EVENT e), hmsg =>
    have hc : e.event_case ≠ .VIRTUAL_CHANNEL_READY_EVENT := by
      simpa [isReadyEvent] using hmsg
    simp [hc]

theorem Cpp_ready_rejects (pb : ProtobufCpp) (fuel : Nat) (s s1 s2 : St σ) (hnd : HANDLE)
    (msg : Option DcvMessage) (hmsg : isReadyEvent msg = false)
    (h1 : Cpp.main.handoff env pb fuel s = some (.next hnd, s1))
    (h2 : Cpp.ReadNextMessage env pb fuel s1 = some (msg, s2)) :
    Cpp.main.ready env pb fuel s = some (.exit (-1), s2.log .main (.ReadNextMessage msg)) := by
  simp only [Cpp.main.ready, h1, h2]
  match msg, hmsg with
  | none, _ => rfl
  | some .NOT_SET, _ => rfl
  | some (.MSG_RESPONSE r), _ => rfl
  | some (.MSG_EVENT e), hmsg =>
    have hc : e.event_case ≠ .VIRTUAL_CHANNEL_READY_EVENT := by
      simpa [isReadyEvent] using hmsg
    simp [hc]

theorem C_close_rejects (pb : ProtobufC) (fuel : Nat) (s s1 s2 : St σ) (hnd : HANDLE)
    (msg : Option DcvMessage) (hmsg : isSuccessResponse msg = false)
    (h1 : C.main.sendClose env pb fuel s = some (.next hnd, s1))
    (h2 : C.ReadNextMessage env pb fuel s1 = some (msg, s2)) :
    C.main env pb fuel s = some (-1, s2.log .main (.ReadNextMessage msg)) := by
  simp only [C.main, h1, h2]
  match msg, hmsg with
  | none, _ => rfl
  | some .NOT_SET, _ => rfl
  | some (.MSG_EVENT e), _ => rfl
  | some (.MSG_RESPONSE r), hmsg =>
    have hst : r.status ≠ .SUCCESS := by simpa [isSuccessResponse] using hmsg
    simp [hst]

theorem Cpp_close_rejects (pb : ProtobufCpp) (fuel : Nat) (s s1 s2 : St σ) (hnd : HANDLE)
    (msg : Option DcvMessage) (hmsg : isSuccessResponse msg = false)
    (h1 : Cpp.main.sendClose env pb fuel s = some (.next hnd, s1))
    (h2 : Cpp.ReadNextMessage env pb fuel s1 = some (msg, s2)) :
    Cpp.main env pb fuel s = some (-1, s2.log .main (.ReadNextMessage msg)) := by
  simp only [Cpp.main, h1, h2]
  match msg, hmsg with
  | none, _ => rfl
  | some .NOT_SET, _ => rfl
  | some (.MSG_EVENT e), _ => rfl
  | some (.MSG_RESPONSE r), hmsg =>
    have hst : r.status ≠ .SUCCESS := by simpa [isSuccessResponse] using hmsg
    simp [hst]

end Forward

section SetupRejection

variable {σ : Type} (env : Win32 σ)

/-- C3.  Setup rejection without side effects, in both ports: if the first
control message received after the setup request is not a `Response`, or is a
`Response` whose status is not `Success`, then `main` returns -1, the calls
`main` has made are exactly the setup request and that one receive (so
`SetupAndConnectNamedPipe` is never called and `main` writes nothing on any
pipe), and no `CreateFileA` was issued. -/
theorem setup_rejection (pbC : ProtobufC) (pbCpp : ProtobufCpp) (fuel : Nat) (s : St σ)
    (msg : DcvMessage) (hmsg : isSuccessResponse (some msg) = false) :
    (∀ s1 s2,
      C.RequestVirtualChannel env pbC fuel (s.log .main .RequestVirtualChannel) = some s1 →
      C.ReadNextMessage env pbC fuel s1 = some (some msg, s2) →
      ∃ sf, C.main env pbC fuel s = some (-1, sf) ∧
        callsOf .main sf.trace = callsOf .main s.trace ++
          [.RequestVirtualChannel, .ReadNextMessage (some msg)] ∧
        callsOf .SetupAndConnectNamedPipe sf.trace =
          callsOf .SetupAndConnectNamedPipe s.trace) ∧
    (∀ s1 s2,
      Cpp.RequestVirtualChannel env pbCpp fuel (s.log .main .RequestVirtualChannel) = some s1 →
      Cpp.ReadNextMessage env pbCpp fuel s1 = some (some msg, s2) →
      ∃ sf, Cpp.main env pbCpp fuel s = some (-1, sf) ∧
        callsOf .main sf.trace = callsOf .main s.trace ++
          [.RequestVirtualChannel, .ReadNextMessage (some msg)] ∧
        callsOf .SetupAndConnectNamedPipe sf.trace =
          callsOf .SetupAndConnectNamedPipe s.trace) := by
  constructor
  · intro s1 s2 h1 h2
    refine ⟨_, C_main_of_setup_exit env pbC fuel s _ _
      (C_setup_rejects env pbC fuel s s1 s2 msg hmsg h1 h2), ?_, ?_⟩
    · rw [callsOf_log_same, frame_calls_main (C_ReadNextMessage_adds env pbC fuel _ _ _ h2),
        frame_calls_main (C_RequestVirtualChannel_adds env pbC fuel _ _ h1), callsOf_log_same]
      simp
    · rw [callsOf_log_other _ _ _ _ (by decide),
        frame_calls_connect (C_ReadNextMessage_adds env pbC fuel _ _ _ h2),
        frame_calls_connect (C_RequestVirtualChannel_adds env pbC fuel _ _ h1),
        callsOf_log_other _ _ _ _ (by decide)]
  · intro s1 s2 h1 h2
    refine ⟨_, Cpp_main_of_setup_exit env pbCpp fuel s _ _
      (Cpp_setup_rejects env pbCpp fuel s s1 s2 msg hmsg h1 h2), ?_, ?_⟩
    · rw [callsOf_log_same, frame_calls_main (Cpp_ReadNextMessage_adds env pbCpp fuel _ _ _ h2),
        frame_calls_main (Cpp_RequestVirtualChannel_adds env pbCpp fuel _ _ h1),
        callsOf_log_same]
      simp
    · rw [callsOf_log_other _ _ _ _ (by decide),
        frame_calls_connect (Cpp_ReadNextMessage_adds env pbCpp fuel _ _ _ h2),
        frame_calls_connect (Cpp_RequestVirtualChannel_adds env pbCpp fuel _ _ h1),
        callsOf_log_other _ _ _ _ (by decide)]

end SetupRejection

/-- Witness of C3: the host answers the setup request with a failure status. -/
theorem setup_rejection_witness :
    isSuccessResponse (some Sim.failedSetupResponse) = false ∧
    (∃ sf, C.main Sim.env Sim.pbC 4 (St.start Sim.rejectedSetup) = some (-1, sf) ∧
      callsOf .main sf.trace = callsOf .main (St.start Sim.rejectedSetup).trace ++
        [.RequestVirtualChannel, .ReadNextMessage (some Sim.failedSetupResponse)] ∧
      callsOf .SetupAndConnectNamedPipe sf.trace =
        callsOf .SetupAndConnectNamedPipe (St.start Sim.rejectedSetup).trace) ∧
    (∃ sf, Cpp.main Sim.env Sim.pbCpp 4 (St.start Sim.rejectedSetup) = some (-1, sf) ∧
      callsOf .main sf.trace = callsOf .main (St.start Sim.rejectedSetup).trace ++
        [.RequestVirtualChannel, .ReadNextMessage (some Sim.failedSetupResponse)] ∧
      callsOf .SetupAndConnectNamedPipe sf.trace =
        callsOf .SetupAndConnectNamedPipe (St.start Sim.rejectedSetup).trace) :=
  ⟨rfl,
    (setup_rejection Sim.env Sim.pbC Sim.pbCpp 4 (St.start Sim.rejectedSetup)
      Sim.failedSetupResponse rfl).1 _ _ rfl rfl,
    (setup_rejection Sim.env Sim.pbC Sim.pbCpp 4 (St.start Sim.rejectedSetup)
      Sim.failedSetupResponse rfl).2 _ _ rfl rfl⟩

section ExitShapes

variable {σ : Type} (env : Win32 σ)

theorem C_setup_exit_calls (pb : ProtobufC) (fuel : Nat) (s sf : St σ) (c : Int)
    (h : C.main.setup env pb fuel s = some (.exit c, sf)) :
    ∃ m1 path hnd,
      callsOf .main sf.trace = callsOf .main s.trace ++
        [.RequestVirtualChannel, .ReadNextMessage m1] ∨
      callsOf .main sf.trace = callsOf .main s.trace ++
        [.RequestVirtualChannel, .ReadNextMessage m1, .SetupAndConnectNamedPipe path hnd] := by
  unfold C.main.setup at h
  repeat' (first | (split at h) | (simp only [Option.some.injEq, Prod.mk.injEq, Step.exit.injEq,
    Step.next.injEq, reduceCtorEq, false_and, and_false] at h))
  all_goals
    obtain ⟨_, rfl⟩ := h
    have hR := frame_calls_main (C_RequestVirtualChannel_adds env pb fuel _ _
      ‹C.RequestVirtualChannel env pb fuel _ = some _›)
    have hM := frame_calls_main (C_ReadNextMessage_adds env pb fuel _ _ _
      ‹C.ReadNextMessage env pb fuel _ = some _›)
    first
      | (have hC := connect_calls_main env _ _ _ _ _
          ‹SetupAndConnectNamedPipe env _ fuel _ = some _›
         exact ⟨_, _, _, Or.inr (by
           rw [callsOf_log_same, hC, callsOf_log_same, hM, hR, callsOf_log_same]
           simp only [List.append_assoc, List.singleton_append]
           rfl)⟩)
      | exact ⟨_, "", none, Or.inl (by
           rw [callsOf_log_same, hM, hR, callsOf_log_same]
           simp only [List.append_assoc, List.singleton_append]
           rfl)⟩

theorem Cpp_setup_exit_calls (pb : ProtobufCpp) (fuel : Nat) (s sf : St σ) (c : Int)
    (h : Cpp.main.setup env pb fuel s = some (.exit c, sf)) :
    ∃ m1 path hnd,
      callsOf .main sf.trace = callsOf .main s.trace ++
        [.RequestVirtualChannel, .ReadNextMessage m1] ∨
      callsOf .main sf.trace = callsOf .main s.trace ++
        [.RequestVirtualChannel, .ReadNextMessage m1, .SetupAndConnectNamedPipe path hnd] := by
  unfold Cpp.main.setup at h
  repeat' (first | (split at h) | (simp only [Option.some.injEq, Prod.mk.injEq, Step.exit.injEq,
    Step.next.injEq, reduceCtorEq, false_and, and_false] at h))
  all_goals
    obtain ⟨_, rfl⟩ := h
    have hR := frame_calls_main (Cpp_RequestVirtualChannel_adds env pb fuel _ _
      ‹Cpp.RequestVirtualChannel env pb fuel _ = some _›)
    have hM := frame_calls_main (Cpp_ReadNextMessage_adds env pb fuel _ _ _
      ‹Cpp.ReadNextMessage env pb fuel _ = some _›)
    first
      | (have hC := connect_calls_main env _ _ _ _ _
          ‹SetupAndConnectNamedPipe env _ fuel _ = some _›
         exact ⟨_, _, _, Or.inr (by
           rw [callsOf_log_same, hC, callsOf_log_same, hM, hR, callsOf_log_same]
           simp only [List.append_assoc, List.singleton_append]
           rfl)⟩)
      | exact ⟨_, "", none, Or.inl (by
           rw [callsOf_log_same, hM, hR, callsOf_log_same]
           simp only [List.append_assoc, List.singleton_append]
           rfl)⟩

end ExitShapes

section GateShapes

variable {σ : Type} (env : Win32 σ)

theorem C_handoff_exit_calls (pb : ProtobufC) (fuel : Nat) (s sf : St σ) (c : Int)
    (h : C.main.handoff env pb fuel s = some (.exit c, sf)) :
    ∃ m1 path hnd token m2 l rest,
      callsOf .main sf.trace = callsOf .main s.trace ++ l ∧
      l ++ rest = C.gateCalls m1 path hnd token m2 := by
  unfold C.main.handoff at h
  split at h
  · cases h
  · rename_i c1 s1 heq
    simp only [Option.some.injEq, Prod.mk.injEq, Step.exit.injEq] at h
    obtain ⟨_, rfl⟩ := h
    obtain ⟨m1, path, hnd, hc | hc⟩ := C_setup_exit_calls env pb fuel s s1 c1 heq
    · exact ⟨m1, path, hnd, [], none, [.RequestVirtualChannel, .ReadNextMessage m1],
        [.SetupAndConnectNamedPipe path hnd, .WriteFile hnd [] 0, .FlushFileBuffers hnd,
         .ReadNextMessage none], hc, rfl⟩
    · exact ⟨m1, path, hnd, [], none,
        [.RequestVirtualChannel, .ReadNextMessage m1, .SetupAndConnectNamedPipe path hnd],
        [.WriteFile hnd [] 0, .FlushFileBuffers hnd, .ReadNextMessage none], hc, rfl⟩
  · rename_i setup hnd s1 heq
    obtain ⟨resp, _, _, _, hc⟩ := C_setup_calls env pb fuel s s1 setup hnd heq
    simp only at h
    split at h
    · rename_i s2 hw
      simp only [Option.some.injEq, Prod.mk.injEq, Step.exit.injEq] at h
      obtain ⟨_, rfl⟩ := h
      refine ⟨some (.MSG_RESPONSE resp), setup.relay_path, hnd,
        setup.virtual_channel_auth_token, none,
        [.RequestVirtualChannel, .ReadNextMessage (some (.MSG_RESPONSE resp)),
         .SetupAndConnectNamedPipe setup.relay_path hnd,
         .WriteFile hnd setup.virtual_channel_auth_token
           setup.virtual_channel_auth_token.length],
        [.FlushFileBuffers hnd, .ReadNextMessage none], ?_, rfl⟩
      rw [doWriteFile_trace env _ _ _ _ _ _ _ hw, callsOf_append, hc, callsOf_single_same,
        List.append_assoc]
      rfl
    · rename_i k s2 hw
      split at h
      · rename_i s3 hf
        simp only [Option.some.injEq, Prod.mk.injEq, Step.exit.injEq] at h
        obtain ⟨_, rfl⟩ := h
        refine ⟨some (.MSG_RESPONSE resp), setup.relay_path, hnd,
          setup.virtual_channel_auth_token, none, C.handoffCalls resp setup hnd,
          [.ReadNextMessage none], ?_, rfl⟩
        rw [doFlushFileBuffers_trace env _ _ _ _ _ hf, doWriteFile_trace env _ _ _ _ _ _ _ hw,
          callsOf_append, callsOf_append, hc, callsOf_single_same, callsOf_single_same,
          List.append_assoc, List.append_assoc]
        rfl
      · simp at h

theorem C_ready_exit_calls (pb : ProtobufC) (fuel : Nat) (s sf : St σ) (c : Int)
    (h : C.main.ready env pb fuel s = some (.exit c, sf)) :
    ∃ m1 path hnd token m2 l rest,
      callsOf .main sf.trace = callsOf .main s.trace ++ l ∧
      l ++ rest = C.gateCalls m1 path hnd token m2 := by
  unfold C.main.ready at h
  split at h
  · cases h
  · rename_i c1 s1 heq
    simp only [Option.some.injEq, Prod.mk.injEq, Step.exit.injEq] at h
    obtain ⟨_, rfl⟩ := h
    exact C_handoff_exit_calls env pb fuel s s1 c1 heq
  · rename_i hnd s1 heq
    obtain ⟨resp, setup, _, _, _, hc⟩ := C_handoff_calls env pb fuel s s1 hnd heq
    split at h
    · cases h
    · rename_i msg s2 hm
      have hM := frame_calls_main (C_ReadNextMessage_adds env pb fuel _ _ _ hm)
      have hfin : callsOf .main (s2.log .main (.ReadNextMessage msg)).trace =
          callsOf .main s.trace ++ (C.handoffCalls resp setup hnd ++ [.ReadNextMessage msg]) := by
        rw [callsOf_log_same, hM, hc, List.append_assoc]
      have hsf : sf = s2.log .main (.ReadNextMessage msg) := by
        repeat' (first | (split at h) | (simp only [Option.some.injEq, Prod.mk.injEq,
          Step.exit.injEq, Step.next.injEq, reduceCtorEq, false_and, and_false] at h))
        all_goals exact h.2.symm
      rw [hsf]
      exact ⟨some (.MSG_RESPONSE resp), setup.relay_path, hnd,
        setup.virtual_channel_auth_token, msg,
        C.handoffCalls resp setup hnd ++ [.ReadNextMessage msg], [], hfin,
        by simp [C.handoffCalls, C.gateCalls]⟩

theorem Cpp_handoff_exit_calls (pb : ProtobufCpp) (fuel : Nat) (s sf : St σ) (c : Int)
    (h : Cpp.main.handoff env pb fuel s = some (.exit c, sf)) :
    ∃ m1 path hnd token m2 l rest,
      callsOf .main sf.trace = callsOf .main s.trace ++ l ∧
      l ++ rest = Cpp.gateCalls m1 path hnd token m2 := by
  unfold Cpp.main.handoff at h
  split at h
  · cases h
  · rename_i c1 s1 heq
    simp only [Option.some.injEq, Prod.mk.injEq, Step.exit.injEq] at h
    obtain ⟨_, rfl⟩ := h
    obtain ⟨m1, path, hnd, hc | hc⟩ := Cpp_setup_exit_calls env pb fuel s s1 c1 heq
    · exact ⟨m1, path, hnd, [], none, [.RequestVirtualChannel, .ReadNextMessage m1],
        [.SetupAndConnectNamedPipe path hnd, .WriteFile hnd [] 0, .ReadNextMessage none],
        hc, rfl⟩
    · exact ⟨m1, path, hnd, [], none,
        [.RequestVirtualChannel, .ReadNextMessage m1, .SetupAndConnectNamedPipe path hnd],
        [.WriteFile hnd [] 0, .ReadNextMessage none], hc, rfl⟩
  · rename_i resp hnd s1 heq
    obtain ⟨_, _, hc⟩ := Cpp_setup_calls env pb fuel s s1 resp hnd heq
    simp only at h
    split at h
    · rename_i s2 hw
      simp only [Option.some.injEq, Prod.mk.injEq, Step.exit.injEq] at h
      obtain ⟨_, rfl⟩ := h
      refine ⟨some (.MSG_RESPONSE resp), (pb.setup_virtual_channel_response resp).relay_path, hnd,
        (pb.setup_virtual_channel_response resp).virtual_channel_auth_token, none,
        Cpp.handoffCalls resp (pb.setup_virtual_channel_response resp) hnd,
          [.ReadNextMessage none], ?_, rfl⟩
      rw [doWriteFile_trace env _ _ _ _ _ _ _ hw, callsOf_append, hc, callsOf_single_same,
        List.append_assoc]
      rfl
    · simp at h

theorem Cpp_ready_exit_calls (pb : ProtobufCpp) (fuel : Nat) (s sf : St σ) (c : Int)
    (h : Cpp.main.ready env pb fuel s = some (.exit c, sf)) :
    ∃ m1 path hnd token m2 l rest,
      callsOf .main sf.trace = callsOf .main s.trace ++ l ∧
      l ++ rest = Cpp.gateCalls m1 path hnd token m2 := by
  unfold Cpp.main.ready at h
  split at h
  · cases h
  · rename_i c1 s1 heq
    simp only [Option.some.injEq, Prod.mk.injEq, Step.exit.injEq] at h
    obtain ⟨_, rfl⟩ := h
    exact Cpp_handoff_exit_calls env pb fuel s s1 c1 heq
  · rename_i hnd s1 heq
    obtain ⟨resp, _, _, hc⟩ := Cpp_handoff_calls env pb fuel s s1 hnd heq
    split at h
    · cases h
    · rename_i msg s2 hm
      have hM := frame_calls_main (Cpp_ReadNextMessage_adds env pb fuel _ _ _ hm)
      have hfin : callsOf .main (s2.log .main (.ReadNextMessage msg)).trace =
          callsOf .main s.trace ++
            (Cpp.handoffCalls resp (pb.setup_virtual_channel_response resp) hnd ++ [.ReadNextMessage msg]) := by
        rw [callsOf_log_same, hM, hc, List.append_assoc]
      have hsf : sf = s2.log .main (.ReadNextMessage msg) := by
        repeat' (first | (split at h) | (simp only [Option.some.injEq, Prod.mk.injEq,
          Step.exit.injEq, Step.next.injEq, reduceCtorEq, false_and, and_false] at h))
        all_goals exact h.2.symm
      rw [hsf]
      exact ⟨some (.MSG_RESPONSE resp), (pb.setup_virtual_channel_response resp).relay_path, hnd,
        (pb.setup_virtual_channel_response resp).virtual_channel_auth_token, msg,
        Cpp.handoffCalls resp (pb.setup_virtual_channel_response resp) hnd ++
          [.ReadNextMessage msg], [], hfin,
        by simp [Cpp.handoffCalls, Cpp.gateCalls]⟩

end GateShapes

section GateRuns

variable {σ : Type} (env : Win32 σ)

theorem C_main_gate (pb : ProtobufC) (fuel : Nat) (s : St σ) :
    ∀ code sf, C.main env pb fuel s = some (code, sf) →
      (∃ m1 path hnd token m2 l rest,
        callsOf .main sf.trace = callsOf .main s.trace ++ l ∧
        l ++ rest = C.gateCalls m1 path hnd token m2) ∨
      (∃ hnd s1 e s2, C.main.handoff env pb fuel s = some (.next hnd, s1) ∧
        C.ReadNextMessage env pb fuel s1 = some (some (.MSG_EVENT e), s2) ∧
        e.event_case = .VIRTUAL_CHANNEL_READY_EVENT) := by
  intro code sf h
  cases hr : C.main.ready env pb fuel s with
  | none => simp [C.main, C.main.sendClose, hr] at h
  | some r =>
    obtain ⟨st, s1⟩ := r
    cases st with
    | exit c =>
      rw [C_main_of_ready_exit env pb fuel s s1 c hr] at h
      simp only [Option.some.injEq, Prod.mk.injEq] at h
      obtain ⟨_, rfl⟩ := h
      exact Or.inl (C_ready_exit_calls env pb fuel s s1 c hr)
    | next hnd =>
      obtain ⟨s0, e, s2, h1, h2, h3, _⟩ := C_ready_next_inv env pb fuel s s1 hnd hr
      exact Or.inr ⟨hnd, s0, e, s2, h1, h2, h3⟩

theorem Cpp_main_gate (pb : ProtobufCpp) (fuel : Nat) (s : St σ) :
    ∀ code sf, Cpp.main env pb fuel s = some (code, sf) →
      (∃ m1 path hnd token m2 l rest,
        callsOf .main sf.trace = callsOf .main s.trace ++ l ∧
        l ++ rest = Cpp.gateCalls m1 path hnd token m2) ∨
      (∃ hnd s1 e s2, Cpp.main.handoff env pb fuel s = some (.next hnd, s1) ∧
        Cpp.ReadNextMessage env pb fuel s1 = some (some (.MSG_EVENT e), s2) ∧
        e.event_case = .VIRTUAL_CHANNEL_READY_EVENT) := by
  intro code sf h
  cases hr : Cpp.main.ready env pb fuel s with
  | none => simp [Cpp.main, Cpp.main.sendClose, hr] at h
  | some r =>
    obtain ⟨st, s1⟩ := r
    cases st with
    | exit c =>
      rw [Cpp_main_of_ready_exit env pb fuel s s1 c hr] at h
      simp only [Option.some.injEq, Prod.mk.injEq] at h
      obtain ⟨_, rfl⟩ := h
      exact Or.inl (Cpp_ready_exit_calls env pb fuel s s1 c hr)
    | next hnd =>
      obtain ⟨s0, e, s2, h1, h2, h3, _⟩ := Cpp_ready_next_inv env pb fuel s s1 hnd hr
      exact Or.inr ⟨hnd, s0, e, s2, h1, h2, h3⟩

end GateRuns

section ReadyGate

variable {σ : Type} (env : Win32 σ)

/-- C8.  Ready-event gate, in both ports.  On a run that has completed the
auth-token handoff on pipe handle `hnd`, let `msg` be the result of the next
receive (`none` when nothing could be read or decoded).  If `msg` is not an
`Event` of case `VirtualChannelReadyEvent`, `main` returns -1 and the calls it
has made are exactly those of the handoff followed by that receive: no
data-phase write or read on the pipe, no `CloseVirtualChannel`.  And whenever a
run of `main` made any call beyond that receive, `msg` was the ready event.
On every run that returns, either the calls of `main` are an initial part of
setup request, receive, connect, token write, (flush,) receive, or the run
completed the handoff and then received the ready event. -/
theorem ready_event_gate (pbC : ProtobufC) (pbCpp : ProtobufCpp) (fuel : Nat) (s : St σ)
    (msg : Option DcvMessage) :
    (∀ hnd s1 s2,
      C.main.handoff env pbC fuel s = some (.next hnd, s1) →
      C.ReadNextMessage env pbC fuel s1 = some (msg, s2) →
      (isReadyEvent msg = false →
        ∃ sf resp setup, C.main env pbC fuel s = some (-1, sf) ∧
          callsOf .main sf.trace = callsOf .main s.trace ++ C.handoffCalls resp setup hnd ++
            [.ReadNextMessage msg]) ∧
      (∀ code sf, C.main env pbC fuel s = some (code, sf) →
        callsOf .main sf.trace ≠ callsOf .main s1.trace ++ [.ReadNextMessage msg] →
        isReadyEvent msg = true)) ∧
    (∀ hnd s1 s2,
      Cpp.main.handoff env pbCpp fuel s = some (.next hnd, s1) →
      Cpp.ReadNextMessage env pbCpp fuel s1 = some (msg, s2) →
      (isReadyEvent msg = false →
        ∃ sf resp, Cpp.main env pbCpp fuel s = some (-1, sf) ∧
          callsOf .main sf.trace = callsOf .main s.trace ++
            Cpp.handoffCalls resp (pbCpp.setup_virtual_channel_response resp) hnd ++
            [.ReadNextMessage msg]) ∧
      (∀ code sf, Cpp.main env pbCpp fuel s = some (code, sf) →
        callsOf .main sf.trace ≠ callsOf .main s1.trace ++ [.ReadNextMessage msg] →
        isReadyEvent msg = true)) ∧
    (∀ code sf, C.main env pbC fuel s = some (code, sf) →
      (∃ m1 path hnd token m2 l rest,
        callsOf .main sf.trace = callsOf .main s.trace ++ l ∧
        l ++ rest = C.gateCalls m1 path hnd token m2) ∨
      (∃ hnd s1 e s2, C.main.handoff env pbC fuel s = some (.next hnd, s1) ∧
        C.ReadNextMessage env pbC fuel s1 = some (some (.MSG_EVENT e), s2) ∧
        e.event_case = .VIRTUAL_CHANNEL_READY_EVENT)) ∧
    (∀ code sf, Cpp.main env pbCpp fuel s = some (code, sf) →
      (∃ m1 path hnd token m2 l rest,
        callsOf .main sf.trace = callsOf .main s.trace ++ l ∧
        l ++ rest = Cpp.gateCalls m1 path hnd token m2) ∨
      (∃ hnd s1 e s2, Cpp.main.handoff env pbCpp fuel s = some (.next hnd, s1) ∧
        Cpp.ReadNextMessage env pbCpp fuel s1 = some (some (.MSG_EVENT e), s2) ∧
        e.event_case = .VIRTUAL_CHANNEL_READY_EVENT)) := by
  refine ⟨?_, ?_, C_main_gate env pbC fuel s, Cpp_main_gate env pbCpp fuel s⟩
  · intro hnd s1 s2 h1 h2
    have hcalls : callsOf .main (s2.log .main (.ReadNextMessage msg)).trace =
        callsOf .main s1.trace ++ [.ReadNextMessage msg] := by
      rw [callsOf_log_same, frame_calls_main (C_ReadNextMessage_adds env pbC fuel _ _ _ h2)]
    have hrun : isReadyEvent msg = false →
        C.main env pbC fuel s = some (-1, s2.log .main (.ReadNextMessage msg)) := fun hmsg =>
      C_main_of_ready_exit env pbC fuel s _ _ (C_ready_rejects env pbC fuel s s1 s2 hnd msg hmsg h1 h2)
    constructor
    · intro hmsg
      obtain ⟨resp, setup, _, _, _, h7⟩ := C_handoff_calls env pbC fuel s s1 hnd h1
      exact ⟨_, resp, setup, hrun hmsg, by rw [hcalls, h7]⟩
    · intro code sf hmain hne
      by_contra hmsg
      rw [hrun (by simpa using hmsg)] at hmain
      simp only [Option.some.injEq, Prod.mk.injEq] at hmain
      rw [← hmain.2] at hne
      exact hne hcalls
  · intro hnd s1 s2 h1 h2
    have hcalls : callsOf .main (s2.log .main (.ReadNextMessage msg)).trace =
        callsOf .main s1.trace ++ [.ReadNextMessage msg] := by
      rw [callsOf_log_same, frame_calls_main (Cpp_ReadNextMessage_adds env pbCpp fuel _ _ _ h2)]
    have hrun : isReadyEvent msg = false →
        Cpp.main env pbCpp fuel s = some (-1, s2.log .main (.ReadNextMessage msg)) := fun hmsg =>
      Cpp_main_of_ready_exit env pbCpp fuel s _ _
        (Cpp_ready_rejects env pbCpp fuel s s1 s2 hnd msg hmsg h1 h2)
    constructor
    · intro hmsg
      obtain ⟨resp, _, _, h7⟩ := Cpp_handoff_calls env pbCpp fuel s s1 hnd h1
      exact ⟨_, resp, hrun hmsg, by rw [hcalls, h7]⟩
    · intro code sf hmain hne
      by_contra hmsg
      rw [hrun (by simpa using hmsg)] at hmain
      simp only [Option.some.injEq, Prod.mk.injEq] at hmain
      rw [← hmain.2] at hne
      exact hne hcalls

end ReadyGate

/-- Witness of C8: after the handoff the host sends an event that is not the
ready event. -/
theorem ready_event_gate_witness :
    isReadyEvent (some Sim.otherEvent) = false ∧
    (∃ sf resp setup, C.main Sim.env Sim.pbC 4 (St.start Sim.notReady) = some (-1, sf) ∧
      callsOf .main sf.trace = callsOf .main (St.start Sim.notReady).trace ++
        C.handoffCalls resp setup (some 5) ++ [.ReadNextMessage (some Sim.otherEvent)]) ∧
    (∃ sf resp, Cpp.main Sim.env Sim.pbCpp 4 (St.start Sim.notReady) = some (-1, sf) ∧
      callsOf .main sf.trace = callsOf .main (St.start Sim.notReady).trace ++
        Cpp.handoffCalls resp (Sim.pbCpp.setup_virtual_channel_response resp) (some
          5) ++ [.ReadNextMessage (some Sim.otherEvent)]) :=
  ⟨rfl,
    ((ready_event_gate Sim.env Sim.pbC Sim.pbCpp 4 (St.start Sim.notReady)
      (some Sim.otherEvent)).1 (some 5) _ _ rfl rfl).1 rfl,
    ((ready_event_gate Sim.env Sim.pbC Sim.pbCpp 4 (St.start Sim.notReady)
      (some Sim.otherEvent)).2.1 (some 5) _ _ rfl rfl).1 rfl⟩

section ExitCode

variable {σ : Type} (env : Win32 σ)

/-- C10.  Exit code 0 only on a full lifecycle, in both ports.  Every run of
`main` that returns 0 has made, in this order: the setup request, a receive
yielding a `Response` with status `Success` (in the C port with a setup
payload), a connect returning a valid handle, the token write (and flush in
the C port), a receive yielding an `Event` of case `VirtualChannelReadyEvent`,
data-phase calls, `CloseHandle`, the close request, and a receive yielding a
`Response` with status `Success`.  And once the close request has been sent,
if the next receive yields nothing (read or decode failure), a message that is
not a `Response`, or a `Response` whose status is not `Success`, `main`
returns -1. -/
theorem exit_zero_only_on_full_lifecycle (pbC : ProtobufC) (pbCpp : ProtobufCpp) (fuel : Nat)
    (s : St σ) :
    (∀ sf, C.main env pbC fuel s = some (0, sf) →
      ∃ resp setup hnd e data resp3, resp.status = .SUCCESS ∧
        resp.response_case = .SETUP_VIRTUAL_CHANNEL_RESPONSE setup ∧
        hnd ≠ INVALID_HANDLE_VALUE ∧ e.event_case = .VIRTUAL_CHANNEL_READY_EVENT ∧
        (∀ c ∈ data, isDataPhaseCall hnd c = true) ∧ resp3.status = .SUCCESS ∧
        callsOf .main sf.trace = callsOf .main s.trace ++ C.handoffCalls resp setup hnd ++
          [.ReadNextMessage (some (.MSG_EVENT e))] ++ data ++
          [.CloseHandle hnd, .CloseVirtualChannel,
           .ReadNextMessage (some (.MSG_RESPONSE resp3))]) ∧
    (∀ sf, Cpp.main env pbCpp fuel s = some (0, sf) →
      ∃ resp hnd e data resp3, resp.status = .SUCCESS ∧
        hnd ≠ INVALID_HANDLE_VALUE ∧ e.event_case = .VIRTUAL_CHANNEL_READY_EVENT ∧
        (∀ c ∈ data, isDataPhaseCall hnd c = true) ∧ resp3.status = .SUCCESS ∧
        callsOf .main sf.trace = callsOf .main s.trace ++
          Cpp.handoffCalls resp (pbCpp.setup_virtual_channel_response resp) hnd ++
          [.ReadNextMessage (some (.MSG_EVENT e))] ++ data ++
          [.CloseHandle hnd, .CloseVirtualChannel,
           .ReadNextMessage (some (.MSG_RESPONSE resp3))]) ∧
    (∀ hnd s1 m3 s2, C.main.sendClose env pbC fuel s = some (.next hnd, s1) →
      C.ReadNextMessage env pbC fuel s1 = some (m3, s2) → isSuccessResponse m3 = false →
      C.main env pbC fuel s = some (-1, s2.log .main (.ReadNextMessage m3))) ∧
    (∀ hnd s1 m3 s2, Cpp.main.sendClose env pbCpp fuel s = some (.next hnd, s1) →
      Cpp.ReadNextMessage env pbCpp fuel s1 = some (m3, s2) → isSuccessResponse m3 = false →
      Cpp.main env pbCpp fuel s = some (-1, s2.log .main (.ReadNextMessage m3))) :=
  ⟨fun sf h => C_main_zero_calls env pbC fuel s sf h,
   fun sf h => Cpp_main_zero_calls env pbCpp fuel s sf h,
   fun hnd s1 m3 s2 h1 h2 hm => C_close_rejects env pbC fuel s s1 s2 hnd m3 hm h1 h2,
   fun hnd s1 m3 s2 h1 h2 hm => Cpp_close_rejects env pbCpp fuel s s1 s2 hnd m3 hm h1 h2⟩

end ExitCode

/-- Witness of C10: the full lifecycle on the scripted system returns 0 in
both ports, and a close response with a failure status gives -1. -/
theorem exit_zero_only_on_full_lifecycle_witness :
    (∃ sf, C.main Sim.env Sim.pbC 4 (St.start Sim.happy) = some (0, sf) ∧
      ∃ resp setup hnd e data resp3, resp.status = .SUCCESS ∧
        resp.response_case = .SETUP_VIRTUAL_CHANNEL_RESPONSE setup ∧
        hnd ≠ INVALID_HANDLE_VALUE ∧ e.event_case = .VIRTUAL_CHANNEL_READY_EVENT ∧
        (∀ c ∈ data, isDataPhaseCall hnd c = true) ∧ resp3.status = .SUCCESS ∧
        callsOf .main sf.trace = callsOf .main (St.start Sim.happy).trace ++
          C.handoffCalls resp setup hnd ++
          [.ReadNextMessage (some (.MSG_EVENT e))] ++ data ++
          [.CloseHandle hnd, .CloseVirtualChannel,
           .ReadNextMessage (some (.MSG_RESPONSE resp3))]) ∧
    (∃ sf, Cpp.main Sim.env Sim.pbCpp 4 (St.start Sim.happy) = some (0, sf) ∧
      ∃ resp hnd e data resp3, resp.status = .SUCCESS ∧
        hnd ≠ INVALID_HANDLE_VALUE ∧ e.event_case = .VIRTUAL_CHANNEL_READY_EVENT ∧
        (∀ c ∈ data, isDataPhaseCall hnd c = true) ∧ resp3.status = .SUCCESS ∧
        callsOf .main sf.trace = callsOf .main (St.start Sim.happy).trace ++
          Cpp.handoffCalls resp (Sim.pbCpp.setup_virtual_channel_response resp) hnd ++
          [.ReadNextMessage (some (.MSG_EVENT e))] ++ data ++
          [.CloseHandle hnd, .CloseVirtualChannel,
           .ReadNextMessage (some (.MSG_RESPONSE resp3))]) ∧
    isSuccessResponse (some Sim.failedCloseResponse) = false ∧
    (∃ sf, C.main Sim.env Sim.pbC 4 (St.start Sim.closeRejected) = some (-1, sf)) ∧
    (∃ sf, Cpp.main Sim.env Sim.pbCpp 4 (St.start Sim.closeRejected) = some (-1, sf)) :=
  ⟨⟨_, rfl, (exit_zero_only_on_full_lifecycle Sim.env Sim.pbC Sim.pbCpp 4
      (St.start Sim.happy)).1 _ rfl⟩,
   ⟨_, rfl, (exit_zero_only_on_full_lifecycle Sim.env Sim.pbC Sim.pbCpp 4
      (St.start Sim.happy)).2.1 _ rfl⟩,
   rfl,
   ⟨_, (exit_zero_only_on_full_lifecycle Sim.env Sim.pbC Sim.pbCpp 4
      (St.start Sim.closeRejected)).2.2.1 (some 5) _ (some Sim.failedCloseResponse) _
      rfl rfl rfl⟩,
   ⟨_, (exit_zero_only_on_full_lifecycle Sim.env Sim.pbC Sim.pbCpp 4
      (St.start Sim.closeRejected)).2.2.2 (some 5) _ (some Sim.failedCloseResponse) _
      rfl rfl rfl⟩⟩

/-- C4, the code at the failing input.  First control message: a `Response`
with status `Success` whose payload is a close response.  The C port returns
-1 without any connect; the C++ port, which does not look at the response
case, calls `SetupAndConnectNamedPipe` with the empty default path, so an open
of the pipe is attempted (`CreateFileA ""`) before it returns -1. -/
theorem setup_payload_check_cpp_opens_pipe :
    isSuccessResponse (some Sim.closeResponse) = true ∧
    isSetupResponse (some Sim.closeResponse) = false ∧
    (C.main Sim.env Sim.pbC 4 (St.start Sim.wrongPayload)).map
        (fun r => (r.1, callsOf .main r.2.trace, callsOf .SetupAndConnectNamedPipe r.2.trace)) =
      some (-1, [.RequestVirtualChannel, .ReadNextMessage (some Sim.closeResponse)], []) ∧
    (Cpp.main Sim.env Sim.pbCpp 4 (St.start Sim.wrongPayload)).map
        (fun r => (r.1, callsOf .main r.2.trace, callsOf .SetupAndConnectNamedPipe r.2.trace)) =
      some (-1, [.RequestVirtualChannel, .ReadNextMessage (some Sim.closeResponse),
                 .SetupAndConnectNamedPipe "" INVALID_HANDLE_VALUE],
                [.CreateFileA ""]) := by
  decide

/-- C5, the code at the failing input.  On a full lifecycle the C port writes
the token once on the connected pipe and flushes that pipe before the next
receive; the C++ port writes the token once and goes straight to the next
receive: its `main` never calls `FlushFileBuffers`. -/
theorem auth_token_handoff_cpp_no_flush :
    (C.main Sim.env Sim.pbC 4 (St.start Sim.happy)).map
        (fun r => (r.1, (callsOf .main r.2.trace).take 6)) =
      some (0, [.RequestVirtualChannel, .ReadNextMessage (some Sim.setupResponse),
                .SetupAndConnectNamedPipe Sim.setupPayload.relay_path (some 5),
                .WriteFile (some 5) [7, 8, 9] 3, .FlushFileBuffers (some 5),
                .ReadNextMessage (some Sim.readyEvent)]) ∧
    (Cpp.main Sim.env Sim.pbCpp 4 (St.start Sim.happy)).map
        (fun r => (r.1, (callsOf .main r.2.trace).take 5)) =
      some (0, [.RequestVirtualChannel, .ReadNextMessage (some Sim.setupResponse),
                .SetupAndConnectNamedPipe Sim.setupPayload.relay_path (some 5),
                .WriteFile (some 5) [7, 8, 9] 3,
                .ReadNextMessage (some Sim.readyEvent)]) ∧
    (Cpp.main Sim.env Sim.pbCpp 4 (St.start Sim.happy)).map
        (fun r => (callsOf .main r.2.trace).filter (fun c => match c with
          | .FlushFileBuffers _ => true
          | _ => false)) = some [] := by
  decide

section SendFailures

variable {σ : Type} (env : Win32 σ)

theorem C_SendFails_returns (pb : ProtobufC) (fuel : Nat) (msg : ExtensionMessage) (s : St σ)
    (cause : SendFailure) (h : C.SendFails env pb fuel msg s cause) :
    ∃ s1, C.WriteMessage env pb fuel msg s = some s1 := by
  cases h with
  | outputHandle h0 => exact ⟨s, by simp only [C.WriteMessage, h0, if_true]⟩
  | encoding h0 h1 => exact ⟨s, by simp only [C.WriteMessage, h0, h1, if_true, if_false]⟩
  | allocation h0 h1 h2 =>
    exact ⟨s, by simp only [C.WriteMessage, h0, h1, h2, if_true, if_false]⟩
  | lengthPrefixWrite s1 h0 h1 h2 h3 =>
    exact ⟨s1, by simp [C.WriteMessage, h0, h1, h2, h3]⟩
  | payloadWrite s1 s2 h0 h1 h2 h3 h4 =>
    exact ⟨_, by simp [C.WriteMessage, h0, h1, h2, h3, h4]; rfl⟩

theorem Cpp_SendFails_returns (pb : ProtobufCpp) (fuel : Nat) (msg : ExtensionMessage)
    (s : St σ) (cause : SendFailure) (h : Cpp.SendFails env pb fuel msg s cause) :
    ∃ s1, Cpp.WriteMessage env pb fuel msg s = some s1 := by
  cases h with
  | outputHandle h0 => exact ⟨s, by simp only [Cpp.WriteMessage, h0, if_true]⟩
  | lengthPrefixWrite s1 h0 h3 =>
    exact ⟨s1, by simp [Cpp.WriteMessage, h0, h3]⟩
  | payloadWrite s1 s2 h0 h3 h4 =>
    exact ⟨_, by simp [Cpp.WriteMessage, h0, h3, h4]; rfl⟩

end SendFailures

section SendFailuresMain

variable {σ : Type} (env : Win32 σ)

theorem C_setup_receive_rejects (pb : ProtobufC) (fuel : Nat) (s s1 s2 : St σ)
    (m1 : Option DcvMessage) (hm : isSuccessResponse m1 = false)
    (h1 : C.RequestVirtualChannel env pb fuel (s.log .main .RequestVirtualChannel) = some s1)
    (h2 : C.ReadNextMessage env pb fuel s1 = some (m1, s2)) :
    C.main env pb fuel s = some (-1, s2.log .main (.ReadNextMessage m1)) := by
  apply C_main_of_setup_exit
  cases m1 with
  | none => simp only [C.main.setup, h1, h2]
  | some msg => exact C_setup_rejects env pb fuel s s1 s2 msg hm h1 h2

theorem Cpp_setup_receive_rejects (pb : ProtobufCpp) (fuel : Nat) (s s1 s2 : St σ)
    (m1 : Option DcvMessage) (hm : isSuccessResponse m1 = false)
    (h1 : Cpp.RequestVirtualChannel env pb fuel (s.log .main .RequestVirtualChannel) = some s1)
    (h2 : Cpp.ReadNextMessage env pb fuel s1 = some (m1, s2)) :
    Cpp.main env pb fuel s = some (-1, s2.log .main (.ReadNextMessage m1)) := by
  apply Cpp_main_of_setup_exit
  cases m1 with
  | none => simp only [Cpp.main.setup, h1, h2]
  | some msg => exact Cpp_setup_rejects env pb fuel s s1 s2 msg hm h1 h2

theorem C_close_receive_decides (pb : ProtobufC) (fuel : Nat) (s s1 s2 : St σ) (hnd : HANDLE)
    (m3 : Option DcvMessage)
    (h1 : C.main.sendClose env pb fuel s = some (.next hnd, s1))
    (h2 : C.ReadNextMessage env pb fuel s1 = some (m3, s2)) :
    C.main env pb fuel s
      = some (if isSuccessResponse m3 = true then 0 else -1,
              s2.log .main (.ReadNextMessage m3)) := by
  cases hm : isSuccessResponse m3 with
  | false => simpa using C_close_rejects env pb fuel s s1 s2 hnd m3 hm h1 h2
  | true =>
    match m3, hm with
    | some (.MSG_RESPONSE r), hm =>
      have hst : r.status = .SUCCESS := by simpa [isSuccessResponse] using hm
      simp [C.main, h1, h2, hst]

theorem Cpp_close_receive_decides (pb : ProtobufCpp) (fuel : Nat) (s s1 s2 : St σ)
    (hnd : HANDLE) (m3 : Option DcvMessage)
    (h1 : Cpp.main.sendClose env pb fuel s = some (.next hnd, s1))
    (h2 : Cpp.ReadNextMessage env pb fuel s1 = some (m3, s2)) :
    Cpp.main env pb fuel s
      = some (if isSuccessResponse m3 = true then 0 else -1,
              s2.log .main (.ReadNextMessage m3)) := by
  cases hm : isSuccessResponse m3 with
  | false => simpa using Cpp_close_rejects env pb fuel s s1 s2 hnd m3 hm h1 h2
  | true =>
    match m3, hm with
    | some (.MSG_RESPONSE r), hm =>
      have hst : r.status = .SUCCESS := by simpa [isSuccessResponse] using hm
      simp [Cpp.main, h1, h2, hst]

/-- The C port's `main` returns 0 when every step after the setup request
succeeds, whatever became of the sends. -/
theorem C_main_full_lifecycle (pb : ProtobufC) (fuel : Nat) (s : St σ)
    (resp resp3 : Response) (setup : SetupVirtualChannelResponse) (hnd : Nat)
    (s1 s2 s3 : St σ) (k : Nat) (s4 s5 s6 s7 s8 : St σ)
    (hresp : resp.status = .SUCCESS)
    (hcase : resp.response_case = .SETUP_VIRTUAL_CHANNEL_RESPONSE setup)
    (hresp3 : resp3.status = .SUCCESS)
    (h1 : C.RequestVirtualChannel env pb fuel (s.log .main .RequestVirtualChannel) = some s1)
    (h2 : C.ReadNextMessage env pb fuel s1 = some (some (.MSG_RESPONSE resp), s2))
    (h3 : SetupAndConnectNamedPipe env setup.relay_path fuel
        (s2.log .main (.ReadNextMessage (some (.MSG_RESPONSE resp)))) = some (some hnd, s3))
    (h4 : doWriteFile env .main
        (s3.log .main (.SetupAndConnectNamedPipe setup.relay_path (some hnd))) (some hnd)
        setup.virtual_channel_auth_token setup.virtual_channel_auth_token.length
        = (some k, s4))
    (h5 : doFlushFileBuffers env .main s4 (some hnd) = (true, s5))
    (h6 : C.ReadNextMessage env pb fuel s5
        = some (some (.MSG_EVENT ⟨.VIRTUAL_CHANNEL_READY_EVENT⟩), s6))
    (h7 : C.CloseVirtualChannel env pb fuel
        ((doCloseHandle env .main
          (C.main.dataLoop env (some hnd) 100 0
            (s6.log .main (.ReadNextMessage (some (.MSG_EVENT ⟨.VIRTUAL_CHANNEL_READY_EVENT⟩)))))
          (some hnd)).log .main .CloseVirtualChannel) = some s7)
    (h8 : C.ReadNextMessage env pb fuel s7 = some (some (.MSG_RESPONSE resp3), s8)) :
    C.main env pb fuel s
      = some (0, s8.log .main (.ReadNextMessage (some (.MSG_RESPONSE resp3)))) := by
  have hsetup : C.main.setup env pb fuel s = some (.next (setup, some hnd),
      s3.log .main (.SetupAndConnectNamedPipe setup.relay_path (some hnd))) := by
    simp only [C.main.setup, h1, h2, hcase, hresp, h3]
    simp [INVALID_HANDLE_VALUE]
  have hhand : C.main.handoff env pb fuel s = some (.next (some hnd), s5) := by
    simp only [C.main.handoff, hsetup, h4, h5]
  have hready : C.main.ready env pb fuel s = some (.next (some hnd),
      s6.log .main (.ReadNextMessage (some (.MSG_EVENT ⟨.VIRTUAL_CHANNEL_READY_EVENT⟩)))) := by
    simp [C.main.ready, hhand, h6]
  have hsend : C.main.sendClose env pb fuel s = some (.next (some hnd), s7) := by
    simp only [C.main.sendClose, hready, h7]
  simp [C.main, hsend, h8, hresp3]

/-- The C++ port's `main` returns 0 when every step after the setup request
succeeds, whatever became of the sends. -/
theorem Cpp_main_full_lifecycle (pb : ProtobufCpp) (fuel : Nat) (s : St σ)
    (resp resp3 : Response) (setup : SetupVirtualChannelResponse) (hnd : Nat)
    (s1 s2 s3 : St σ) (k : Nat) (s4 s6 s7 s8 : St σ)
    (hresp : resp.status = .SUCCESS)
    (hacc : pb.setup_virtual_channel_response resp = setup)
    (hresp3 : resp3.status = .SUCCESS)
    (h1 : Cpp.RequestVirtualChannel env pb fuel (s.log .main .RequestVirtualChannel) = some s1)
    (h2 : Cpp.ReadNextMessage env pb fuel s1 = some (some (.MSG_RESPONSE resp), s2))
    (h3 : SetupAndConnectNamedPipe env setup.relay_path fuel
        (s2.log .main (.ReadNextMessage (some (.MSG_RESPONSE resp)))) = some (some hnd, s3))
    (h4 : doWriteFile env .main
        (s3.log .main (.SetupAndConnectNamedPipe setup.relay_path (some hnd))) (some hnd)
        setup.virtual_channel_auth_token setup.virtual_channel_auth_token.length
        = (some k, s4))
    (h6 : Cpp.ReadNextMessage env pb fuel s4
        = some (some (.MSG_EVENT ⟨.VIRTUAL_CHANNEL_READY_EVENT⟩), s6))
    (h7 : Cpp.CloseVirtualChannel env pb fuel
        ((doCloseHandle env .main
          (Cpp.main.dataLoop env (some hnd) 100 0
            (s6.log .main (.ReadNextMessage (some (.MSG_EVENT ⟨.VIRTUAL_CHANNEL_READY_EVENT⟩)))))
          (some hnd)).log .main .CloseVirtualChannel) = some s7)
    (h8 : Cpp.ReadNextMessage env pb fuel s7 = some (some (.MSG_RESPONSE resp3), s8)) :
    Cpp.main env pb fuel s
      = some (0, s8.log .main (.ReadNextMessage (some (.MSG_RESPONSE resp3)))) := by
  have hsetup : Cpp.main.setup env pb fuel s = some (.next (resp, some hnd),
      s3.log .main (.SetupAndConnectNamedPipe setup.relay_path (some hnd))) := by
    simp only [Cpp.main.setup, h1, h2, hresp, hacc, h3]
    simp [INVALID_HANDLE_VALUE]
  have hhand : Cpp.main.handoff env pb fuel s = some (.next (some hnd), s4) := by
    simp only [Cpp.main.handoff, hsetup, hacc, h4]
  have hready : Cpp.main.ready env pb fuel s = some (.next (some hnd),
      s6.log .main (.ReadNextMessage (some (.MSG_EVENT ⟨.VIRTUAL_CHANNEL_READY_EVENT⟩)))) := by
    simp [Cpp.main.ready, hhand, h6]
  have hsend : Cpp.main.sendClose env pb fuel s = some (.next (some hnd), s7) := by
    simp only [Cpp.main.sendClose, hready, h7]
  simp [Cpp.main, hsend, h8, hresp3]

end SendFailuresMain

section SendFailuresClaim

variable {σ : Type} (env : Win32 σ)

/-- C11, as amended.  A failed send is not reported to `main`, in
both ports.  If sending the SetupVirtualChannelRequest fails, because the
output stream handle cannot be obtained, the message cannot be encoded or no
buffer can be allocated for it (the C port; the C++ port tests neither), or an
underlying write of the length prefix or of the payload reports an error, then
`RequestVirtualChannel` returns all the same and `main` goes on to the next
receive: `main` returns -1 if that receive yields nothing or anything but a
`Success` response, and returns 0 if the peer delivers the messages of a full
lifecycle and the later steps succeed.  If sending the
CloseVirtualChannelRequest fails for one of those reasons, `CloseVirtualChannel`
returns all the same and `main` goes on to the last receive: it returns 0 if
that receive yields a `Success` response and -1 otherwise. -/
theorem send_failures_not_fatal (pbC : ProtobufC) (pbCpp : ProtobufCpp) (fuel : Nat) (s : St σ)
    (cause : SendFailure) :
    (C.SendFails env pbC fuel
        (C.RequestVirtualChannel.message env (s.log .main .RequestVirtualChannel))
        (C.WriteRequest.entry env (s.log .main .RequestVirtualChannel)) cause →
      (∃ s1, C.RequestVirtualChannel env pbC fuel (s.log .main .RequestVirtualChannel)
        = some s1) ∧
      ∀ s1, C.RequestVirtualChannel env pbC fuel (s.log .main .RequestVirtualChannel)
          = some s1 →
        (∀ m1 s2, C.ReadNextMessage env pbC fuel s1 = some (m1, s2) →
          isSuccessResponse m1 = false →
          C.main env pbC fuel s = some (-1, s2.log .main (.ReadNextMessage m1))) ∧
        (∀ resp setup hnd resp3 s2 s3 k s4 s5 s6 s7 s8,
          resp.status = .SUCCESS →
          resp.response_case = .SETUP_VIRTUAL_CHANNEL_RESPONSE setup →
          resp3.status = .SUCCESS →
          C.ReadNextMessage env pbC fuel s1 = some (some (.MSG_RESPONSE resp), s2) →
          SetupAndConnectNamedPipe env setup.relay_path fuel
            (s2.log .main (.ReadNextMessage (some (.MSG_RESPONSE resp))))
            = some (some hnd, s3) →
          doWriteFile env .main
            (s3.log .main (.SetupAndConnectNamedPipe setup.relay_path (some hnd))) (some hnd)
            setup.virtual_channel_auth_token setup.virtual_channel_auth_token.length
            = (some k, s4) →
          doFlushFileBuffers env .main s4 (some hnd) = (true, s5) →
          C.ReadNextMessage env pbC fuel s5
            = some (some (.MSG_EVENT ⟨.VIRTUAL_CHANNEL_READY_EVENT⟩), s6) →
          C.CloseVirtualChannel env pbC fuel
            ((doCloseHandle env .main
              (C.main.dataLoop env (some hnd) 100 0
                (s6.log .main
                  (.ReadNextMessage (some (.MSG_EVENT ⟨.VIRTUAL_CHANNEL_READY_EVENT⟩)))))
              (some hnd)).log .main .CloseVirtualChannel) = some s7 →
          C.ReadNextMessage env pbC fuel s7 = some (some (.MSG_RESPONSE resp3), s8) →
          C.main env pbC fuel s
            = some (0, s8.log .main (.ReadNextMessage (some (.MSG_RESPONSE resp3)))))) ∧
    (∀ hnd s1, C.main.ready env pbC fuel s = some (.next hnd, s1) →
      C.SendFails env pbC fuel
        (C.CloseVirtualChannel.message env
          ((doCloseHandle env .main (C.main.dataLoop env hnd 100 0 s1) hnd).log
            .main .CloseVirtualChannel))
        (C.WriteRequest.entry env
          ((doCloseHandle env .main (C.main.dataLoop env hnd 100 0 s1) hnd).log
            .main .CloseVirtualChannel)) cause →
      (∃ s2, C.main.sendClose env pbC fuel s = some (.next hnd, s2)) ∧
      ∀ s2 m3 s3, C.main.sendClose env pbC fuel s = some (.next hnd, s2) →
        C.ReadNextMessage env pbC fuel s2 = some (m3, s3) →
        C.main env pbC fuel s
          = some (if isSuccessResponse m3 = true then 0 else -1,
                  s3.log .main (.ReadNextMessage m3))) ∧
    (Cpp.SendFails env pbCpp fuel
        (Cpp.RequestVirtualChannel.message env (s.log .main .RequestVirtualChannel))
        (Cpp.WriteRequest.entry (s.log .main .RequestVirtualChannel)) cause →
      (∃ s1, Cpp.RequestVirtualChannel env pbCpp fuel (s.log .main .RequestVirtualChannel)
        = some s1) ∧
      ∀ s1, Cpp.RequestVirtualChannel env pbCpp fuel (s.log .main .RequestVirtualChannel)
          = some s1 →
        (∀ m1 s2, Cpp.ReadNextMessage env pbCpp fuel s1 = some (m1, s2) →
          isSuccessResponse m1 = false →
          Cpp.main env pbCpp fuel s = some (-1, s2.log .main (.ReadNextMessage m1))) ∧
        (∀ resp setup hnd resp3 s2 s3 k s4 s6 s7 s8,
          resp.status = .SUCCESS →
          pbCpp.setup_virtual_channel_response resp = setup →
          resp3.status = .SUCCESS →
          Cpp.ReadNextMessage env pbCpp fuel s1 = some (some (.MSG_RESPONSE resp), s2) →
          SetupAndConnectNamedPipe env setup.relay_path fuel
            (s2.log .main (.ReadNextMessage (some (.MSG_RESPONSE resp))))
            = some (some hnd, s3) →
          doWriteFile env .main
            (s3.log .main (.SetupAndConnectNamedPipe setup.relay_path (some hnd))) (some hnd)
            setup.virtual_channel_auth_token setup.virtual_channel_auth_token.length
            = (some k, s4) →
          Cpp.ReadNextMessage env pbCpp fuel s4
            = some (some (.MSG_EVENT ⟨.VIRTUAL_CHANNEL_READY_EVENT⟩), s6) →
          Cpp.CloseVirtualChannel env pbCpp fuel
            ((doCloseHandle env .main
              (Cpp.main.dataLoop env (some hnd) 100 0
                (s6.log .main
                  (.ReadNextMessage (some (.MSG_EVENT ⟨.VIRTUAL_CHANNEL_READY_EVENT⟩)))))
              (some hnd)).log .main .CloseVirtualChannel) = some s7 →
          Cpp.ReadNextMessage env pbCpp fuel s7 = some (some (.MSG_RESPONSE resp3), s8) →
          Cpp.main env pbCpp fuel s
            = some (0, s8.log .main (.ReadNextMessage (some (.MSG_RESPONSE resp3)))))) ∧
    (∀ hnd s1, Cpp.main.ready env pbCpp fuel s = some (.next hnd, s1) →
      Cpp.SendFails env pbCpp fuel
        (Cpp.CloseVirtualChannel.message
          ((doCloseHandle env .main (Cpp.main.dataLoop env hnd 100 0 s1) hnd).log
            .main .CloseVirtualChannel))
        (Cpp.WriteRequest.entry
          ((doCloseHandle env .main (Cpp.main.dataLoop env hnd 100 0 s1) hnd).log
            .main .CloseVirtualChannel)) cause →
      (∃ s2, Cpp.main.sendClose env pbCpp fuel s = some (.next hnd, s2)) ∧
      ∀ s2 m3 s3, Cpp.main.sendClose env pbCpp fuel s = some (.next hnd, s2) →
        Cpp.ReadNextMessage env pbCpp fuel s2 = some (m3, s3) →
        Cpp.main env pbCpp fuel s
          = some (if isSuccessResponse m3 = true then 0 else -1,
                  s3.log .main (.ReadNextMessage m3))) := by
  refine ⟨?_, ?_, ?_, ?_⟩
  · intro hf
    refine ⟨C_SendFails_returns env pbC fuel _ _ cause hf, ?_⟩
    intro s1 h1
    exact ⟨fun m1 s2 h2 hm => C_setup_receive_rejects env pbC fuel s s1 s2 m1 hm h1 h2,
      fun resp setup hnd resp3 s2 s3 k s4 s5 s6 s7 s8 hr hc hr3 h2 h3 h4 h5 h6 h7 h8 =>
        C_main_full_lifecycle env pbC fuel s resp resp3 setup hnd s1 s2 s3 k s4 s5 s6 s7 s8
          hr hc hr3 h1 h2 h3 h4 h5 h6 h7 h8⟩
  · intro hnd s1 hready hf
    obtain ⟨s2, h2⟩ := C_SendFails_returns env pbC fuel _ _ cause hf
    have hsend : C.main.sendClose env pbC fuel s = some (.next hnd, s2) := by
      have h2' : C.CloseVirtualChannel env pbC fuel
          ((doCloseHandle env .main (C.main.dataLoop env hnd 100 0 s1) hnd).log
            .main .CloseVirtualChannel) = some s2 := h2
      simp only [C.main.sendClose, hready, h2']
    exact ⟨⟨s2, hsend⟩, fun s2 m3 s3 hs hr =>
      C_close_receive_decides env pbC fuel s s2 s3 hnd m3 hs hr⟩
  · intro hf
    refine ⟨Cpp_SendFails_returns env pbCpp fuel _ _ cause hf, ?_⟩
    intro s1 h1
    exact ⟨fun m1 s2 h2 hm => Cpp_setup_receive_rejects env pbCpp fuel s s1 s2 m1 hm h1 h2,
      fun resp setup hnd resp3 s2 s3 k s4 s6 s7 s8 hr hc hr3 h2 h3 h4 h6 h7 h8 =>
        Cpp_main_full_lifecycle env pbCpp fuel s resp resp3 setup hnd s1 s2 s3 k s4 s6 s7 s8
          hr hc hr3 h1 h2 h3 h4 h6 h7 h8⟩
  · intro hnd s1 hready hf
    obtain ⟨s2, h2⟩ := Cpp_SendFails_returns env pbCpp fuel _ _ cause hf
    have hsend : Cpp.main.sendClose env pbCpp fuel s = some (.next hnd, s2) := by
      have h2' : Cpp.CloseVirtualChannel env pbCpp fuel
          ((doCloseHandle env .main (Cpp.main.dataLoop env hnd 100 0 s1) hnd).log
            .main .CloseVirtualChannel) = some s2 := h2
      simp only [Cpp.main.sendClose, hready, h2']
    exact ⟨⟨s2, hsend⟩, fun s2 m3 s3 hs hr =>
      Cpp_close_receive_decides env pbCpp fuel s s2 s3 hnd m3 hs hr⟩

end SendFailuresClaim

/-- Counterexample to C11 as stated: the peer delivers the messages of a full
lifecycle while the sends fail.  With no standard output handle nothing at all
is written and both ports return 0; with a standard output whose writes report
an error from the first byte on, each send gives up at its first write of the
length prefix and both ports return 0; with a standard output that reports
errors after four bytes, the setup send fails in its payload write, the close
send in its length prefix, and both ports return 0; and the C port returns 0
when no message can be packed. -/
theorem send_failures_fatal_counterexample :
    C.SendFails Sim.envNoStdout Sim.pbC 4
      (C.RequestVirtualChannel.message Sim.envNoStdout
        ((St.start Sim.happy).log .main .RequestVirtualChannel))
      (C.WriteRequest.entry Sim.envNoStdout
        ((St.start Sim.happy).log .main .RequestVirtualChannel)) .outputHandle ∧
    (C.main Sim.envNoStdout Sim.pbC 4 (St.start Sim.happy)).map
        (fun r => (r.1, r.2.os.output, callsOf .WriteToHandle r.2.trace)) = some (0, [], []) ∧
    Cpp.SendFails Sim.envNoStdout Sim.pbCpp 4
      (Cpp.RequestVirtualChannel.message Sim.envNoStdout
        ((St.start Sim.happy).log .main .RequestVirtualChannel))
      (Cpp.WriteRequest.entry
        ((St.start Sim.happy).log .main .RequestVirtualChannel)) .outputHandle ∧
    (Cpp.main Sim.envNoStdout Sim.pbCpp 4 (St.start Sim.happy)).map
        (fun r => (r.1, r.2.os.output, callsOf .WriteToHandle r.2.trace)) = some (0, [], []) ∧
    (C.main (Sim.envWriteError 0) Sim.pbC 4 (St.start Sim.happy)).map
        (fun r => (r.1, r.2.os.output, callsOf .WriteToHandle r.2.trace)) =
      some (0, [], [.WriteFile Sim.stdout [2, 0, 0, 0] 4, .WriteFile Sim.stdout [2, 0, 0, 0] 4]) ∧
    (Cpp.main (Sim.envWriteError 0) Sim.pbCpp 4 (St.start Sim.happy)).map
        (fun r => (r.1, r.2.os.output, callsOf .WriteToHandle r.2.trace)) =
      some (0, [], [.WriteFile Sim.stdout [2, 0, 0, 0] 4, .WriteFile Sim.stdout [2, 0, 0, 0] 4]) ∧
    (C.main (Sim.envWriteError 4) Sim.pbC 4 (St.start Sim.happy)).map
        (fun r => (r.1, r.2.os.output)) = some (0, [2, 0, 0, 0]) ∧
    (Cpp.main (Sim.envWriteError 4) Sim.pbCpp 4 (St.start Sim.happy)).map
        (fun r => (r.1, r.2.os.output)) = some (0, [2, 0, 0, 0]) ∧
    (C.main Sim.env Sim.pbCNoPack 4 (St.start Sim.happy)).map
        (fun r => (r.1, r.2.os.output, callsOf .WriteToHandle r.2.trace)) = some (0, [], []) :=
  ⟨.outputHandle rfl, by decide, .outputHandle rfl, by decide, by decide, by decide, by decide,
    by decide, by decide⟩

/-- Witness of C11 as amended, on the scripted system.  Without a standard
output handle the setup send of the C port fails, `RequestVirtualChannel`
returns, and `main` returns 0 when the peer delivers a full lifecycle and -1
when it delivers nothing.  On a standard output that reports errors after four
bytes, the close send of the C port fails in its length prefix and the setup
send of the C++ port fails in its payload, and `main` returns 0.  Without a
standard output handle the close send of the C++ port fails and `main` returns
0.  When no message can be packed, the setup send of the C port fails and
`main` returns 0. -/
theorem send_failures_not_fatal_witness :
    C.SendFails Sim.envNoStdout Sim.pbC 4
      (C.RequestVirtualChannel.message Sim.envNoStdout
        ((St.start Sim.happy).log .main .RequestVirtualChannel))
      (C.WriteRequest.entry Sim.envNoStdout
        ((St.start Sim.happy).log .main .RequestVirtualChannel)) .outputHandle ∧
    (∃ s1, C.RequestVirtualChannel Sim.envNoStdout Sim.pbC 4
      ((St.start Sim.happy).log .main .RequestVirtualChannel) = some s1) ∧
    (∃ sf, C.main Sim.envNoStdout Sim.pbC 4 (St.start Sim.happy) = some (0, sf)) ∧
    (∃ sf, C.main Sim.envNoStdout Sim.pbC 4 (St.start (Sim.script [] [] [] [] []))
      = some (-1, sf)) ∧
    (∃ sf, C.main (Sim.envWriteError 4) Sim.pbC 4 (St.start Sim.happy) = some (0, sf)) ∧
    (∃ sf, Cpp.main (Sim.envWriteError 4) Sim.pbCpp 4 (St.start Sim.happy) = some (0, sf)) ∧
    (∃ sf, Cpp.main Sim.envNoStdout Sim.pbCpp 4 (St.start Sim.happy) = some (0, sf)) ∧
    (∃ sf, C.main Sim.env Sim.pbCNoPack 4 (St.start Sim.happy) = some (0, sf)) :=
  ⟨.outputHandle rfl,
   ((send_failures_not_fatal Sim.envNoStdout Sim.pbC Sim.pbCpp 4 (St.start Sim.happy)
      .outputHandle).1 (.outputHandle rfl)).1,
   ⟨_, (((send_failures_not_fatal Sim.envNoStdout Sim.pbC Sim.pbCpp 4 (St.start Sim.happy)
      .outputHandle).1 (.outputHandle rfl)).2 _ rfl).2 Sim.setupResp Sim.setupPayload 5
      Sim.closeResp _ _ _ _ _ _ _ _ rfl rfl rfl rfl rfl rfl rfl rfl rfl rfl⟩,
   ⟨_, (((send_failures_not_fatal Sim.envNoStdout Sim.pbC Sim.pbCpp 4
      (St.start (Sim.script [] [] [] [] [])) .outputHandle).1 (.outputHandle rfl)).2 _ rfl).1
      none _ rfl rfl⟩,
   ⟨_, ((send_failures_not_fatal (Sim.envWriteError 4) Sim.pbC Sim.pbCpp 4 (St.start Sim.happy)
      .lengthPrefixWrite).2.1 (some 5) _ rfl
      (.lengthPrefixWrite _ (by decide) (by decide) rfl rfl)).2 _ (some Sim.closeResponse) _
      rfl rfl⟩,
   ⟨_, (((send_failures_not_fatal (Sim.envWriteError 4) Sim.pbC Sim.pbCpp 4
      (St.start Sim.happy) .payloadWrite).2.2.1
      (.payloadWrite _ _ (by decide) rfl rfl)).2 _ rfl).2 Sim.setupResp Sim.setupPayload 5
      Sim.closeResp _ _ _ _ _ _ _ rfl rfl rfl rfl rfl rfl rfl rfl rfl⟩,
   ⟨_, ((send_failures_not_fatal Sim.envNoStdout Sim.pbC Sim.pbCpp 4 (St.start Sim.happy)
      .outputHandle).2.2.2 (some 5) _ rfl (.outputHandle rfl)).2 _ (some Sim.closeResponse) _
      rfl rfl⟩,
   ⟨_, (((send_failures_not_fatal Sim.env Sim.pbCNoPack Sim.pbCpp 4 (St.start Sim.happy)
      .encoding).1 (.encoding (by decide) rfl)).2 _ rfl).2 Sim.setupResp Sim.setupPayload 5
      Sim.closeResp _ _ _ _ _ _ _ _ rfl rfl rfl rfl rfl rfl rfl rfl rfl rfl⟩⟩

section DataPhaseSizes

variable {σ : Type} (env : Win32 σ)

theorem echo_message_fits (i : Nat) (h : i < 100) :
    (cstr ("Echo Test " ++ toString i)).length ≤ 100 := by
  interval_cases i <;> decide

theorem echo_message_length (i : Nat) (h : i < 100) :
    (writeAt ((List.range 100).map env.uninit) 0 (cstr ("Echo Test " ++ toString i))).length
      = 100 := by
  rw [writeAt_length _ _ _ (by simpa using echo_message_fits i h)]
  simp

/-- Every iteration of the C port's data loop, as `main` runs it, asks its
write for 101 bytes of the 100-byte `message`, and its read for 4095 bytes. -/
theorem C_dataLoop_sizes (h : HANDLE) :
    ∀ (left num_message : Nat) (s : St σ), num_message + left ≤ 100 →
      AddsOnly (fun e => C.isDataLoopEntry h e = true) s.trace
        (C.main.dataLoop env h left num_message s).trace := by
  intro left
  induction left with
  | zero => intro n s _; exact AddsOnly.refl _ _
  | succ left ih =>
    intro n s hn
    simp only [C.main.dataLoop]
    have hw : AddsOnly (fun e => C.isDataLoopEntry h e = true) s.trace
        (doWriteFile env .main s h
          (writeAt ((List.range 100).map env.uninit) 0 (cstr ("Echo Test " ++ toString n)))
          (100 + 1)).2.trace :=
      AddsOnly.single _ _ (by
        simp [C.isDataLoopEntry, echo_message_length env n (by omega)])
    split
    · rename_i s1 heq
      rw [heq] at hw
      exact hw
    · rename_i k s1 heq
      rw [heq] at hw
      have hr : AddsOnly (fun e => C.isDataLoopEntry h e = true) s1.trace
          (doReadFile env .main s1 h (READ_BUFFER_SIZE - 1)).2.trace :=
        AddsOnly.single _ _ (by simp [C.isDataLoopEntry, READ_BUFFER_SIZE])
      split
      · rename_i s2 heq2
        rw [heq2] at hr
        exact hw.trans hr
      · rename_i d s2 heq2
        rw [heq2] at hr
        have h3 : AddsOnly (fun e => C.isDataLoopEntry h e = true) s2.trace
            (s2.log .main (.StoreReadBuffer d.length)).trace :=
          AddsOnly.single _ _ (by simp [C.isDataLoopEntry])
        have h4 : AddsOnly (fun e => C.isDataLoopEntry h e = true)
            (s2.log .main (.StoreReadBuffer d.length)).trace
            (doSleep env .main (s2.log .main (.StoreReadBuffer d.length)) 1000).trace :=
          AddsOnly.single _ _ (by simp [C.isDataLoopEntry])
        exact (((hw.trans hr).trans h3).trans h4).trans (ih _ _ (by omega))

/-- The read half of the data loop stays in bounds: when reads never store
more than was asked for, every terminating store `read_buffer[read_bytes]` of
the C port's data loop has its index inside the 4096-byte read buffer. -/
theorem C_dataLoop_store_in_bounds (hwb : ReadsWithinRequest env) (h : HANDLE) :
    ∀ (left num_message : Nat) (s : St σ),
      AddsOnly (fun e => ∀ k, e.call = .StoreReadBuffer k → k < READ_BUFFER_SIZE) s.trace
        (C.main.dataLoop env h left num_message s).trace := by
  intro left
  induction left with
  | zero => intro n s; exact AddsOnly.refl _ _
  | succ left ih =>
    intro n s
    simp only [C.main.dataLoop]
    have hw : AddsOnly (fun e => ∀ k, e.call = .StoreReadBuffer k → k < READ_BUFFER_SIZE)
        s.trace
        (doWriteFile env .main s h
          (writeAt ((List.range 100).map env.uninit) 0 (cstr ("Echo Test " ++ toString n)))
          (100 + 1)).2.trace :=
      AddsOnly.single _ _ (by intro k hk; cases hk)
    split
    · rename_i s1 heq
      rw [heq] at hw
      exact hw
    · rename_i k s1 heq
      rw [heq] at hw
      have hr : AddsOnly (fun e => ∀ k, e.call = .StoreReadBuffer k → k < READ_BUFFER_SIZE)
          s1.trace (doReadFile env .main s1 h (READ_BUFFER_SIZE - 1)).2.trace :=
        AddsOnly.single _ _ (by intro k hk; cases hk)
      split
      · rename_i s2 heq2
        rw [heq2] at hr
        exact hw.trans hr
      · rename_i d s2 heq2
        rw [heq2] at hr
        have hd : d.length ≤ READ_BUFFER_SIZE - 1 := by
          have e1 : (env.ReadFile s1.os h (READ_BUFFER_SIZE - 1)).1 = some d :=
            congrArg Prod.fst heq2
          exact hwb s1.os h (READ_BUFFER_SIZE - 1) d (env.ReadFile s1.os h (READ_BUFFER_SIZE - 1)).2
            (by rw [← e1])
        have h3 : AddsOnly (fun e => ∀ k, e.call = .StoreReadBuffer k → k < READ_BUFFER_SIZE)
            s2.trace (s2.log .main (.StoreReadBuffer d.length)).trace :=
          AddsOnly.single _ _ (by
            intro k hk
            cases hk
            simp only [READ_BUFFER_SIZE] at hd ⊢
            omega)
        have h4 : AddsOnly (fun e => ∀ k, e.call = .StoreReadBuffer k → k < READ_BUFFER_SIZE)
            (s2.log .main (.StoreReadBuffer d.length)).trace
            (doSleep env .main (s2.log .main (.StoreReadBuffer d.length)) 1000).trace :=
          AddsOnly.single _ _ (by intro k hk; cases hk)
        exact (((hw.trans hr).trans h3).trans h4).trans (ih _ _)

theorem doReadFile_trace (fn : Fn) (s s1 : St σ) (hnd : HANDLE) (n : Nat)
    (r : Option (List Byte)) (h : doReadFile env fn s hnd n = (r, s1)) :
    s1.trace = s.trace ++ [⟨fn, .ReadFile hnd n⟩] := by
  have := congrArg (fun x => x.2.trace) h
  simpa [doReadFile] using this.symm

/-- The first entry an iteration of the C port's data loop adds is its write:
101 bytes asked of `message`. -/
theorem C_dataLoop_first_write (h : HANDLE) (left num_message : Nat) (s : St σ) :
    ∃ rest, (C.main.dataLoop env h (left + 1) num_message s).trace = s.trace ++
      ⟨.main, .WriteFile h
        (writeAt ((List.range 100).map env.uninit) 0
          (cstr ("Echo Test " ++ toString num_message))) 101⟩ :: rest := by
  simp only [C.main.dataLoop]
  split
  · rename_i s1 heq
    exact ⟨[], doWriteFile_trace env _ _ _ _ _ _ _ heq⟩
  · rename_i k s1 heq
    have hw := doWriteFile_trace env _ _ _ _ _ _ _ heq
    split
    · rename_i s2 heq2
      have hr := doReadFile_trace env _ _ _ _ _ _ heq2
      exact ⟨[⟨.main, .ReadFile h (READ_BUFFER_SIZE - 1)⟩], by rw [hr, hw]; simp⟩
    · rename_i d s2 heq2
      have hr := doReadFile_trace env _ _ _ _ _ _ heq2
      obtain ⟨added, ha, _⟩ := C_dataLoop_adds env h left (num_message + 1)
        (doSleep env .main (s2.log .main (.StoreReadBuffer d.length)) 1000)
      refine ⟨[⟨.main, .ReadFile h (READ_BUFFER_SIZE - 1)⟩, ⟨.main, .StoreReadBuffer d.length⟩,
        ⟨.main, .Sleep 1000⟩] ++ added, ?_⟩
      rw [ha]
      simp only [doSleep, St.log, hr, hw]
      simp

/-- The entries the C port's data loop adds are iterations of one write
followed by one read. -/
theorem C_dataLoop_iterations (h : HANDLE) :
    ∀ (left num_message : Nat) (s : St σ),
      ∃ added, (C.main.dataLoop env h left num_message s).trace = s.trace ++ added ∧
        isIterations (added.map Entry.call) = true := by
  intro left
  induction left with
  | zero => intro n s; exact ⟨[], by simp [C.main.dataLoop], rfl⟩
  | succ left ih =>
    intro n s
    simp only [C.main.dataLoop]
    split
    · rename_i s1 heq
      exact ⟨_, doWriteFile_trace env _ _ _ _ _ _ _ heq, rfl⟩
    · rename_i k s1 heq
      have hw := doWriteFile_trace env _ _ _ _ _ _ _ heq
      split
      · rename_i s2 heq2
        have hr := doReadFile_trace env _ _ _ _ _ _ heq2
        exact ⟨[⟨.main, .WriteFile h
          (writeAt ((List.range 100).map env.uninit) 0 (cstr ("Echo Test " ++ toString n)))
          (100 + 1)⟩, ⟨.main, .ReadFile h (READ_BUFFER_SIZE - 1)⟩],
          by rw [hr, hw]; simp, rfl⟩
      · rename_i d s2 heq2
        have hr := doReadFile_trace env _ _ _ _ _ _ heq2
        obtain ⟨added, ha, hs⟩ := ih (n + 1)
          (doSleep env .main (s2.log .main (.StoreReadBuffer d.length)) 1000)
        refine ⟨[⟨.main, .WriteFile h
          (writeAt ((List.range 100).map env.uninit) 0 (cstr ("Echo Test " ++ toString n)))
          (100 + 1)⟩, ⟨.main, .ReadFile h (READ_BUFFER_SIZE - 1)⟩,
          ⟨.main, .StoreReadBuffer d.length⟩, ⟨.main, .Sleep 1000⟩] ++ added, ?_, ?_⟩
        · rw [ha]
          simp only [doSleep, St.log, hr, hw]
          simp
        · simpa [isIterations] using hs

/-- C12, the code at the failing input.  In every run of the C port that
reaches the data loop, for every pipe handle and every environment, each entry
the loop adds is a call of `main` with these sizes: a write asks for 101 bytes
(`sizeof(message) + 1`) of the 100-byte `message`, a read asks for 4095 bytes;
the entries come as iterations of one write followed by one read; and the
first entry is the write of iteration 0, whose buffer is `message` holding
"Echo Test 0" and whose count is 101, so offset 100 lies outside the buffer.
On the scripted full lifecycle the writes of the C port's `main` have (object
size, requested count) (3, 3) for the token and (100, 101) for each payload;
the C++ port asks for the text and its terminator, (11, 11). -/
theorem data_phase_write_overruns_message (h : HANDLE) (s : St σ) :
    AddsOnly (fun e => C.isDataLoopEntry h e = true) s.trace
      (C.main.dataLoop env h 100 0 s).trace ∧
    (∃ added, (C.main.dataLoop env h 100 0 s).trace = s.trace ++ added ∧
      isIterations (added.map Entry.call) = true) ∧
    (∃ rest, (C.main.dataLoop env h 100 0 s).trace = s.trace ++
      ⟨.main, .WriteFile h
        (writeAt ((List.range 100).map env.uninit) 0 (cstr "Echo Test 0")) 101⟩ :: rest) ∧
    (writeAt ((List.range 100).map env.uninit) 0 (cstr "Echo Test 0")).length = 100 ∧
    (C.main Sim.env Sim.pbC 4 (St.start Sim.happy)).map
        (fun r => (r.1, writeSizes (callsOf .main r.2.trace))) =
      some (0, [(3, 3), (100, 101), (100, 101)]) ∧
    (Cpp.main Sim.env Sim.pbCpp 4 (St.start Sim.happy)).map
        (fun r => (r.1, writeSizes (callsOf .main r.2.trace))) =
      some (0, [(3, 3), (11, 11), (11, 11)]) := by
  refine ⟨C_dataLoop_sizes env h 100 0 s (by omega), C_dataLoop_iterations env h 100 0 s, ?_,
    echo_message_length env 0 (by omega), by decide, by decide⟩
  exact C_dataLoop_first_write env h 99 0 s

end DataPhaseSizes

section LoggerProofs

variable {φ : Type} (libc : Libc φ)

/-- Function `log_init` returns with the file-scope `log_file` as it found it. -/
theorem log_init_log_file (logFile : String) (s s1 : LogSt φ)
    (h : log_init libc logFile s = some s1) : s1.log_file = s.log_file := by
  unfold log_init at h
  repeat' (first
    | (split at h)
    | (simp only [Option.some.injEq, reduceCtorEq] at h))
  rw [← h]

/-- With `log_file` still `NULL`, `log_f` opens the null path; when that open
yields the null stream and output on the null stream is undefined, so is the
call. -/
theorem log_f_null_path (format : String) (args : List String) (s : LogSt φ) (fs1 : φ)
    (hnull : s.log_file = none)
    (hopen : libc.fopen s.fs none .a = (none, fs1))
    (hout : libc.fprintf fs1 none (libc.format format args) = none) :
    log_f libc format args s = none := by
  simp only [log_f, hnull, hopen, hout]

end LoggerProofs

/-- C13, the code at the failing input.  For every C library, path and state,
`log_init` returns with the logger's `log_file` as it found it: the statement
`logFile = logFile;` assigns the parameter to itself.  On the scripted file
system, `log_init` on the path `main.cpp` builds, from process start, leaves
that file holding the line "Created" and `log_file` null; the `log_f` that
`main.cpp` issues next opens the null path and has no defined result, so
nothing is appended.  Had `log_file` been the path, that same `log_f` would
have appended its text and a newline after the earlier contents. -/
theorem log_init_leaves_log_file_null :
    (∀ (φ : Type) (libc : Libc φ) (p : String) (s : LogSt φ),
      (log_init libc p s).all (fun s1 => decide (s1.log_file = s.log_file)) = true) ∧
    (log_init SimFs.libc SimFs.logPath (LogSt.start SimFs.empty)).map
        (fun s => (s.log_file, s.fs.content SimFs.logPath)) = some (none, some "Created\n") ∧
    ((log_init SimFs.libc SimFs.logPath (LogSt.start SimFs.empty)).bind
        (log_f SimFs.libc "RequestVirtualChannel" [])).isNone = true ∧
    (log_f SimFs.libc "RequestVirtualChannel" []
        { log_file := some SimFs.logPath,
          fs := { files := [(SimFs.logPath, "Created\n")], streams := [none] } }).map
        (fun s => (s.log_file, s.fs.content SimFs.logPath)) =
      some (some SimFs.logPath, some "Created\nRequestVirtualChannel\n") := by
  refine ⟨?_, by decide, by decide, by decide⟩
  intro φ libc p s
  cases h : log_init libc p s with
  | none => rfl
  | some s1 => simp [log_init_log_file libc p s s1 h]

section TraceEntries

variable {σ : Type} (env : Win32 σ)

end TraceEntries

section SendProofs

variable {σ : Type} (env : Win32 σ)

end SendProofs

section DataPhaseEntries

variable {σ : Type} (env : Win32 σ)

end DataPhaseEntries

section FirstEntries

variable {σ : Type} (env : Win32 σ)

end FirstEntries

section LifecycleParts

variable {σ : Type} (env : Win32 σ)

end LifecycleParts

section LifecycleAssembly

variable {σ : Type} (env : Win32 σ)

end LifecycleAssembly

section HappyPath

variable {σ : Type} (env : Win32 σ)

end HappyPath

end DcvExt
